import Mathlib

/-!
# TeensyDmx: DMX512 / RDM link-layer driver

A shallow embedding of `src/TeensyDmx.cpp`.

* The driver object is the record `TeensyDmx`; every member function is a function on it.
* A frame buffer is a map from byte offsets to byte values; only offsets below
  `DMX_BUFFER_SIZE` belong to the array.  A store or load whose offset is computed at run time
  is checked against the array bound, and the function returns `none` when the access falls
  outside of the array (undefined behaviour in C++).
* Calls on the UART (`m_uart`), writes to the direction pin (`*m_redePin`) and
  `delayMicroseconds` are recorded, in program order, in the field `trace`.
* `micros()` readings and the bytes waiting in the UART are inputs of the functions that
  consume them.
* Interrupt masking (`__disable_irq`) and interrupt-vector plumbing are not modelled.
-/

set_option linter.unusedVariables false

namespace TeensyDmx

/-! ## Constants of the translation unit -/

def BREAKSPEED : Nat := 100000

def RDM_BREAKSPEED : Nat := 45500

/-- Serial frame formats of the Teensy core used by this file. -/
inductive SerialFormat where
  | SERIAL_8E1
  | SERIAL_8N2
deriving DecidableEq, Repr

def BREAKFORMAT : SerialFormat := SerialFormat.SERIAL_8E1

def DMXSPEED : Nat := 250000

def DMXFORMAT : SerialFormat := SerialFormat.SERIAL_8N2

/-- The device's own unique ID. -/
def _devID : List Nat := [0x7f, 0xf0, 0x20, 0x12, 0x00, 0x00]

/-- The ID addressing all devices of the manufacturer. -/
def _devIDGroup : List Nat := [0x7f, 0xf0, 0xFF, 0xFF, 0xFF, 0xFF]

/-- The ID addressing all devices. -/
def _devIDAll : List Nat := [0xFF, 0xFF, 0xFF, 0xFF, 0xFF, 0xFF]

/-- Modelled from the spec: `DMX_BUFFER_SIZE` is declared in `teensydmx.h`, which is not among
the sources; the spec gives the frame buffers a fixed capacity of 512 bytes. -/
def DMX_BUFFER_SIZE : Nat := 512

/-- Modelled from the spec: `E120_SC_RDM` is declared in `rdm.h`, which is not among the
sources; the spec gives the RDM start code as 0xCC. -/
def E120_SC_RDM : Nat := 0xCC

/-- The names of `rdm.h` and `teensydmx.h` whose values the sources and the spec do not give.
They are parameters of the embedding. -/
structure Headers where
  E120_DISCOVERY_COMMAND : Nat
  E120_GET_COMMAND : Nat
  E120_SET_COMMAND : Nat
  E120_DISC_UNIQUE_BRANCH : Nat
  E120_DISC_MUTE : Nat
  E120_DISC_UN_MUTE : Nat
  E120_SUPPORTED_PARAMETERS : Nat
  E120_DEVICE_INFO : Nat
  E120_DEVICE_MODEL_DESCRIPTION : Nat
  E120_MANUFACTURER_LABEL : Nat
  E120_DEVICE_LABEL : Nat
  E120_SOFTWARE_VERSION_LABEL : Nat
  E120_DMX_START_ADDRESS : Nat
  E120_IDENTIFY_DEVICE : Nat
  E120_RESPONSE_TYPE_ACK : Nat
  E120_RESPONSE_TYPE_NACK_REASON : Nat
  E120_NR_UNKNOWN_PID : Nat
  E120_NR_FORMAT_ERROR : Nat
  E120_NR_HARDWARE_FAULT : Nat
  E120_NR_UNSUPPORTED_COMMAND_CLASS : Nat
  E120_NR_DATA_OUT_OF_RANGE : Nat
  E120_NR_SUB_DEVICE_OUT_OF_RANGE : Nat
  E120_PRODUCT_CATEGORY_DIMMER_CS_LED : Nat
  /-- The value of `sizeof(m_deviceLabel)`. -/
  sizeof_m_deviceLabel : Nat
  /-- The number of values of the type of `m_frameCount`. -/
  frameCountModulus : Nat

/-- The values ANSI E1.20 assigns to the names of `rdm.h`, with a 32-byte device label and a
32-bit frame counter; used where a concrete instance of the headers is needed. -/
def e120 : Headers where
  E120_DISCOVERY_COMMAND := 0x10
  E120_GET_COMMAND := 0x20
  E120_SET_COMMAND := 0x30
  E120_DISC_UNIQUE_BRANCH := 0x0001
  E120_DISC_MUTE := 0x0002
  E120_DISC_UN_MUTE := 0x0003
  E120_SUPPORTED_PARAMETERS := 0x0050
  E120_DEVICE_INFO := 0x0060
  E120_DEVICE_MODEL_DESCRIPTION := 0x0080
  E120_MANUFACTURER_LABEL := 0x0081
  E120_DEVICE_LABEL := 0x0082
  E120_SOFTWARE_VERSION_LABEL := 0x00C0
  E120_DMX_START_ADDRESS := 0x00F0
  E120_IDENTIFY_DEVICE := 0x1000
  E120_RESPONSE_TYPE_ACK := 0x00
  E120_RESPONSE_TYPE_NACK_REASON := 0x02
  E120_NR_UNKNOWN_PID := 0x0000
  E120_NR_FORMAT_ERROR := 0x0001
  E120_NR_HARDWARE_FAULT := 0x0002
  E120_NR_UNSUPPORTED_COMMAND_CLASS := 0x0005
  E120_NR_DATA_OUT_OF_RANGE := 0x0006
  E120_NR_SUB_DEVICE_OUT_OF_RANGE := 0x0009
  E120_PRODUCT_CATEGORY_DIMMER_CS_LED := 0x0509
  sizeof_m_deviceLabel := 32
  frameCountModulus := 2 ^ 32

/-! ## Data model -/

/-- A byte array seen from its base address: the value stored at each offset. -/
abbrev Buffer := Nat → Nat

/-- The states of the receive / transmit state machine (`enum State` of `teensydmx.h`). -/
inductive State where
  | IDLE
  | BREAK
  | DMX_TX
  | DMX_RECV
  | DMX_COMPLETE
  | RDM_RECV
deriving DecidableEq, Repr

/-- The modes of the driver (`enum Mode` of `teensydmx.h`). -/
inductive Mode where
  | DMX_OFF
  | DMX_IN
  | DMX_OUT
deriving DecidableEq, Repr

/-- The target of the pointers `m_activeBuffer` and `m_inactiveBuffer`. -/
inductive BufPtr where
  | m_dmxBuffer1
  | m_dmxBuffer2
deriving DecidableEq, Repr

/-- The addressing / identity configuration `struct RDMINIT` supplied by the application.
A C string is represented by its characters before the terminating NUL. -/
structure RDMINIT where
  deviceModelId : Nat
  startAddress : Nat
  footprint : Nat
  manufacturerLabel : List Nat
  deviceModel : List Nat
  softwareLabel : List Nat
  additionalCommands : List Nat
  additionalCommandsLength : Nat

/-- The calls the driver makes on its environment, in program order. -/
inductive Event where
  /-- The call `m_uart.begin(baud, format)`. -/
  | uartBegin (baud : Nat) (format : SerialFormat)
  /-- The call `m_uart.begin(baud)`. -/
  | uartBeginBaud (baud : Nat)
  /-- The call `m_uart.write(b)`. -/
  | uartWrite (b : Nat)
  /-- The call `m_uart.flush()`. -/
  | uartFlush
  /-- The call `m_uart.end()`. -/
  | uartEnd
  /-- The store `*m_redePin = v`. -/
  | redePin (v : Nat)
  /-- The call `delayMicroseconds(us)`. -/
  | delayMicroseconds (us : Nat)
deriving DecidableEq, Repr

end TeensyDmx

/-- The members of `class TeensyDmx`, and the trace of its calls on the environment. -/
structure TeensyDmx where
  m_dmxBuffer1 : TeensyDmx.Buffer
  m_dmxBuffer2 : TeensyDmx.Buffer
  m_activeBuffer : TeensyDmx.BufPtr
  m_inactiveBuffer : TeensyDmx.BufPtr
  m_dmxBufferIndex : Nat
  m_frameCount : Nat
  m_newFrame : Bool
  m_rdmChange : Bool
  m_mode : TeensyDmx.Mode
  m_state : TeensyDmx.State
  m_rdmMute : Bool
  m_identifyMode : Bool
  m_rdm : Option TeensyDmx.RDMINIT
  m_deviceLabel : TeensyDmx.Buffer
  trace : List TeensyDmx.Event

namespace TeensyDmx

/-- The array a buffer pointer points to. -/
def deref (s : TeensyDmx) : BufPtr → Buffer
  | BufPtr.m_dmxBuffer1 => s.m_dmxBuffer1
  | BufPtr.m_dmxBuffer2 => s.m_dmxBuffer2

/-- Replace the array a buffer pointer points to. -/
def assign (s : TeensyDmx) (p : BufPtr) (b : Buffer) : TeensyDmx :=
  match p with
  | BufPtr.m_dmxBuffer1 => { s with m_dmxBuffer1 := b }
  | BufPtr.m_dmxBuffer2 => { s with m_dmxBuffer2 := b }

/-- The array `m_activeBuffer` points to. -/
def active (s : TeensyDmx) : Buffer := deref s s.m_activeBuffer

/-- The store `m_activeBuffer[i] = v` (a byte store). -/
def storeActive (s : TeensyDmx) (i v : Nat) : TeensyDmx :=
  assign s s.m_activeBuffer (Function.update (active s) i (v % 256))

/-- Record calls on the environment. -/
def emit (s : TeensyDmx) (es : List Event) : TeensyDmx :=
  { s with trace := s.trace ++ es }

/-- The constructor: both buffers and the label zeroed, buffer 1 active. -/
def init (rdm : Option RDMINIT) : TeensyDmx where
  m_dmxBuffer1 := fun _ => 0
  m_dmxBuffer2 := fun _ => 0
  m_activeBuffer := BufPtr.m_dmxBuffer1
  m_inactiveBuffer := BufPtr.m_dmxBuffer2
  m_dmxBufferIndex := 0
  m_frameCount := 0
  m_newFrame := false
  m_rdmChange := false
  m_mode := Mode.DMX_OFF
  m_state := State.IDLE
  m_rdmMute := false
  m_identifyMode := false
  m_rdm := rdm
  m_deviceLabel := fun _ => 0
  trace := [Event.redePin 0]

/-- The member `getBuffer`: the application-visible buffer. -/
def getBuffer (s : TeensyDmx) : Buffer := deref s s.m_inactiveBuffer

/-- The member `isIdentify`. -/
def isIdentify (s : TeensyDmx) : Bool := s.m_identifyMode

/-- The member `getLabel`. -/
def getLabel (s : TeensyDmx) : Buffer := s.m_deviceLabel

/-- One iteration of the loop of `readBytes`, for the byte `b` returned by `m_uart.read()`.
In the receiving states the index is incremented first and the byte is stored at the
incremented index; `none` when that index is outside of the buffer. -/
def readByte (s : TeensyDmx) (b : Nat) : Option TeensyDmx :=
  match s.m_state with
  | State.BREAK =>
    if b = 0 then some { s with m_state := State.DMX_RECV }
    else if b = E120_SC_RDM then some { s with m_state := State.RDM_RECV }
    else some { s with m_state := State.IDLE }
  | State.RDM_RECV | State.DMX_RECV =>
    let s1 := { s with m_dmxBufferIndex := s.m_dmxBufferIndex + 1 }
    if s1.m_dmxBufferIndex < DMX_BUFFER_SIZE then
      let s2 := storeActive s1 s1.m_dmxBufferIndex b
      if s2.m_dmxBufferIndex = DMX_BUFFER_SIZE then
        if s2.m_state = State.DMX_RECV then some { s2 with m_state := State.DMX_COMPLETE }
        else some { s2 with m_state := State.IDLE }
      else some s2
    else
      none
  | _ => some s

/-- The member `readBytes`, for the bytes `rx` waiting in the UART (oldest first). -/
def readBytes (s : TeensyDmx) : List Nat → Option TeensyDmx
  | [] => some s
  | b :: rx => (readByte s b).bind fun s1 => readBytes s1 rx

/-! ## The RDM message overlay

`struct RDMDATA` and `struct DISCOVERYMSG` are laid over the active buffer.  The fields are
taken at consecutive offsets in declaration order (the wire layout: a header of 23 bytes, so
that `DataLength + 24` counts the start code too), 16-bit fields in the byte order of the
processor (least significant byte first). -/

namespace RDMDATA

def SubStartCode : Nat := 0
def Length : Nat := 1
def DestID : Nat := 2
def SourceID : Nat := 8
def _TransNo : Nat := 14
def ResponseType : Nat := 15
def _unknown : Nat := 16
def SubDev : Nat := 17
def CmdClass : Nat := 19
def Parameter : Nat := 20
def DataLength : Nat := 22
def Data : Nat := 23

end RDMDATA

namespace DISCOVERYMSG

def headerFE : Nat := 0
def headerAA : Nat := 7
def maskedDevID : Nat := 8
def checksum : Nat := 20
def sizeof : Nat := 24

end DISCOVERYMSG

/-- The `n` bytes of a buffer from offset `ofs` on. -/
def bytes (b : Buffer) (ofs n : Nat) : List Nat :=
  (List.range n).map fun i => b (ofs + i)

/-- A 16-bit field read in the byte order of the processor. -/
def load16 (b : Buffer) (ofs : Nat) : Nat :=
  b ofs + 256 * b (ofs + 1)

/-- The library function `memcmp` on two byte sequences of the same length: the difference
of the first two bytes that differ, 0 when there are none. -/
def memcmp : List Nat → List Nat → Int
  | a :: as, b :: bs => if a = b then memcmp as bs else (a : Int) - (b : Int)
  | _, _ => 0

/-- The library function `memcpy` into a buffer at offset `ofs`, of `n` bytes read through
`src`. -/
def memcpy (dst : Buffer) (ofs : Nat) (src : Nat → Nat) (n : Nat) : Buffer :=
  fun i => if ofs ≤ i ∧ i < ofs + n then src (i - ofs) else dst i

/-- The library function `strlen` on a character array of `cap` elements: the offset of the
first NUL; `none` when the array holds none (the scan leaves the array). -/
def strlen (a : Buffer) (cap : Nat) : Option Nat :=
  (List.range cap).find? fun i => a i == 0

/-- Replace the array `m_activeBuffer` points to. -/
def setActive (s : TeensyDmx) (b : Buffer) : TeensyDmx :=
  assign s s.m_activeBuffer b

/-- The helper `putInt` on the active buffer: a 16-bit value, most significant byte first. -/
def putInt (s : TeensyDmx) (offset value : Nat) : TeensyDmx :=
  storeActive (storeActive s offset ((value % 65536) >>> 8)) (offset + 1) ((value % 65536) &&& 0xff)

/-- The calls `m_uart.write(b); m_uart.flush();` for each byte of a sequence. -/
def sendBytes : List Nat → List Event
  | [] => []
  | b :: bs => Event.uartWrite b :: Event.uartFlush :: sendBytes bs

/-- The member `startReceive` (the interrupt set-up is not modelled). -/
def startReceive (s : TeensyDmx) : TeensyDmx :=
  let s1 := emit s [Event.redePin 0, Event.uartBeginBaud 250000]
  { s1 with m_dmxBufferIndex := 0, m_state := State.IDLE }

/-- The member `stopReceive` (the interrupt tear-down is not modelled). -/
def stopReceive (s : TeensyDmx) : TeensyDmx :=
  emit s [Event.uartEnd]

/-- Subtraction of `unsigned long` values (32 bits on the target). -/
def subUL (a b : Nat) : Nat := (a % 2 ^ 32 + 2 ^ 32 - b % 2 ^ 32) % 2 ^ 32

/-- The checksum loop of `respondMessage`: a 16-bit sum of the first `n` bytes of a buffer,
starting from `c`. -/
def checkSumLoop (b : Buffer) (n : Nat) (c : Nat) : Nat :=
  (List.range n).foldl (fun acc i => (acc + b i) % 65536) c

/-- The first block of `respondMessage` (TIMING); `now` is the value `micros()` returns. -/
def respondDelay (now : Nat) (s : TeensyDmx) (timingStart : Nat) : TeensyDmx :=
  -- TIMING: don't send too fast, min: 176 microseconds
  let timingStart := subUL now timingStart
  if timingStart < 176 then emit s [Event.delayMicroseconds (176 - timingStart)] else s

/-- The second block of `respondMessage`: the request in the active buffer is rewritten into
the response.  The argument `nackReason` is a `uint16_t`. -/
def respondFill (K : Headers) (s : TeensyDmx) (isHandled : Bool) (nackReason : Nat) :
    TeensyDmx :=
  let nackReason := nackReason % 65536
  let s :=
    if isHandled then
      storeActive s RDMDATA.ResponseType K.E120_RESPONSE_TYPE_ACK
    else
      let s := storeActive s RDMDATA.ResponseType K.E120_RESPONSE_TYPE_NACK_REASON
      let s := storeActive s RDMDATA.DataLength 2
      let s := storeActive s (RDMDATA.Data + 0) ((nackReason >>> 8) &&& 0xFF)
      storeActive s (RDMDATA.Data + 1) (nackReason &&& 0xFF)
  let s := storeActive s RDMDATA.Length (active s RDMDATA.DataLength + 24)
  -- swap SrcID into DestID for sending back.
  let s := setActive s
    (memcpy (active s) RDMDATA.DestID (fun i => active s (RDMDATA.SourceID + i)) 6)
  let s := setActive s (memcpy (active s) RDMDATA.SourceID (fun i => _devID.getD i 0) 6)
  storeActive s RDMDATA.CmdClass (active s RDMDATA.CmdClass + 1)

/-- The third block of `respondMessage`: checksum, `stopReceive`, the reply on the UART,
`startReceive`. -/
def respondSend (s : TeensyDmx) : TeensyDmx :=
  -- prepare buffer and Checksum
  let checkSum := checkSumLoop (active s) (active s RDMDATA.Length) (E120_SC_RDM % 65536)
  -- Send reply
  let s := stopReceive s
  let s := emit s [Event.redePin 1]
  let s := { s with m_dmxBufferIndex := 0 }
  let s := emit s [Event.uartBegin RDM_BREAKSPEED BREAKFORMAT, Event.uartWrite 0,
    Event.uartFlush, Event.uartBegin DMXSPEED DMXFORMAT, Event.uartWrite E120_SC_RDM,
    Event.uartFlush]
  let s := emit s (sendBytes (bytes (active s) 0 (active s RDMDATA.Length)))
  let s := emit s [Event.uartWrite (checkSum >>> 8), Event.uartFlush,
    Event.uartWrite (checkSum &&& 0xff), Event.uartFlush]
  -- Restart receive
  startReceive s

/-- The member `respondMessage`; `now` is the value `micros()` returns on entry. -/
def respondMessage (K : Headers) (now : Nat) (s : TeensyDmx) (timingStart : Nat)
    (isHandled : Bool) (nackReason : Nat) : TeensyDmx :=
  respondSend (respondFill K (respondDelay now s timingStart) isHandled nackReason)

/-! ## RDM handlers

Every handler takes the reading `now` of `micros()` that `respondMessage` would make, the
driver, and the arguments `timingStart` and `isForMe`; the argument `rdm` is the active
buffer. -/

/-- The two loops and the four checksum stores of `rdmUniqueBranch` that fill in the
discovery response. -/
def fillDiscovery (s : TeensyDmx) : TeensyDmx :=
  let checksum := 6 * 0xFF
  let s := (List.range 7).foldl
    (fun s i => storeActive s (DISCOVERYMSG.headerFE + i) 0xFE) s
  let s := storeActive s DISCOVERYMSG.headerAA 0xAA
  let sc := (List.range 6).foldl
    (fun (sc : TeensyDmx × Nat) i =>
      let s := storeActive sc.1 (DISCOVERYMSG.maskedDevID + (i + i)) (_devID.getD i 0 ||| 0xAA)
      let s := storeActive s (DISCOVERYMSG.maskedDevID + (i + i + 1)) (_devID.getD i 0 ||| 0x55)
      (s, (sc.2 + _devID.getD i 0) % 65536))
    (s, checksum)
  let s := sc.1
  let checksum := sc.2
  let s := storeActive s (DISCOVERYMSG.checksum + 0) ((checksum >>> 8) ||| 0xAA)
  let s := storeActive s (DISCOVERYMSG.checksum + 1) ((checksum >>> 8) ||| 0x55)
  let s := storeActive s (DISCOVERYMSG.checksum + 2) ((checksum &&& 0xFF) ||| 0xAA)
  storeActive s (DISCOVERYMSG.checksum + 3) ((checksum &&& 0xFF) ||| 0x55)

/-- The member `rdmUniqueBranch`. -/
def rdmUniqueBranch (s : TeensyDmx) (timingStart : Nat) (isForMe : Bool) : TeensyDmx :=
  if s.m_rdmMute then s
  else if active s RDMDATA.Length ≠ 36 then s
  else if active s RDMDATA.DataLength ≠ 12 then s
  else if memcmp (bytes (active s) RDMDATA.Data 6) _devID ≤ 0 ∧
      memcmp _devID (bytes (active s) (RDMDATA.Data + 6) 6) ≤ 0 then
    -- I'm in range - say hello to the lovely controller
    let s := fillDiscovery s
    -- Send reply
    let s := stopReceive s
    let s := emit s [Event.redePin 1]
    let s := { s with m_dmxBufferIndex := 0 }
    let s := emit s [Event.uartBegin RDM_BREAKSPEED BREAKFORMAT, Event.uartWrite 0,
      Event.uartFlush, Event.uartBegin DMXSPEED DMXFORMAT]
    let s := emit s (sendBytes (bytes (active s) 0 DISCOVERYMSG.sizeof))
    startReceive s
  else s

/-- The member `rdmUnmute`. -/
def rdmUnmute (K : Headers) (now : Nat) (s : TeensyDmx) (timingStart : Nat) (isForMe : Bool) :
    TeensyDmx :=
  if isForMe ∧ active s RDMDATA.DataLength = 0 then
    let s := { s with m_rdmMute := false }
    -- Control field
    let s := storeActive s (RDMDATA.Data + 0) 0
    let s := storeActive s (RDMDATA.Data + 1) 0
    let s := storeActive s RDMDATA.DataLength 2
    respondMessage K now s timingStart true 0
  else s

/-- The member `rdmMute`. -/
def rdmMute (K : Headers) (now : Nat) (s : TeensyDmx) (timingStart : Nat) (isForMe : Bool) :
    TeensyDmx :=
  if isForMe ∧ active s RDMDATA.DataLength = 0 then
    let s := { s with m_rdmMute := true }
    -- Control field
    let s := storeActive s (RDMDATA.Data + 0) 0
    let s := storeActive s (RDMDATA.Data + 1) 0
    let s := storeActive s RDMDATA.DataLength 2
    respondMessage K now s timingStart true 0
  else s

/-- The member `rdmSetIdentify`. -/
def rdmSetIdentify (K : Headers) (now : Nat) (s : TeensyDmx) (timingStart : Nat)
    (isForMe : Bool) : TeensyDmx :=
  if active s RDMDATA.DataLength ≠ 1 then
    -- Oversized data
    respondMessage K now s timingStart false K.E120_NR_FORMAT_ERROR
  else if active s (RDMDATA.Data + 0) ≠ 0 ∧ active s (RDMDATA.Data + 0) ≠ 1 then
    -- Out of range data
    respondMessage K now s timingStart false K.E120_NR_DATA_OUT_OF_RANGE
  else
    let s := { s with m_identifyMode := decide (active s (RDMDATA.Data + 0) ≠ 0) }
    let s := { s with m_rdmChange := true }
    let s := storeActive s RDMDATA.DataLength 0
    respondMessage K now s timingStart true 0

/-- The member `rdmSetDeviceLabel`; `none` when the terminating NUL is stored outside of
`m_deviceLabel`. -/
def rdmSetDeviceLabel (K : Headers) (now : Nat) (s : TeensyDmx) (timingStart : Nat)
    (isForMe : Bool) : Option TeensyDmx :=
  if active s RDMDATA.DataLength > K.sizeof_m_deviceLabel then
    -- Oversized data
    some (respondMessage K now s timingStart false K.E120_NR_FORMAT_ERROR)
  else
    let copied := memcpy s.m_deviceLabel 0 (fun i => active s (RDMDATA.Data + i))
      (active s RDMDATA.DataLength)
    let s := { s with m_deviceLabel := copied }
    if active s RDMDATA.DataLength < K.sizeof_m_deviceLabel then
      let terminated := Function.update s.m_deviceLabel (active s RDMDATA.DataLength) 0
      let s := { s with m_deviceLabel := terminated }
      let s := storeActive s RDMDATA.DataLength 0
      let s := { s with m_rdmChange := true }
      some (respondMessage K now s timingStart true 0)
    else
      none

/-- The member `rdmSetStartAddress`. -/
def rdmSetStartAddress (K : Headers) (now : Nat) (s : TeensyDmx) (timingStart : Nat)
    (isForMe : Bool) : TeensyDmx :=
  if active s RDMDATA.DataLength ≠ 2 then
    -- Oversized data
    respondMessage K now s timingStart false K.E120_NR_FORMAT_ERROR
  else
    let newStartAddress :=
      ((active s (RDMDATA.Data + 0) <<< 8) ||| active s (RDMDATA.Data + 1)) % 65536
    if newStartAddress ≤ 0 ∨ newStartAddress > DMX_BUFFER_SIZE then
      -- Out of range start address
      respondMessage K now s timingStart false K.E120_NR_DATA_OUT_OF_RANGE
    else
      match s.m_rdm with
      | none => respondMessage K now s timingStart false K.E120_NR_HARDWARE_FAULT
      | some rdm =>
        let s := { s with m_rdm := some { rdm with startAddress := newStartAddress } }
        let s := storeActive s RDMDATA.DataLength 0
        let s := { s with m_rdmChange := true }
        respondMessage K now s timingStart true 0

/-- The member `rdmSetParameters`. -/
def rdmSetParameters (K : Headers) (now : Nat) (s : TeensyDmx) (timingStart : Nat)
    (isForMe : Bool) : TeensyDmx :=
  respondMessage K now s timingStart false K.E120_NR_UNSUPPORTED_COMMAND_CLASS

/-- The member `rdmGetIdentify`. -/
def rdmGetIdentify (K : Headers) (now : Nat) (s : TeensyDmx) (timingStart : Nat)
    (isForMe : Bool) : TeensyDmx :=
  if active s RDMDATA.DataLength > 0 then
    -- Unexpected data
    respondMessage K now s timingStart false K.E120_NR_FORMAT_ERROR
  else if load16 (active s) RDMDATA.SubDev ≠ 0 then
    -- No sub-devices supported
    respondMessage K now s timingStart false K.E120_NR_SUB_DEVICE_OUT_OF_RANGE
  else
    let s := storeActive s (RDMDATA.Data + 0) (if s.m_identifyMode then 1 else 0)
    let s := storeActive s RDMDATA.DataLength 1
    respondMessage K now s timingStart true 0

/-- The layout of `struct DEVICEINFO` (length = 19), laid over `rdm->Data`. -/
def DEVICEINFO.protocolMajor : Nat := 0
def DEVICEINFO.protocolMinor : Nat := 1
def DEVICEINFO.deviceModel : Nat := 2
def DEVICEINFO.productCategory : Nat := 4
def DEVICEINFO.softwareVersion : Nat := 6
def DEVICEINFO.footprint : Nat := 10
def DEVICEINFO.currentPersonality : Nat := 12
def DEVICEINFO.personalityCount : Nat := 13
def DEVICEINFO.startAddress : Nat := 14
def DEVICEINFO.subDeviceCount : Nat := 16
def DEVICEINFO.sensorCount : Nat := 18
def DEVICEINFO.sizeof : Nat := 19

/-- A 16-bit field of the active buffer assigned in the byte order of the processor. -/
def store16 (s : TeensyDmx) (ofs v : Nat) : TeensyDmx :=
  storeActive (storeActive s ofs (v % 256)) (ofs + 1) (v / 256 % 256)

/-- A 32-bit field of the active buffer assigned in the byte order of the processor. -/
def store32 (s : TeensyDmx) (ofs v : Nat) : TeensyDmx :=
  store16 (store16 s ofs (v % 65536)) (ofs + 2) (v / 65536 % 65536)

/-- The member `rdmGetDeviceInfo`. -/
def rdmGetDeviceInfo (K : Headers) (now : Nat) (s : TeensyDmx) (timingStart : Nat)
    (isForMe : Bool) : TeensyDmx :=
  if active s RDMDATA.DataLength > 0 then
    -- Unexpected data
    respondMessage K now s timingStart false K.E120_NR_FORMAT_ERROR
  else if load16 (active s) RDMDATA.SubDev ≠ 0 then
    -- No sub-devices supported
    respondMessage K now s timingStart false K.E120_NR_SUB_DEVICE_OUT_OF_RANGE
  else
    -- return all device info data
    let devInfo := RDMDATA.Data
    let s := storeActive s (devInfo + DEVICEINFO.protocolMajor) 1
    let s := storeActive s (devInfo + DEVICEINFO.protocolMinor) 0
    let s := putInt s (devInfo + DEVICEINFO.productCategory) K.E120_PRODUCT_CATEGORY_DIMMER_CS_LED
    let s := store32 s (devInfo + DEVICEINFO.softwareVersion) 0x00000010
    let s := storeActive s (devInfo + DEVICEINFO.currentPersonality) 1
    let s := storeActive s (devInfo + DEVICEINFO.personalityCount) 1
    let s := store16 s (devInfo + DEVICEINFO.subDeviceCount) 0
    let s := storeActive s (devInfo + DEVICEINFO.sensorCount) 0
    let s :=
      match s.m_rdm with
      | none =>
        let s := store16 s (devInfo + DEVICEINFO.deviceModel) 0
        let s := store16 s (devInfo + DEVICEINFO.startAddress) 0
        store16 s (devInfo + DEVICEINFO.footprint) 0
      | some rdm =>
        let s := putInt s (devInfo + DEVICEINFO.deviceModel) rdm.deviceModelId
        let s := putInt s (devInfo + DEVICEINFO.startAddress) rdm.startAddress
        putInt s (devInfo + DEVICEINFO.footprint) rdm.footprint
    let s := storeActive s RDMDATA.DataLength DEVICEINFO.sizeof
    respondMessage K now s timingStart true 0

/-- The common tail of the three handlers that return a string of the configuration:
`rdm->DataLength = strlen(label); memcpy(rdm->Data, label, rdm->DataLength);` and the ACK. -/
def respondLabel (K : Headers) (now : Nat) (s : TeensyDmx) (timingStart : Nat)
    (label : List Nat) : TeensyDmx :=
  let s := storeActive s RDMDATA.DataLength label.length
  let s := setActive s
    (memcpy (active s) RDMDATA.Data (fun i => label.getD i 0) (active s RDMDATA.DataLength))
  respondMessage K now s timingStart true 0

/-- The member `rdmGetManufacturerLabel`. -/
def rdmGetManufacturerLabel (K : Headers) (now : Nat) (s : TeensyDmx) (timingStart : Nat)
    (isForMe : Bool) : TeensyDmx :=
  if active s RDMDATA.DataLength > 0 then
    -- Unexpected data
    respondMessage K now s timingStart false K.E120_NR_FORMAT_ERROR
  else if load16 (active s) RDMDATA.SubDev ≠ 0 then
    -- No sub-devices supported
    respondMessage K now s timingStart false K.E120_NR_SUB_DEVICE_OUT_OF_RANGE
  else
    match s.m_rdm with
    | none =>
      let s := storeActive s RDMDATA.DataLength 0
      respondMessage K now s timingStart true 0
    | some rdm =>
      -- return the manufacturer label
      respondLabel K now s timingStart rdm.manufacturerLabel

/-- The member `rdmGetModelDescription`. -/
def rdmGetModelDescription (K : Headers) (now : Nat) (s : TeensyDmx) (timingStart : Nat)
    (isForMe : Bool) : TeensyDmx :=
  if active s RDMDATA.DataLength > 0 then
    -- Unexpected data
    respondMessage K now s timingStart false K.E120_NR_FORMAT_ERROR
  else if load16 (active s) RDMDATA.SubDev ≠ 0 then
    -- No sub-devices supported
    respondMessage K now s timingStart false K.E120_NR_SUB_DEVICE_OUT_OF_RANGE
  else
    match s.m_rdm with
    | none =>
      let s := storeActive s RDMDATA.DataLength 0
      respondMessage K now s timingStart true 0
    | some rdm =>
      -- return the DEVICE MODEL DESCRIPTION
      respondLabel K now s timingStart rdm.deviceModel

/-- The member `rdmGetDeviceLabel`; `none` when `m_deviceLabel` holds no NUL. -/
def rdmGetDeviceLabel (K : Headers) (now : Nat) (s : TeensyDmx) (timingStart : Nat)
    (isForMe : Bool) : Option TeensyDmx :=
  if active s RDMDATA.DataLength > 0 then
    -- Unexpected data
    some (respondMessage K now s timingStart false K.E120_NR_FORMAT_ERROR)
  else if load16 (active s) RDMDATA.SubDev ≠ 0 then
    -- No sub-devices supported
    some (respondMessage K now s timingStart false K.E120_NR_SUB_DEVICE_OUT_OF_RANGE)
  else
    match strlen s.m_deviceLabel K.sizeof_m_deviceLabel with
    | none => none
    | some n =>
      let s := storeActive s RDMDATA.DataLength n
      let s := setActive s
        (memcpy (active s) RDMDATA.Data s.m_deviceLabel (active s RDMDATA.DataLength))
      some (respondMessage K now s timingStart true 0)

/-- The member `rdmGetSoftwareVersion`. -/
def rdmGetSoftwareVersion (K : Headers) (now : Nat) (s : TeensyDmx) (timingStart : Nat)
    (isForMe : Bool) : TeensyDmx :=
  if active s RDMDATA.DataLength > 0 then
    -- Unexpected data
    respondMessage K now s timingStart false K.E120_NR_FORMAT_ERROR
  else if load16 (active s) RDMDATA.SubDev ≠ 0 then
    -- No sub-devices supported
    respondMessage K now s timingStart false K.E120_NR_SUB_DEVICE_OUT_OF_RANGE
  else
    match s.m_rdm with
    | none =>
      let s := storeActive s RDMDATA.DataLength 0
      respondMessage K now s timingStart true 0
    | some rdm =>
      -- return the SOFTWARE_VERSION_LABEL
      respondLabel K now s timingStart rdm.softwareLabel

/-- The member `rdmGetStartAddress`. -/
def rdmGetStartAddress (K : Headers) (now : Nat) (s : TeensyDmx) (timingStart : Nat)
    (isForMe : Bool) : TeensyDmx :=
  if active s RDMDATA.DataLength > 0 then
    -- Unexpected data
    respondMessage K now s timingStart false K.E120_NR_FORMAT_ERROR
  else if load16 (active s) RDMDATA.SubDev ≠ 0 then
    -- No sub-devices supported
    respondMessage K now s timingStart false K.E120_NR_SUB_DEVICE_OUT_OF_RANGE
  else
    let s :=
      match s.m_rdm with
      | none => putInt s (RDMDATA.Data + 0) 0
      | some rdm => putInt s (RDMDATA.Data + 0) rdm.startAddress
    let s := storeActive s RDMDATA.DataLength 2
    respondMessage K now s timingStart true 0

/-- The loop of `rdmGetParameters` over `n = 0 .. additionalCommandsLength - 1`; `none` when
`additionalCommands[n]` does not exist or the two bytes fall outside of the buffer. -/
def putAdditionalCommands (rdm : RDMINIT) (s : TeensyDmx) : List Nat → Option TeensyDmx
  | [] => some s
  | n :: ns =>
    match rdm.additionalCommands.get? n with
    | none => none
    | some c =>
      if RDMDATA.Data + (6 + n + n) + 1 < DMX_BUFFER_SIZE then
        putAdditionalCommands rdm (putInt s (RDMDATA.Data + (6 + n + n)) c) ns
      else none

/-- The member `rdmGetParameters`. -/
def rdmGetParameters (K : Headers) (now : Nat) (s : TeensyDmx) (timingStart : Nat)
    (isForMe : Bool) : Option TeensyDmx :=
  if active s RDMDATA.DataLength > 0 then
    -- Unexpected data
    some (respondMessage K now s timingStart false K.E120_NR_FORMAT_ERROR)
  else if load16 (active s) RDMDATA.SubDev ≠ 0 then
    -- No sub-devices supported
    some (respondMessage K now s timingStart false K.E120_NR_SUB_DEVICE_OUT_OF_RANGE)
  else
    let filled :=
      match s.m_rdm with
      | none => some (storeActive s RDMDATA.DataLength 6)
      | some rdm =>
        let s := storeActive s RDMDATA.DataLength (2 * (3 + rdm.additionalCommandsLength))
        putAdditionalCommands rdm s (List.range rdm.additionalCommandsLength)
    filled.map fun s =>
      let s := putInt s (RDMDATA.Data + 0) K.E120_MANUFACTURER_LABEL
      let s := putInt s (RDMDATA.Data + 2) K.E120_DEVICE_MODEL_DESCRIPTION
      let s := putInt s (RDMDATA.Data + 4) K.E120_DEVICE_LABEL
      respondMessage K now s timingStart true 0

/-! ## Dispatch -/

/-- An entry of the handler table: command class, parameter ID, member function. -/
structure RDMHandler where
  commandClass : Nat
  parameter : Nat
  function : Headers → Nat → TeensyDmx → Nat → Bool → Option TeensyDmx

/-- The handler table `m_rdmHandlers`, as the constructor fills it. -/
def m_rdmHandlers (K : Headers) : List RDMHandler :=
  [ ⟨K.E120_DISCOVERY_COMMAND, K.E120_DISC_UNIQUE_BRANCH,
      fun _ _ s t f => some (rdmUniqueBranch s t f)⟩,
    ⟨K.E120_DISCOVERY_COMMAND, K.E120_DISC_UN_MUTE, fun K n s t f => some (rdmUnmute K n s t f)⟩,
    ⟨K.E120_DISCOVERY_COMMAND, K.E120_DISC_MUTE, fun K n s t f => some (rdmMute K n s t f)⟩,
    ⟨K.E120_SET_COMMAND, K.E120_IDENTIFY_DEVICE, fun K n s t f => some (rdmSetIdentify K n s t f)⟩,
    ⟨K.E120_SET_COMMAND, K.E120_DEVICE_LABEL, rdmSetDeviceLabel⟩,
    ⟨K.E120_SET_COMMAND, K.E120_DMX_START_ADDRESS,
      fun K n s t f => some (rdmSetStartAddress K n s t f)⟩,
    ⟨K.E120_SET_COMMAND, K.E120_SUPPORTED_PARAMETERS,
      fun K n s t f => some (rdmSetParameters K n s t f)⟩,
    ⟨K.E120_GET_COMMAND, K.E120_IDENTIFY_DEVICE, fun K n s t f => some (rdmGetIdentify K n s t f)⟩,
    ⟨K.E120_GET_COMMAND, K.E120_DEVICE_INFO, fun K n s t f => some (rdmGetDeviceInfo K n s t f)⟩,
    ⟨K.E120_GET_COMMAND, K.E120_MANUFACTURER_LABEL,
      fun K n s t f => some (rdmGetManufacturerLabel K n s t f)⟩,
    ⟨K.E120_GET_COMMAND, K.E120_DEVICE_MODEL_DESCRIPTION,
      fun K n s t f => some (rdmGetModelDescription K n s t f)⟩,
    ⟨K.E120_GET_COMMAND, K.E120_DEVICE_LABEL, rdmGetDeviceLabel⟩,
    ⟨K.E120_GET_COMMAND, K.E120_SOFTWARE_VERSION_LABEL,
      fun K n s t f => some (rdmGetSoftwareVersion K n s t f)⟩,
    ⟨K.E120_GET_COMMAND, K.E120_DMX_START_ADDRESS,
      fun K n s t f => some (rdmGetStartAddress K n s t f)⟩,
    ⟨K.E120_GET_COMMAND, K.E120_SUPPORTED_PARAMETERS, rdmGetParameters⟩ ]

/-- The loop of `processRDM` over the handler table: the first entry that matches is invoked
and ends the loop.  The result carries the flag `handled`. -/
def dispatch (K : Headers) (now timingStart : Nat) (isForMe : Bool) (parameter : Nat)
    (s : TeensyDmx) : List RDMHandler → Option (TeensyDmx × Bool)
  | [] => some (s, false)
  | h :: hs =>
    if active s RDMDATA.CmdClass = h.commandClass ∧ parameter = h.parameter then
      (h.function K now s timingStart isForMe).map fun s1 => (s1, true)
    else dispatch K now timingStart isForMe parameter s hs

/-- The member `processRDM`; `timingStart` is the value `micros()` returns on entry and `now`
the value it returns when `respondMessage` is entered. -/
def processRDM (K : Headers) (timingStart now : Nat) (s : TeensyDmx) : Option TeensyDmx :=
  let isForMe := decide (memcmp (bytes (active s) RDMDATA.DestID 6) _devID = 0)
  if !isForMe ∧
      memcmp (bytes (active s) RDMDATA.DestID 6) _devIDAll ≠ 0 ∧
      memcmp (bytes (active s) RDMDATA.DestID 6) _devIDGroup ≠ 0 then
    -- This packet is not for me...
    some s
  else
    let parameter :=
      ((load16 (active s) RDMDATA.Parameter <<< 8) |||
        ((load16 (active s) RDMDATA.Parameter >>> 8) &&& 0xff)) % 65536
    (dispatch K now timingStart isForMe parameter s (m_rdmHandlers K)).map fun r =>
      if r.2 = false then
        respondMessage K now r.1 timingStart r.2 K.E120_NR_UNKNOWN_PID
      else r.1

/-! ## Frame completion -/

/-- The member `completeFrame`, run on a break; `rx` are the bytes still waiting in the UART,
`timingStart` and `now` the readings of `micros()` made if an RDM message is processed. -/
def completeFrame (K : Headers) (rx : List Nat) (timingStart now : Nat) (s : TeensyDmx) :
    Option TeensyDmx :=
  -- Ensure we've processed all the data that may still be sitting in software buffers.
  (readBytes s rx).bind fun s =>
    let finished : Option TeensyDmx :=
      if s.m_state = State.DMX_RECV ∨ s.m_state = State.DMX_COMPLETE then
        -- Update frame count and swap buffers
        let s := { s with m_frameCount := (s.m_frameCount + 1) % K.frameCountModulus }
        let s :=
          if s.m_activeBuffer = BufPtr.m_dmxBuffer1 then
            { s with m_activeBuffer := BufPtr.m_dmxBuffer2, m_inactiveBuffer := BufPtr.m_dmxBuffer1 }
          else
            { s with m_activeBuffer := BufPtr.m_dmxBuffer1, m_inactiveBuffer := BufPtr.m_dmxBuffer2 }
        some { s with m_newFrame := true }
      else if s.m_state = State.RDM_RECV then
        -- Check if we need to reply to this RDM message
        let s := { s with m_state := State.IDLE }
        processRDM K timingStart now s
      else some s
    finished.map fun s => { s with m_dmxBufferIndex := 0, m_state := State.BREAK }

/-- The member `loop`. -/
def loop (s : TeensyDmx) (rx : List Nat) : Option TeensyDmx :=
  if s.m_mode = Mode.DMX_IN then readBytes s rx else some s

/-! ## Observations used in the statements -/

/-- The bytes passed to `m_uart.write`, in order. -/
def uartWritten : List Event → List Nat
  | [] => []
  | Event.uartWrite b :: es => b :: uartWritten es
  | _ :: es => uartWritten es

/-- The microseconds passed to `delayMicroseconds`, in order. -/
def delays : List Event → List Nat
  | [] => []
  | Event.delayMicroseconds us :: es => us :: delays es
  | _ :: es => delays es

/-- The bytes of an RDM response on the wire for the message held in `b`: the break byte,
the start code, the message body of `Length` bytes, and the two bytes `hi`, `lo` after it. -/
def wireFrame (b : Buffer) (hi lo : Nat) : List Nat :=
  [0, E120_SC_RDM] ++ bytes b 0 (b RDMDATA.Length) ++ [hi, lo]

/-- The additive 16-bit checksum of a message body: start code plus all bytes, mod 65536. -/
def additiveChecksum (body : List Nat) : Nat :=
  (E120_SC_RDM + body.sum) % 65536

/-- Between the trace `before` and the driver `s`, exactly one RDM response was written to
the UART, and it is the message held in the active buffer of `s`. -/
def responseSent (before : List Event) (s : TeensyDmx) : Prop :=
  uartWritten s.trace = uartWritten before ++
    wireFrame (active s)
      (additiveChecksum (bytes (active s) 0 (active s RDMDATA.Length)) / 256)
      (additiveChecksum (bytes (active s) 0 (active s RDMDATA.Length)) % 256)

/-- The response sent since `before` is a NACK with the reason code `reason`. -/
def nackSent (K : Headers) (before : List Event) (s : TeensyDmx) (reason : Nat) : Prop :=
  responseSent before s ∧
  active s RDMDATA.ResponseType = K.E120_RESPONSE_TYPE_NACK_REASON % 256 ∧
  active s RDMDATA.DataLength = 2 ∧
  active s (RDMDATA.Data + 0) = reason % 65536 / 256 ∧
  active s (RDMDATA.Data + 1) = reason % 256

/-- The response sent since `before` is an ACK with the parameter data `payload`. -/
def ackSent (K : Headers) (before : List Event) (s : TeensyDmx) (payload : List Nat) : Prop :=
  responseSent before s ∧
  active s RDMDATA.ResponseType = K.E120_RESPONSE_TYPE_ACK % 256 ∧
  active s RDMDATA.DataLength = payload.length ∧
  bytes (active s) RDMDATA.Data payload.length = payload

instance (before : List Event) (s : TeensyDmx) : Decidable (responseSent before s) := by
  unfold responseSent
  infer_instance

instance (K : Headers) (before : List Event) (s : TeensyDmx) (reason : Nat) :
    Decidable (nackSent K before s reason) := by
  unfold nackSent
  infer_instance

instance (K : Headers) (before : List Event) (s : TeensyDmx) (payload : List Nat) :
    Decidable (ackSent K before s payload) := by
  unfold ackSent
  infer_instance

/-- The number a byte sequence denotes, most significant byte first. -/
def bigEndian (l : List Nat) : Nat :=
  l.foldl (fun acc b => acc * 256 + b) 0

/-- The buffer that holds the bytes `l` from offset 0 on, and 0 after them. -/
def ofBytes (l : List Nat) : Buffer :=
  fun i => l.getD i 0

/-- A driver in reception whose active buffer holds the bytes `l` (used for concrete
instances). -/
def holding (rdm : Option RDMINIT) (l : List Nat) : TeensyDmx :=
  setActive { init rdm with m_mode := Mode.DMX_IN } (ofBytes l)

/-- An RDM message in wire layout (without the start code), built from its fields. -/
def rdmMessage (dest source : List Nat) (transNo subDev cmdClass parameter : Nat)
    (data : List Nat) : List Nat :=
  [0x01, data.length + 24] ++ dest ++ source ++
    [transNo, 0x01, 0x00, subDev / 256 % 256, subDev % 256, cmdClass,
      parameter / 256 % 256, parameter % 256, data.length] ++ data

/-- The array among two that a buffer pointer selects. -/
def pick (p : BufPtr) (b1 b2 : Buffer) : Buffer :=
  match p with
  | BufPtr.m_dmxBuffer1 => b1
  | BufPtr.m_dmxBuffer2 => b2

/-- A configuration used for concrete instances: model 1, start address 1, footprint 4,
labels "AB", "CD", "EF", no additional parameters. -/
def sampleConfig : RDMINIT where
  deviceModelId := 1
  startAddress := 1
  footprint := 4
  manufacturerLabel := [0x41, 0x42]
  deviceModel := [0x43, 0x44]
  softwareLabel := [0x45, 0x46]
  additionalCommands := []
  additionalCommandsLength := 0

/-- The source ID used for concrete instances of a controller. -/
def sampleController : List Nat := [0x7a, 0x70, 0x00, 0x00, 0x00, 0x01]

/-- A driver in reception right after a break: state BREAK, index 0, both buffers zeroed. -/
def listening (rdm : Option RDMINIT) : TeensyDmx :=
  { init rdm with m_mode := Mode.DMX_IN, m_state := State.BREAK }

/-- The 512 data bytes 1, 2, 3, ... (mod 256) used as a concrete DMX frame. -/
def sampleFrame : List Nat :=
  (List.range 512).map fun i => (i + 1) % 256

/-! ## Transmission and the application interface -/

/-- The member `setChannel`. -/
def setChannel (s : TeensyDmx) (address value : Nat) : TeensyDmx :=
  if address < DMX_BUFFER_SIZE then storeActive s address value else s

/-- The library function `memset` with the value 0 on `n` bytes of the active buffer from
offset `ofs`; `none` when the range leaves the buffer. -/
def memsetActive (s : TeensyDmx) (ofs n : Nat) : Option TeensyDmx :=
  if ofs + n ≤ DMX_BUFFER_SIZE then
    some (setActive s fun i => if ofs ≤ i ∧ i < ofs + n then 0 else active s i)
  else none

/-- The library function `memcpy` of `n` bytes into the active buffer at offset `ofs`; `none`
when the range leaves the buffer. -/
def memcpyActive (s : TeensyDmx) (ofs : Nat) (src : Nat → Nat) (n : Nat) : Option TeensyDmx :=
  if ofs + n ≤ DMX_BUFFER_SIZE then some (setActive s (memcpy (active s) ofs src n))
  else none

/-- The member `setChannels`; `startAddress` and `length` are `uint16_t`, `values` is the
array the argument points to.  The sums and differences are computed in `int`; the value
assigned to `correctedLength` is converted to `uint16_t` and the third argument of `memset`
to `size_t` (32 bits on the target). -/
def setChannels (s : TeensyDmx) (startAddress : Nat) (values : Nat → Nat) (length : Nat) :
    Option TeensyDmx :=
  let correctedLength :=
    if startAddress + length > DMX_BUFFER_SIZE then
      (DMX_BUFFER_SIZE + 65536 - startAddress) % 65536
    else length
  (if startAddress > 0 then memsetActive s 0 startAddress else some s).bind fun s =>
    (memcpyActive s startAddress values correctedLength).bind fun s =>
      if startAddress + correctedLength ≠ DMX_BUFFER_SIZE then
        memsetActive s (startAddress + length)
          ((DMX_BUFFER_SIZE + 2 ^ 32 - correctedLength) % 2 ^ 32)
      else some s

/-- The member `nextTx`, run on every "transmission complete" interrupt; `none` when the
buffer is read outside of its bounds. -/
def nextTx (s : TeensyDmx) : Option TeensyDmx :=
  if s.m_state = State.BREAK then
    let s := { s with m_state := State.DMX_TX }
    some (emit s [Event.uartBegin DMXSPEED DMXFORMAT, Event.uartWrite 0])
  else if s.m_state = State.DMX_TX then
    -- Check if we're at the end of the packet
    if s.m_dmxBufferIndex = DMX_BUFFER_SIZE then
      -- Send BREAK
      let s := { s with m_state := State.BREAK }
      let s := emit s [Event.uartBegin BREAKSPEED BREAKFORMAT, Event.uartWrite 0]
      some { s with m_dmxBufferIndex := 0 }
    else if s.m_dmxBufferIndex < DMX_BUFFER_SIZE then
      let s := emit s [Event.uartWrite (active s s.m_dmxBufferIndex)]
      some { s with m_dmxBufferIndex := s.m_dmxBufferIndex + 1 }
    else none
  else some s

/-- The member `nextTx` run `n` times in a row. -/
def nextTxTimes : Nat → TeensyDmx → Option TeensyDmx
  | 0, s => some s
  | n + 1, s => (nextTx s).bind (nextTxTimes n)

/-- The member `startTransmit` (the interrupt set-up is not modelled). -/
def startTransmit (s : TeensyDmx) : TeensyDmx :=
  let s := emit s [Event.redePin 1]
  let s := { s with m_dmxBufferIndex := 0 }
  -- Send BREAK
  let s := { s with m_state := State.BREAK }
  emit s [Event.uartBegin BREAKSPEED BREAKFORMAT, Event.uartWrite 0]

/-- The member `stopTransmit` (the interrupt tear-down is not modelled). -/
def stopTransmit (s : TeensyDmx) : TeensyDmx :=
  emit s [Event.uartEnd]

/-- The member `setMode`. -/
def setMode (s : TeensyDmx) (mode : Mode) : TeensyDmx :=
  let s :=
    match s.m_mode with
    | Mode.DMX_IN => stopReceive s
    | Mode.DMX_OUT => stopTransmit s
    | _ => s
  let s := { s with m_mode := mode }
  match s.m_mode with
  | Mode.DMX_IN => startReceive s
  | Mode.DMX_OUT => startTransmit s
  | _ => emit s [Event.redePin 0]

/-- The member `newFrame`: the value returned and the driver afterwards. -/
def newFrame (s : TeensyDmx) : Bool × TeensyDmx :=
  if s.m_newFrame then (true, { s with m_newFrame := false }) else (false, s)

/-- The member `rdmChanged`: the value returned and the driver afterwards. -/
def rdmChanged (s : TeensyDmx) : Bool × TeensyDmx :=
  if s.m_rdmChange then (true, { s with m_rdmChange := false }) else (false, s)

/-- The parameter ID `processRDM` compares with the handler table: the 16-bit field
`Parameter` with its two bytes swapped. -/
def requestParameter (b : Buffer) : Nat :=
  ((load16 b RDMDATA.Parameter <<< 8) ||| ((load16 b RDMDATA.Parameter >>> 8) &&& 0xff)) % 65536

/-- An entry of the handler table is the one for command class `c` and parameter `p`. -/
def RDMHandler.isFor (h : RDMHandler) (c p : Nat) : Prop :=
  c = h.commandClass ∧ p = h.parameter

instance (h : RDMHandler) (c p : Nat) : Decidable (h.isFor c p) := by
  unfold RDMHandler.isFor
  infer_instance

/-- The device state the RDM handlers can change: mute flag, identify flag, RDM-changed flag,
configuration (with the start address) and device label. -/
def deviceState (s : TeensyDmx) : Bool × Bool × Bool × Option RDMINIT × Buffer :=
  (s.m_rdmMute, s.m_identifyMode, s.m_rdmChange, s.m_rdm, s.m_deviceLabel)

/-- The driver `s2` has the trace, the buffer roles, the frame counter and the new-frame flag
of `s`. -/
def sameFrame (s s2 : TeensyDmx) : Prop :=
  s2.trace = s.trace ∧ s2.m_activeBuffer = s.m_activeBuffer ∧
  s2.m_inactiveBuffer = s.m_inactiveBuffer ∧ s2.m_frameCount = s.m_frameCount ∧
  s2.m_newFrame = s.m_newFrame

/-- The driver `r` results from `s` by one call of `respondMessage`, made after changes that
leave `sameFrame` intact. -/
def answered (K : Headers) (now timingStart : Nat) (s r : TeensyDmx) : Prop :=
  ∃ s2 isHandled nackReason, sameFrame s s2 ∧
    r = respondMessage K now s2 timingStart isHandled nackReason

/-- The accesses of the RDM handlers to the device label, to the configuration and to the
active buffer stay in bounds for the request held in `s`: the device label holds a NUL, the
request is not a SET device label whose DataLength is the capacity of the label, and the
configuration holds the `additionalCommandsLength` parameter IDs it announces, at most 241. -/
def dispatchInBounds (K : Headers) (s : TeensyDmx) : Prop :=
  (strlen s.m_deviceLabel K.sizeof_m_deviceLabel).isSome = true ∧
  ¬ (active s RDMDATA.CmdClass = K.E120_SET_COMMAND ∧
      requestParameter (active s) = K.E120_DEVICE_LABEL ∧
      active s RDMDATA.DataLength = K.sizeof_m_deviceLabel) ∧
  match s.m_rdm with
  | none => True
  | some cfg =>
    cfg.additionalCommandsLength ≤ cfg.additionalCommands.length ∧
    cfg.additionalCommandsLength ≤ 241

instance (K : Headers) (s : TeensyDmx) : Decidable (dispatchInBounds K s) := by
  unfold dispatchInBounds
  cases s.m_rdm <;> infer_instance

/-- The driver `r` has the buffer roles, the frame counter and the new-frame flag of `s`. -/
def sameRoles (s r : TeensyDmx) : Prop :=
  r.m_activeBuffer = s.m_activeBuffer ∧ r.m_inactiveBuffer = s.m_inactiveBuffer ∧
  r.m_frameCount = s.m_frameCount ∧ r.m_newFrame = s.m_newFrame

/-- The request held in `s` is one of the three discovery commands of the handler table:
unique branch, un-mute, mute. -/
def isDiscoveryRequest (K : Headers) (s : TeensyDmx) : Prop :=
  active s RDMDATA.CmdClass = K.E120_DISCOVERY_COMMAND ∧
  (requestParameter (active s) = K.E120_DISC_UNIQUE_BRANCH ∨
    requestParameter (active s) = K.E120_DISC_UN_MUTE ∨
    requestParameter (active s) = K.E120_DISC_MUTE)

instance (K : Headers) (s : TeensyDmx) : Decidable (isDiscoveryRequest K s) := by
  unfold isDiscoveryRequest
  infer_instance

/-- The request held in `s` is addressed to the device: its destination ID is the own ID, the
all-devices ID or the manufacturer-group ID. -/
def isAddressed (s : TeensyDmx) : Prop :=
  bytes (active s) RDMDATA.DestID 6 = _devID ∨ bytes (active s) RDMDATA.DestID 6 = _devIDAll ∨
    bytes (active s) RDMDATA.DestID 6 = _devIDGroup

instance (s : TeensyDmx) : Decidable (isAddressed s) := by
  unfold isAddressed
  infer_instance

/-- The request held in `s` is a discovery unique-branch request. -/
def isUniqueBranchRequest (K : Headers) (s : TeensyDmx) : Prop :=
  active s RDMDATA.CmdClass = K.E120_DISCOVERY_COMMAND ∧
  requestParameter (active s) = K.E120_DISC_UNIQUE_BRANCH

instance (K : Headers) (s : TeensyDmx) : Decidable (isUniqueBranchRequest K s) := by
  unfold isUniqueBranchRequest
  infer_instance

/-- The request held in `s` is a discovery un-mute or mute request. -/
def isMuteRequest (K : Headers) (s : TeensyDmx) : Prop :=
  active s RDMDATA.CmdClass = K.E120_DISCOVERY_COMMAND ∧
  (requestParameter (active s) = K.E120_DISC_UN_MUTE ∨
    requestParameter (active s) = K.E120_DISC_MUTE)

instance (K : Headers) (s : TeensyDmx) : Decidable (isMuteRequest K s) := by
  unfold isMuteRequest
  infer_instance

/-- The (command class, parameter ID) keys of the handler table, in table order. -/
def tableKeys (K : Headers) : List (Nat × Nat) :=
  (m_rdmHandlers K).map fun h => (h.commandClass, h.parameter)

/-- The request held in `s` is for one of the GET or SET handlers that test the payload
length, and fails that test: SET identify with DataLength other than 1, SET device label with
DataLength above the capacity of the label, SET start address with DataLength other than 2,
or one of the eight GET requests with DataLength above 0. -/
def wrongPayloadLength (K : Headers) (s : TeensyDmx) : Prop :=
  (active s RDMDATA.CmdClass = K.E120_SET_COMMAND ∧
    ((requestParameter (active s) = K.E120_IDENTIFY_DEVICE ∧ active s RDMDATA.DataLength ≠ 1) ∨
     (requestParameter (active s) = K.E120_DEVICE_LABEL ∧
        active s RDMDATA.DataLength > K.sizeof_m_deviceLabel) ∨
     (requestParameter (active s) = K.E120_DMX_START_ADDRESS ∧
        active s RDMDATA.DataLength ≠ 2))) ∨
  (active s RDMDATA.CmdClass = K.E120_GET_COMMAND ∧
    (requestParameter (active s) = K.E120_IDENTIFY_DEVICE ∨
      requestParameter (active s) = K.E120_DEVICE_INFO ∨
      requestParameter (active s) = K.E120_MANUFACTURER_LABEL ∨
      requestParameter (active s) = K.E120_DEVICE_MODEL_DESCRIPTION ∨
      requestParameter (active s) = K.E120_DEVICE_LABEL ∨
      requestParameter (active s) = K.E120_SOFTWARE_VERSION_LABEL ∨
      requestParameter (active s) = K.E120_DMX_START_ADDRESS ∨
      requestParameter (active s) = K.E120_SUPPORTED_PARAMETERS) ∧
    active s RDMDATA.DataLength > 0)

instance (K : Headers) (s : TeensyDmx) : Decidable (wrongPayloadLength K s) := by
  unfold wrongPayloadLength
  infer_instance

/-! ## Frame lemmas: what the elementary operations leave unchanged -/

@[simp] theorem setActive_m_activeBuffer (s : TeensyDmx) (b : Buffer) :
    (setActive s b).m_activeBuffer = s.m_activeBuffer := by
  unfold setActive assign; cases s.m_activeBuffer <;> rfl

@[simp] theorem setActive_m_inactiveBuffer (s : TeensyDmx) (b : Buffer) :
    (setActive s b).m_inactiveBuffer = s.m_inactiveBuffer := by
  unfold setActive assign; cases s.m_activeBuffer <;> rfl

@[simp] theorem setActive_m_dmxBufferIndex (s : TeensyDmx) (b : Buffer) :
    (setActive s b).m_dmxBufferIndex = s.m_dmxBufferIndex := by
  unfold setActive assign; cases s.m_activeBuffer <;> rfl

@[simp] theorem setActive_m_frameCount (s : TeensyDmx) (b : Buffer) :
    (setActive s b).m_frameCount = s.m_frameCount := by
  unfold setActive assign; cases s.m_activeBuffer <;> rfl

@[simp] theorem setActive_m_newFrame (s : TeensyDmx) (b : Buffer) :
    (setActive s b).m_newFrame = s.m_newFrame := by
  unfold setActive assign; cases s.m_activeBuffer <;> rfl

@[simp] theorem setActive_m_rdmChange (s : TeensyDmx) (b : Buffer) :
    (setActive s b).m_rdmChange = s.m_rdmChange := by
  unfold setActive assign; cases s.m_activeBuffer <;> rfl

@[simp] theorem setActive_m_mode (s : TeensyDmx) (b : Buffer) :
    (setActive s b).m_mode = s.m_mode := by
  unfold setActive assign; cases s.m_activeBuffer <;> rfl

@[simp] theorem setActive_m_state (s : TeensyDmx) (b : Buffer) :
    (setActive s b).m_state = s.m_state := by
  unfold setActive assign; cases s.m_activeBuffer <;> rfl

@[simp] theorem setActive_m_rdmMute (s : TeensyDmx) (b : Buffer) :
    (setActive s b).m_rdmMute = s.m_rdmMute := by
  unfold setActive assign; cases s.m_activeBuffer <;> rfl

@[simp] theorem setActive_m_identifyMode (s : TeensyDmx) (b : Buffer) :
    (setActive s b).m_identifyMode = s.m_identifyMode := by
  unfold setActive assign; cases s.m_activeBuffer <;> rfl

@[simp] theorem setActive_m_rdm (s : TeensyDmx) (b : Buffer) :
    (setActive s b).m_rdm = s.m_rdm := by
  unfold setActive assign; cases s.m_activeBuffer <;> rfl

@[simp] theorem setActive_m_deviceLabel (s : TeensyDmx) (b : Buffer) :
    (setActive s b).m_deviceLabel = s.m_deviceLabel := by
  unfold setActive assign; cases s.m_activeBuffer <;> rfl

@[simp] theorem setActive_trace (s : TeensyDmx) (b : Buffer) :
    (setActive s b).trace = s.trace := by
  unfold setActive assign; cases s.m_activeBuffer <;> rfl

@[simp] theorem emit_m_activeBuffer (s : TeensyDmx) (es : List Event) :
    (emit s es).m_activeBuffer = s.m_activeBuffer := rfl

@[simp] theorem emit_m_inactiveBuffer (s : TeensyDmx) (es : List Event) :
    (emit s es).m_inactiveBuffer = s.m_inactiveBuffer := rfl

@[simp] theorem emit_m_dmxBufferIndex (s : TeensyDmx) (es : List Event) :
    (emit s es).m_dmxBufferIndex = s.m_dmxBufferIndex := rfl

@[simp] theorem emit_m_frameCount (s : TeensyDmx) (es : List Event) :
    (emit s es).m_frameCount = s.m_frameCount := rfl

@[simp] theorem emit_m_newFrame (s : TeensyDmx) (es : List Event) :
    (emit s es).m_newFrame = s.m_newFrame := rfl

@[simp] theorem emit_m_rdmChange (s : TeensyDmx) (es : List Event) :
    (emit s es).m_rdmChange = s.m_rdmChange := rfl

@[simp] theorem emit_m_mode (s : TeensyDmx) (es : List Event) :
    (emit s es).m_mode = s.m_mode := rfl

@[simp] theorem emit_m_state (s : TeensyDmx) (es : List Event) :
    (emit s es).m_state = s.m_state := rfl

@[simp] theorem emit_m_rdmMute (s : TeensyDmx) (es : List Event) :
    (emit s es).m_rdmMute = s.m_rdmMute := rfl

@[simp] theorem emit_m_identifyMode (s : TeensyDmx) (es : List Event) :
    (emit s es).m_identifyMode = s.m_identifyMode := rfl

@[simp] theorem emit_m_rdm (s : TeensyDmx) (es : List Event) :
    (emit s es).m_rdm = s.m_rdm := rfl

@[simp] theorem emit_m_deviceLabel (s : TeensyDmx) (es : List Event) :
    (emit s es).m_deviceLabel = s.m_deviceLabel := rfl

@[simp] theorem emit_trace (s : TeensyDmx) (es : List Event) :
    (emit s es).trace = s.trace ++ es := rfl

@[simp] theorem active_emit (s : TeensyDmx) (es : List Event) : active (emit s es) = active s := rfl

@[simp] theorem active_setActive (s : TeensyDmx) (b : Buffer) : active (setActive s b) = b := by
  unfold active setActive assign deref
  cases h : s.m_activeBuffer <;> simp [h]

@[simp] theorem setActive_setActive (s : TeensyDmx) (a b : Buffer) :
    setActive (setActive s a) b = setActive s b := by
  unfold setActive assign
  cases h : s.m_activeBuffer <;> simp [h]

theorem storeActive_eq (s : TeensyDmx) (i v : Nat) :
    storeActive s i v = setActive s (Function.update (active s) i (v % 256)) := rfl

theorem putInt_eq (s : TeensyDmx) (i v : Nat) :
    putInt s i v = setActive s (Function.update (Function.update (active s) i
      ((v % 65536) >>> 8 % 256)) (i + 1) (((v % 65536) &&& 0xff) % 256)) := by
  simp [putInt, storeActive_eq]

theorem respondDelay_eq (now : Nat) (s : TeensyDmx) (t : Nat) :
    respondDelay now s t =
      emit s (if subUL now t < 176 then [Event.delayMicroseconds (176 - subUL now t)] else []) := by
  unfold respondDelay
  by_cases h : subUL now t < 176 <;> simp [h, emit]

theorem respondFill_eq (K : Headers) (s : TeensyDmx) (h : Bool) (r : Nat) :
    respondFill K s h r = setActive s (active (respondFill K s h r)) := by
  unfold respondFill
  cases h <;> simp [storeActive_eq]


theorem active_respondFill (K : Headers) (s : TeensyDmx) (h : Bool) (r : Nat) (i : Nat) :
    active (respondFill K s h r) i =
      if i = RDMDATA.CmdClass then (active s RDMDATA.CmdClass + 1) % 256
      else if RDMDATA.SourceID ≤ i ∧ i < RDMDATA.SourceID + 6 then _devID.getD (i - RDMDATA.SourceID) 0
      else if RDMDATA.DestID ≤ i ∧ i < RDMDATA.DestID + 6 then active s (i + 6)
      else if i = RDMDATA.Length then ((if h then active s RDMDATA.DataLength else 2) + 24) % 256
      else if h then
        (if i = RDMDATA.ResponseType then K.E120_RESPONSE_TYPE_ACK % 256 else active s i)
      else
        (if i = RDMDATA.ResponseType then K.E120_RESPONSE_TYPE_NACK_REASON % 256
         else if i = RDMDATA.DataLength then 2
         else if i = RDMDATA.Data then ((r % 65536) >>> 8 &&& 0xFF) % 256
         else if i = RDMDATA.Data + 1 then ((r % 65536) &&& 0xFF) % 256
         else active s i) := by
  cases h
  · simp [respondFill, storeActive_eq, memcpy, Function.update_apply,
      RDMDATA.CmdClass, RDMDATA.SourceID, RDMDATA.DestID, RDMDATA.Length, RDMDATA.ResponseType,
      RDMDATA.DataLength, RDMDATA.Data]
    split_ifs <;> first | rfl | omega | (congr 1; omega)
  · simp [respondFill, storeActive_eq, memcpy, Function.update_apply,
      RDMDATA.CmdClass, RDMDATA.SourceID, RDMDATA.DestID, RDMDATA.Length, RDMDATA.ResponseType,
      RDMDATA.DataLength, RDMDATA.Data]
    split_ifs <;> first | rfl | omega | (congr 1; omega)


/-! ## The Response Builder -/

@[simp] theorem uartWritten_append (xs ys : List Event) :
    uartWritten (xs ++ ys) = uartWritten xs ++ uartWritten ys := by
  induction xs with
  | nil => rfl
  | cons e es ih => cases e <;> simp [uartWritten, ih]

@[simp] theorem delays_append (xs ys : List Event) :
    delays (xs ++ ys) = delays xs ++ delays ys := by
  induction xs with
  | nil => rfl
  | cons e es ih => cases e <;> simp [delays, ih]

@[simp] theorem uartWritten_sendBytes (bs : List Nat) : uartWritten (sendBytes bs) = bs := by
  induction bs with
  | nil => rfl
  | cons b bs ih => simp [sendBytes, uartWritten, ih]

@[simp] theorem delays_sendBytes (bs : List Nat) : delays (sendBytes bs) = [] := by
  induction bs with
  | nil => rfl
  | cons b bs ih => simp [sendBytes, delays, ih]

theorem bytes_succ (b : Buffer) (ofs n : Nat) :
    bytes b ofs (n + 1) = bytes b ofs n ++ [b (ofs + n)] := by
  simp [bytes, List.range_succ]

theorem checkSumLoop_sum (b : Buffer) (n : Nat) :
    checkSumLoop b n (E120_SC_RDM % 65536) = additiveChecksum (bytes b 0 n) := by
  unfold additiveChecksum
  induction n with
  | zero => simp [checkSumLoop, bytes]
  | succ n ih =>
    have h : checkSumLoop b (n + 1) (E120_SC_RDM % 65536) =
        (checkSumLoop b n (E120_SC_RDM % 65536) + b n) % 65536 := by
      simp [checkSumLoop, List.range_succ]
    rw [h, ih, bytes_succ]
    simp [Nat.add_assoc]

theorem active_respondSend (s : TeensyDmx) : active (respondSend s) = active s := by
  simp [respondSend, startReceive, stopReceive, emit, active, deref]

theorem respondSend_trace (s : TeensyDmx) :
    (respondSend s).trace = s.trace ++
      ([Event.uartEnd, Event.redePin 1, Event.uartBegin RDM_BREAKSPEED BREAKFORMAT,
        Event.uartWrite 0, Event.uartFlush, Event.uartBegin DMXSPEED DMXFORMAT,
        Event.uartWrite E120_SC_RDM, Event.uartFlush] ++
      sendBytes (bytes (active s) 0 (active s RDMDATA.Length)) ++
      [Event.uartWrite (additiveChecksum (bytes (active s) 0 (active s RDMDATA.Length)) / 256),
        Event.uartFlush,
        Event.uartWrite (additiveChecksum (bytes (active s) 0 (active s RDMDATA.Length)) % 256),
        Event.uartFlush, Event.redePin 0, Event.uartBeginBaud 250000]) := by
  have h1 : ∀ x : Nat, x >>> 8 = x / 256 := fun x => Nat.shiftRight_eq_div_pow x 8
  have h2 : ∀ x : Nat, x &&& 0xff = x % 256 := fun x => Nat.and_pow_two_sub_one_eq_mod x 8
  simp [respondSend, startReceive, stopReceive, emit, active, deref, checkSumLoop_sum, h1, h2]

@[simp] theorem respondMessage_m_activeBuffer (K : Headers) (now : Nat) (s : TeensyDmx) (t : Nat)
    (h : Bool) (r : Nat) : (respondMessage K now s t h r).m_activeBuffer = s.m_activeBuffer := by
  unfold respondMessage
  rw [respondFill_eq, respondDelay_eq]
  simp [respondSend, startReceive, stopReceive]

@[simp] theorem respondMessage_m_inactiveBuffer (K : Headers) (now : Nat) (s : TeensyDmx) (t : Nat)
    (h : Bool) (r : Nat) : (respondMessage K now s t h r).m_inactiveBuffer = s.m_inactiveBuffer := by
  unfold respondMessage
  rw [respondFill_eq, respondDelay_eq]
  simp [respondSend, startReceive, stopReceive]

@[simp] theorem respondMessage_m_frameCount (K : Headers) (now : Nat) (s : TeensyDmx) (t : Nat)
    (h : Bool) (r : Nat) : (respondMessage K now s t h r).m_frameCount = s.m_frameCount := by
  unfold respondMessage
  rw [respondFill_eq, respondDelay_eq]
  simp [respondSend, startReceive, stopReceive]

@[simp] theorem respondMessage_m_newFrame (K : Headers) (now : Nat) (s : TeensyDmx) (t : Nat)
    (h : Bool) (r : Nat) : (respondMessage K now s t h r).m_newFrame = s.m_newFrame := by
  unfold respondMessage
  rw [respondFill_eq, respondDelay_eq]
  simp [respondSend, startReceive, stopReceive]

@[simp] theorem respondMessage_m_rdmChange (K : Headers) (now : Nat) (s : TeensyDmx) (t : Nat)
    (h : Bool) (r : Nat) : (respondMessage K now s t h r).m_rdmChange = s.m_rdmChange := by
  unfold respondMessage
  rw [respondFill_eq, respondDelay_eq]
  simp [respondSend, startReceive, stopReceive]

@[simp] theorem respondMessage_m_mode (K : Headers) (now : Nat) (s : TeensyDmx) (t : Nat)
    (h : Bool) (r : Nat) : (respondMessage K now s t h r).m_mode = s.m_mode := by
  unfold respondMessage
  rw [respondFill_eq, respondDelay_eq]
  simp [respondSend, startReceive, stopReceive]

@[simp] theorem respondMessage_m_rdmMute (K : Headers) (now : Nat) (s : TeensyDmx) (t : Nat)
    (h : Bool) (r : Nat) : (respondMessage K now s t h r).m_rdmMute = s.m_rdmMute := by
  unfold respondMessage
  rw [respondFill_eq, respondDelay_eq]
  simp [respondSend, startReceive, stopReceive]

@[simp] theorem respondMessage_m_identifyMode (K : Headers) (now : Nat) (s : TeensyDmx) (t : Nat)
    (h : Bool) (r : Nat) : (respondMessage K now s t h r).m_identifyMode = s.m_identifyMode := by
  unfold respondMessage
  rw [respondFill_eq, respondDelay_eq]
  simp [respondSend, startReceive, stopReceive]

@[simp] theorem respondMessage_m_rdm (K : Headers) (now : Nat) (s : TeensyDmx) (t : Nat)
    (h : Bool) (r : Nat) : (respondMessage K now s t h r).m_rdm = s.m_rdm := by
  unfold respondMessage
  rw [respondFill_eq, respondDelay_eq]
  simp [respondSend, startReceive, stopReceive]

@[simp] theorem respondMessage_m_deviceLabel (K : Headers) (now : Nat) (s : TeensyDmx) (t : Nat)
    (h : Bool) (r : Nat) : (respondMessage K now s t h r).m_deviceLabel = s.m_deviceLabel := by
  unfold respondMessage
  rw [respondFill_eq, respondDelay_eq]
  simp [respondSend, startReceive, stopReceive]

@[simp] theorem respondMessage_m_state (K : Headers) (now : Nat) (s : TeensyDmx) (t : Nat)
    (h : Bool) (r : Nat) : (respondMessage K now s t h r).m_state = State.IDLE := by
  simp [respondMessage, respondSend, startReceive]

@[simp] theorem respondMessage_m_dmxBufferIndex (K : Headers) (now : Nat) (s : TeensyDmx)
    (t : Nat) (h : Bool) (r : Nat) : (respondMessage K now s t h r).m_dmxBufferIndex = 0 := by
  simp [respondMessage, respondSend, startReceive]

theorem active_respondFill_emit (K : Headers) (s : TeensyDmx) (es : List Event) (h : Bool)
    (r : Nat) : active (respondFill K (emit s es) h r) = active (respondFill K s h r) := by
  funext i
  rw [active_respondFill, active_respondFill, active_emit]

theorem active_respondMessage (K : Headers) (now : Nat) (s : TeensyDmx) (t : Nat) (h : Bool)
    (r : Nat) : active (respondMessage K now s t h r) = active (respondFill K s h r) := by
  unfold respondMessage
  rw [active_respondSend, respondDelay_eq, active_respondFill_emit]

theorem respondMessage_trace (K : Headers) (now : Nat) (s : TeensyDmx) (t : Nat) (h : Bool)
    (r : Nat) :
    (respondMessage K now s t h r).trace = s.trace ++
      (if subUL now t < 176 then [Event.delayMicroseconds (176 - subUL now t)] else []) ++
      ([Event.uartEnd, Event.redePin 1, Event.uartBegin RDM_BREAKSPEED BREAKFORMAT,
        Event.uartWrite 0, Event.uartFlush, Event.uartBegin DMXSPEED DMXFORMAT,
        Event.uartWrite E120_SC_RDM, Event.uartFlush] ++
      sendBytes (bytes (active (respondMessage K now s t h r)) 0
        (active (respondMessage K now s t h r) RDMDATA.Length)) ++
      [Event.uartWrite (additiveChecksum (bytes (active (respondMessage K now s t h r)) 0
          (active (respondMessage K now s t h r) RDMDATA.Length)) / 256),
        Event.uartFlush,
        Event.uartWrite (additiveChecksum (bytes (active (respondMessage K now s t h r)) 0
          (active (respondMessage K now s t h r) RDMDATA.Length)) % 256),
        Event.uartFlush, Event.redePin 0, Event.uartBeginBaud 250000]) := by
  rw [active_respondMessage]
  unfold respondMessage
  rw [respondSend_trace, respondDelay_eq, active_respondFill_emit]
  rw [respondFill_eq]
  simp

theorem respondMessage_responseSent (K : Headers) (now : Nat) (s : TeensyDmx) (t : Nat)
    (h : Bool) (r : Nat) : responseSent s.trace (respondMessage K now s t h r) := by
  unfold responseSent
  rw [respondMessage_trace]
  by_cases hd : subUL now t < 176 <;> simp [hd, uartWritten, wireFrame]

theorem shift_and_byte (r : Nat) : ((r % 65536) >>> 8 &&& 0xFF) % 256 = r % 65536 / 256 := by
  have h1 : ∀ x : Nat, x >>> 8 = x / 256 := fun x => Nat.shiftRight_eq_div_pow x 8
  have h2 : ∀ x : Nat, x &&& 0xFF = x % 256 := fun x => Nat.and_pow_two_sub_one_eq_mod x 8
  rw [h2, h1]
  omega

theorem and_byte (r : Nat) : ((r % 65536) &&& 0xFF) % 256 = r % 256 := by
  have h2 : ∀ x : Nat, x &&& 0xFF = x % 256 := fun x => Nat.and_pow_two_sub_one_eq_mod x 8
  rw [h2]
  omega

theorem respondMessage_nackSent (K : Headers) (now : Nat) (s : TeensyDmx) (t : Nat) (r : Nat) :
    nackSent K s.trace (respondMessage K now s t false r) r := by
  refine ⟨respondMessage_responseSent K now s t false r, ?_, ?_, ?_, ?_⟩ <;>
    rw [active_respondMessage, active_respondFill] <;>
    simp [RDMDATA.ResponseType, RDMDATA.DataLength, RDMDATA.Data, RDMDATA.CmdClass,
      RDMDATA.SourceID, RDMDATA.DestID, RDMDATA.Length, shift_and_byte, and_byte]

theorem active_respondFill_ack_data (K : Headers) (s : TeensyDmx) (r j : Nat)
    (hj : RDMDATA.DataLength ≤ j) : active (respondFill K s true r) j = active s j := by
  rw [active_respondFill]
  simp only [RDMDATA.ResponseType, RDMDATA.DataLength, RDMDATA.Data, RDMDATA.CmdClass,
    RDMDATA.SourceID, RDMDATA.DestID, RDMDATA.Length] at hj ⊢
  rw [if_neg (by omega), if_neg (by omega), if_neg (by omega), if_neg (by omega)]
  simp only [if_true]
  rw [if_neg (by omega)]

theorem respondMessage_ackSent (K : Headers) (now : Nat) (s : TeensyDmx) (t : Nat) (r : Nat) :
    ackSent K s.trace (respondMessage K now s t true r)
      (bytes (active s) RDMDATA.Data (active s RDMDATA.DataLength)) := by
  refine ⟨respondMessage_responseSent K now s t true r, ?_, ?_, ?_⟩
  · rw [active_respondMessage, active_respondFill]
    simp [RDMDATA.ResponseType, RDMDATA.DataLength, RDMDATA.Data, RDMDATA.CmdClass,
      RDMDATA.SourceID, RDMDATA.DestID, RDMDATA.Length]
  · rw [active_respondMessage, active_respondFill]
    simp [RDMDATA.ResponseType, RDMDATA.DataLength, RDMDATA.Data, RDMDATA.CmdClass,
      RDMDATA.SourceID, RDMDATA.DestID, RDMDATA.Length, bytes]
  · rw [active_respondMessage]
    simp only [bytes, List.length_map, List.length_range]
    apply List.map_congr_left
    intro i _
    rw [active_respondFill_ack_data]
    simp only [RDMDATA.DataLength, RDMDATA.Data]
    omega



theorem active_respondFill_kept (K : Headers) (s : TeensyDmx) (h : Bool) (r j : Nat)
    (hj : j = RDMDATA.SubStartCode ∨ j = RDMDATA._TransNo ∨ j = RDMDATA._unknown ∨
      j = RDMDATA.SubDev ∨ j = RDMDATA.SubDev + 1 ∨ j = RDMDATA.Parameter ∨
      j = RDMDATA.Parameter + 1) :
    active (respondFill K s h r) j = active s j := by
  rw [active_respondFill]
  simp only [RDMDATA.SubStartCode, RDMDATA._TransNo, RDMDATA._unknown, RDMDATA.SubDev,
    RDMDATA.Parameter, RDMDATA.ResponseType, RDMDATA.DataLength, RDMDATA.Data, RDMDATA.CmdClass,
    RDMDATA.SourceID, RDMDATA.DestID, RDMDATA.Length] at hj ⊢
  rw [if_neg (by omega), if_neg (by omega), if_neg (by omega), if_neg (by omega)]
  cases h
  · simp only [Bool.false_eq_true, if_false]
    rw [if_neg (by omega), if_neg (by omega), if_neg (by omega), if_neg (by omega)]
  · simp only [if_true]
    rw [if_neg (by omega)]

theorem bytes_congr (a b : Buffer) (ofs ofs2 n : Nat)
    (h : ∀ i, i < n → a (ofs + i) = b (ofs2 + i)) : bytes a ofs n = bytes b ofs2 n := by
  unfold bytes
  apply List.map_congr_left
  intro i hi
  exact h i (List.mem_range.mp hi)

theorem memcmp_eq_zero_iff : ∀ (a b : List Nat), a.length = b.length →
    (memcmp a b = 0 ↔ a = b)
  | [], [], _ => by simp [memcmp]
  | [], _ :: _, h => by simp at h
  | _ :: _, [], h => by simp at h
  | x :: xs, y :: ys, h => by
    have ih := memcmp_eq_zero_iff xs ys (by simpa using h)
    by_cases hxy : x = y
    · simp [memcmp, hxy, ih]
    · have hne : (x : Int) - (y : Int) ≠ 0 := by omega
      simp [memcmp, hxy, hne]

@[simp] theorem bytes_length (b : Buffer) (ofs n : Nat) : (bytes b ofs n).length = n := by
  simp [bytes]

@[simp] theorem active_holding (rdm : Option RDMINIT) (l : List Nat) :
    active (holding rdm l) = ofBytes l := by
  simp [holding]

@[simp] theorem storeActive_m_activeBuffer (s : TeensyDmx) (i v : Nat) :
    (storeActive s i v).m_activeBuffer = s.m_activeBuffer := by
  rw [storeActive_eq]; simp

@[simp] theorem storeActive_m_inactiveBuffer (s : TeensyDmx) (i v : Nat) :
    (storeActive s i v).m_inactiveBuffer = s.m_inactiveBuffer := by
  rw [storeActive_eq]; simp

@[simp] theorem storeActive_m_dmxBufferIndex (s : TeensyDmx) (i v : Nat) :
    (storeActive s i v).m_dmxBufferIndex = s.m_dmxBufferIndex := by
  rw [storeActive_eq]; simp

@[simp] theorem storeActive_m_frameCount (s : TeensyDmx) (i v : Nat) :
    (storeActive s i v).m_frameCount = s.m_frameCount := by
  rw [storeActive_eq]; simp

@[simp] theorem storeActive_m_newFrame (s : TeensyDmx) (i v : Nat) :
    (storeActive s i v).m_newFrame = s.m_newFrame := by
  rw [storeActive_eq]; simp

@[simp] theorem storeActive_m_rdmChange (s : TeensyDmx) (i v : Nat) :
    (storeActive s i v).m_rdmChange = s.m_rdmChange := by
  rw [storeActive_eq]; simp

@[simp] theorem storeActive_m_mode (s : TeensyDmx) (i v : Nat) :
    (storeActive s i v).m_mode = s.m_mode := by
  rw [storeActive_eq]; simp

@[simp] theorem storeActive_m_state (s : TeensyDmx) (i v : Nat) :
    (storeActive s i v).m_state = s.m_state := by
  rw [storeActive_eq]; simp

@[simp] theorem storeActive_m_rdmMute (s : TeensyDmx) (i v : Nat) :
    (storeActive s i v).m_rdmMute = s.m_rdmMute := by
  rw [storeActive_eq]; simp

@[simp] theorem storeActive_m_identifyMode (s : TeensyDmx) (i v : Nat) :
    (storeActive s i v).m_identifyMode = s.m_identifyMode := by
  rw [storeActive_eq]; simp

@[simp] theorem storeActive_m_rdm (s : TeensyDmx) (i v : Nat) :
    (storeActive s i v).m_rdm = s.m_rdm := by
  rw [storeActive_eq]; simp

@[simp] theorem storeActive_m_deviceLabel (s : TeensyDmx) (i v : Nat) :
    (storeActive s i v).m_deviceLabel = s.m_deviceLabel := by
  rw [storeActive_eq]; simp

@[simp] theorem storeActive_trace (s : TeensyDmx) (i v : Nat) :
    (storeActive s i v).trace = s.trace := by
  rw [storeActive_eq]; simp

@[simp] theorem active_storeActive (s : TeensyDmx) (i v : Nat) :
    active (storeActive s i v) = Function.update (active s) i (v % 256) := by
  rw [storeActive_eq]; simp

@[simp] theorem active_mk (b1 b2 : Buffer) (a ia : BufPtr) (idx fc : Nat) (nf rc : Bool)
    (mode : Mode) (st : State) (mute ident : Bool) (rdm : Option RDMINIT) (label : Buffer)
    (tr : List Event) :
    active ⟨b1, b2, a, ia, idx, fc, nf, rc, mode, st, mute, ident, rdm, label, tr⟩ =
      pick a b1 b2 := by
  cases a <;> rfl

@[simp] theorem pick_fields (s : TeensyDmx) :
    pick s.m_activeBuffer s.m_dmxBuffer1 s.m_dmxBuffer2 = active s := by
  unfold active deref pick
  cases s.m_activeBuffer <;> rfl

@[simp] theorem setActive_m_dmxBuffer1 (s : TeensyDmx) (b : Buffer) :
    (setActive s b).m_dmxBuffer1 =
      if s.m_activeBuffer = BufPtr.m_dmxBuffer1 then b else s.m_dmxBuffer1 := by
  unfold setActive assign
  cases h : s.m_activeBuffer <;> simp

@[simp] theorem setActive_m_dmxBuffer2 (s : TeensyDmx) (b : Buffer) :
    (setActive s b).m_dmxBuffer2 =
      if s.m_activeBuffer = BufPtr.m_dmxBuffer2 then b else s.m_dmxBuffer2 := by
  unfold setActive assign
  cases h : s.m_activeBuffer <;> simp

@[simp] theorem storeActive_m_dmxBuffer1 (s : TeensyDmx) (i v : Nat) :
    (storeActive s i v).m_dmxBuffer1 =
      if s.m_activeBuffer = BufPtr.m_dmxBuffer1 then Function.update (active s) i (v % 256)
      else s.m_dmxBuffer1 := by
  rw [storeActive_eq]; simp

@[simp] theorem storeActive_m_dmxBuffer2 (s : TeensyDmx) (i v : Nat) :
    (storeActive s i v).m_dmxBuffer2 =
      if s.m_activeBuffer = BufPtr.m_dmxBuffer2 then Function.update (active s) i (v % 256)
      else s.m_dmxBuffer2 := by
  rw [storeActive_eq]; simp

@[simp] theorem pick_written (p : BufPtr) (b b1 b2 : Buffer) :
    pick p (if p = BufPtr.m_dmxBuffer1 then b else b1)
      (if p = BufPtr.m_dmxBuffer2 then b else b2) = b := by
  cases p <;> simp [pick]

theorem shiftLeft_or_bytes (a b : Nat) (ha : a < 256) (hb : b < 256) :
    ((a <<< 8) ||| b) % 65536 = a * 256 + b := by
  have h := Nat.mul_add_lt_is_or (show b < 2 ^ 8 from hb) a
  rw [Nat.shiftLeft_eq, Nat.mul_comm a (2 ^ 8), ← h]
  omega

theorem bigEndian_pair (b : Buffer) (ofs : Nat) :
    bigEndian (bytes b ofs 2) = b (ofs + 0) * 256 + b (ofs + 1) := by
  simp [bigEndian, bytes, List.range_succ]

theorem nackSent_respond (K : Headers) (now : Nat) (s : TeensyDmx) (t r : Nat)
    (tr : List Event) (htr : s.trace = tr) :
    nackSent K tr (respondMessage K now s t false r) r := by
  subst htr
  exact respondMessage_nackSent K now s t r

theorem ackSent_respond (K : Headers) (now : Nat) (s : TeensyDmx) (t r : Nat)
    (tr : List Event) (payload : List Nat) (htr : s.trace = tr)
    (hp : bytes (active s) RDMDATA.Data (active s RDMDATA.DataLength) = payload) :
    ackSent K tr (respondMessage K now s t true r) payload := by
  subst htr
  subst hp
  exact respondMessage_ackSent K now s t r

theorem memcpy_apply_lt (dst : Buffer) (ofs : Nat) (src : Nat → Nat) (n i : Nat)
    (h : i < ofs) : memcpy dst ofs src n i = dst i := by
  unfold memcpy
  rw [if_neg (by omega)]

theorem memcpy_apply_add (dst : Buffer) (ofs : Nat) (src : Nat → Nat) (n i : Nat)
    (h : i < n) : memcpy dst ofs src n (ofs + i) = src i := by
  unfold memcpy
  rw [if_pos (by omega)]
  congr 1
  omega

theorem find_range_first (p : Nat → Bool) (n : Nat) (hp : p n = true)
    (hlt : ∀ i, i < n → p i = false) :
    ∀ cap, n < cap → (List.range cap).find? p = some n := by
  intro cap
  induction cap with
  | zero => intro h; omega
  | succ c ih =>
    intro h
    rw [List.range_succ, List.find?_append]
    by_cases hc : n < c
    · rw [ih hc]; rfl
    · have hnc : n = c := by omega
      subst hnc
      have hnone : (List.range n).find? p = none := by
        rw [List.find?_eq_none]
        intro x hx
        simp [hlt x (List.mem_range.mp hx)]
      rw [hnone]
      simp [List.find?, hp]

theorem strlen_eq (a : Buffer) (cap n : Nat) (hn : n < cap) (h0 : a n = 0)
    (hlt : ∀ i, i < n → a i ≠ 0) : strlen a cap = some n := by
  unfold strlen
  apply find_range_first
  · simp [h0]
  · intro i hi
    simp [hlt i hi]
  · exact hn

theorem rdmSetDeviceLabel_accept (K : Headers) (now : Nat) (s : TeensyDmx) (timingStart : Nat)
    (isForMe : Bool) (hLen : active s RDMDATA.DataLength < K.sizeof_m_deviceLabel) :
    ∃ s1, rdmSetDeviceLabel K now s timingStart isForMe = some s1 ∧
      ackSent K s.trace s1 [] ∧
      s1.m_deviceLabel =
        Function.update (memcpy s.m_deviceLabel 0 (fun i => active s (RDMDATA.Data + i))
          (active s RDMDATA.DataLength)) (active s RDMDATA.DataLength) 0 ∧
      s1.m_rdmChange = true := by
  unfold rdmSetDeviceLabel
  have h1 : ¬ active s RDMDATA.DataLength > K.sizeof_m_deviceLabel := by omega
  simp only [h1, if_false]
  have h2 : ∀ x : Buffer, active { s with m_deviceLabel := x } = active s := fun _ => rfl
  simp only [h2, hLen, if_true]
  refine ⟨_, rfl, ?_, ?_, ?_⟩
  · apply ackSent_respond
    · simp
    · simp [bytes, RDMDATA.DataLength]
  · simp
  · simp

theorem bigEndian_foldl (l : List Nat) (acc : Nat) :
    l.foldl (fun a b => a * 256 + b) acc = acc * 256 ^ l.length + bigEndian l := by
  induction l generalizing acc with
  | nil => simp [bigEndian]
  | cons x xs ih =>
    unfold bigEndian
    simp only [List.foldl_cons, List.length_cons]
    rw [ih, ih (0 * 256 + x)]
    ring

theorem bigEndian_cons (x : Nat) (xs : List Nat) :
    bigEndian (x :: xs) = x * 256 ^ xs.length + bigEndian xs := by
  unfold bigEndian
  simp only [List.foldl_cons]
  rw [bigEndian_foldl]
  simp [bigEndian]

theorem bigEndian_lt (l : List Nat) (h : ∀ b ∈ l, b < 256) : bigEndian l < 256 ^ l.length := by
  induction l with
  | nil => simp [bigEndian]
  | cons x xs ih =>
    rw [bigEndian_cons, List.length_cons, pow_succ]
    have hx : x < 256 := h x (List.mem_cons_self _ _)
    have hxs := ih (fun b hb => h b (List.mem_cons_of_mem _ hb))
    have h1 : (x + 1) * 256 ^ xs.length ≤ 256 * 256 ^ xs.length :=
      Nat.mul_le_mul_right _ (by omega)
    rw [Nat.add_mul, Nat.one_mul] at h1
    rw [Nat.mul_comm (256 ^ xs.length) 256]
    omega

theorem memcmp_le_iff : ∀ (a b : List Nat), a.length = b.length →
    (∀ x ∈ a, x < 256) → (∀ x ∈ b, x < 256) →
    (memcmp a b ≤ 0 ↔ bigEndian a ≤ bigEndian b)
  | [], [], _, _, _ => by simp [memcmp, bigEndian]
  | [], _ :: _, h, _, _ => by simp at h
  | _ :: _, [], h, _, _ => by simp at h
  | x :: xs, y :: ys, h, ha, hb => by
    have hlen : xs.length = ys.length := by simpa using h
    have ih := memcmp_le_iff xs ys hlen
      (fun b hb1 => ha b (List.mem_cons_of_mem _ hb1))
      (fun b hb1 => hb b (List.mem_cons_of_mem _ hb1))
    have hxs := bigEndian_lt xs (fun b hb1 => ha b (List.mem_cons_of_mem _ hb1))
    have hys := bigEndian_lt ys (fun b hb1 => hb b (List.mem_cons_of_mem _ hb1))
    rw [bigEndian_cons, bigEndian_cons, hlen]
    rw [hlen] at hxs
    by_cases hxy : x = y
    · subst hxy
      simp only [memcmp, if_true]
      rw [ih]
      omega
    · simp only [memcmp, if_neg hxy]
      rcases Nat.lt_or_gt_of_ne hxy with hlt | hgt
      · have h1 : (x + 1) * 256 ^ ys.length ≤ y * 256 ^ ys.length :=
          Nat.mul_le_mul_right _ (by omega)
        rw [Nat.add_mul, Nat.one_mul] at h1
        constructor
        · intro _; omega
        · intro _; omega
      · have h1 : (y + 1) * 256 ^ ys.length ≤ x * 256 ^ ys.length :=
          Nat.mul_le_mul_right _ (by omega)
        rw [Nat.add_mul, Nat.one_mul] at h1
        constructor
        · intro h2; omega
        · intro h2; omega

theorem active_fillDiscovery (s : TeensyDmx) :
    active (fillDiscovery s) =
      Function.update (Function.update (Function.update (Function.update
      (Function.update (Function.update (Function.update (Function.update (Function.update
      (Function.update (Function.update (Function.update (Function.update (Function.update
      (Function.update (Function.update
      (Function.update
      (Function.update (Function.update (Function.update (Function.update (Function.update
      (Function.update (Function.update (active s)
        0 0xFE) 1 0xFE) 2 0xFE) 3 0xFE) 4 0xFE) 5 0xFE) 6 0xFE)
        7 0xAA)
        8 0xFF) 9 0x7F) 10 0xFA) 11 0xF5) 12 0xAA) 13 0x75) 14 0xBA) 15 0x57) 16 0xAA) 17 0x55)
        18 0xAA) 19 0x55)
        20 0xAF) 21 0x57) 22 0xBB) 23 0xDF := by
  have r7 : List.range 7 = [0, 1, 2, 3, 4, 5, 6] := by decide
  have r6 : List.range 6 = [0, 1, 2, 3, 4, 5] := by decide
  unfold fillDiscovery
  simp only [r7, r6, List.foldl_cons, List.foldl_nil, active_storeActive,
    DISCOVERYMSG.headerFE, DISCOVERYMSG.headerAA, DISCOVERYMSG.maskedDevID,
    DISCOVERYMSG.checksum, _devID]

  rfl

theorem bytes_fillDiscovery (s : TeensyDmx) :
    bytes (active (fillDiscovery s)) 0 DISCOVERYMSG.sizeof =
      [0xFE, 0xFE, 0xFE, 0xFE, 0xFE, 0xFE, 0xFE, 0xAA,
       0xFF, 0x7F, 0xFA, 0xF5, 0xAA, 0x75, 0xBA, 0x57, 0xAA, 0x55, 0xAA, 0x55,
       0xAF, 0x57, 0xBB, 0xDF] := by
  rw [active_fillDiscovery]
  rfl

theorem fillDiscovery_eq (s : TeensyDmx) :
    fillDiscovery s = setActive s (active (fillDiscovery s)) := by
  have r7 : List.range 7 = [0, 1, 2, 3, 4, 5, 6] := by decide
  have r6 : List.range 6 = [0, 1, 2, 3, 4, 5] := by decide
  unfold fillDiscovery
  simp only [r7, r6, List.foldl_cons, List.foldl_nil, storeActive_eq, active_setActive,
    setActive_setActive]

@[simp] theorem emit_m_dmxBuffer1 (s : TeensyDmx) (es : List Event) :
    (emit s es).m_dmxBuffer1 = s.m_dmxBuffer1 := rfl

@[simp] theorem emit_m_dmxBuffer2 (s : TeensyDmx) (es : List Event) :
    (emit s es).m_dmxBuffer2 = s.m_dmxBuffer2 := rfl

theorem mem_bytes_lt (b : Buffer) (ofs n bound : Nat) (h : ∀ i, i < n → b (ofs + i) < bound) :
    ∀ x ∈ bytes b ofs n, x < bound := by
  intro x hx
  unfold bytes at hx
  obtain ⟨i, hi, rfl⟩ := List.mem_map.mp hx
  exact h i (List.mem_range.mp hi)

theorem rdmUniqueBranch_inRange (s : TeensyDmx) (t : Nat) (f : Bool)
    (hMute : s.m_rdmMute = false) (hLen : active s RDMDATA.Length = 36)
    (hData : active s RDMDATA.DataLength = 12)
    (hLow : memcmp (bytes (active s) RDMDATA.Data 6) _devID ≤ 0)
    (hHigh : memcmp _devID (bytes (active s) (RDMDATA.Data + 6) 6) ≤ 0) :
    (rdmUniqueBranch s t f).trace = s.trace ++
      ([Event.uartEnd, Event.redePin 1, Event.uartBegin RDM_BREAKSPEED BREAKFORMAT,
        Event.uartWrite 0, Event.uartFlush, Event.uartBegin DMXSPEED DMXFORMAT] ++
       sendBytes (bytes (active (fillDiscovery s)) 0 DISCOVERYMSG.sizeof) ++
       [Event.redePin 0, Event.uartBeginBaud 250000]) := by
  unfold rdmUniqueBranch
  simp only [hMute, hLen, hData, hLow, hHigh, ne_eq, not_true_eq_false, if_false, and_self,
    if_true, Bool.false_eq_true]
  rw [fillDiscovery_eq]
  simp [startReceive, stopReceive, emit]

theorem rdmUniqueBranch_outOfRange (s : TeensyDmx) (t : Nat) (f : Bool)
    (h : ¬ (memcmp (bytes (active s) RDMDATA.Data 6) _devID ≤ 0 ∧
      memcmp _devID (bytes (active s) (RDMDATA.Data + 6) 6) ≤ 0)) :
    rdmUniqueBranch s t f = s := by
  unfold rdmUniqueBranch
  simp only [h, if_false, ite_self]

@[simp] theorem active_with_index (s : TeensyDmx) (n : Nat) :
    active { s with m_dmxBufferIndex := n } = active s := rfl

theorem readByte_recv (s : TeensyDmx) (b : Nat) (hst : s.m_state = State.DMX_RECV)
    (hidx : s.m_dmxBufferIndex + 1 < DMX_BUFFER_SIZE) :
    readByte s b = some (storeActive { s with m_dmxBufferIndex := s.m_dmxBufferIndex + 1 }
      (s.m_dmxBufferIndex + 1) b) := by
  unfold readByte
  have hne : s.m_dmxBufferIndex + 1 ≠ DMX_BUFFER_SIZE := by omega
  simp [hst, hidx, hne]

theorem readByte_overrun (s : TeensyDmx) (b : Nat) (hst : s.m_state = State.DMX_RECV)
    (hidx : DMX_BUFFER_SIZE ≤ s.m_dmxBufferIndex + 1) : readByte s b = none := by
  unfold readByte
  have h : ¬ s.m_dmxBufferIndex + 1 < DMX_BUFFER_SIZE := by omega
  simp [hst, h]

theorem readBytes_append (s : TeensyDmx) (xs ys : List Nat) :
    readBytes s (xs ++ ys) = (readBytes s xs).bind fun s1 => readBytes s1 ys := by
  induction xs generalizing s with
  | nil => simp [readBytes]
  | cons x xs ih =>
    simp only [List.cons_append, readBytes]
    cases readByte s x with
    | none => rfl
    | some s1 => simp [ih]

theorem readBytes_recv (d : List Nat) : ∀ (s : TeensyDmx), s.m_state = State.DMX_RECV →
    s.m_dmxBufferIndex + d.length < DMX_BUFFER_SIZE →
    ∃ s1, readBytes s d = some s1 ∧ s1.m_state = State.DMX_RECV ∧
      s1.m_dmxBufferIndex = s.m_dmxBufferIndex + d.length ∧
      s1.m_activeBuffer = s.m_activeBuffer ∧ s1.m_inactiveBuffer = s.m_inactiveBuffer ∧
      ∀ j, active s1 j =
        if s.m_dmxBufferIndex < j ∧ j ≤ s.m_dmxBufferIndex + d.length then
          d.getD (j - s.m_dmxBufferIndex - 1) 0 % 256
        else active s j := by
  induction d with
  | nil =>
    intro s hst _
    refine ⟨s, rfl, hst, rfl, rfl, rfl, ?_⟩
    intro j
    rw [if_neg]
    simp only [List.length_nil, Nat.add_zero]
    omega
  | cons b rest ih =>
    intro s hst hidx
    simp only [List.length_cons] at hidx
    have hstep := readByte_recv s b hst (by omega)
    obtain ⟨s1, h1, h2, h3, h4, h5, h6⟩ :=
      ih (storeActive { s with m_dmxBufferIndex := s.m_dmxBufferIndex + 1 }
        (s.m_dmxBufferIndex + 1) b) (by simpa using hst) (by simp; omega)
    refine ⟨s1, ?_, h2, ?_, ?_, ?_, ?_⟩
    · simp only [readBytes, hstep, Option.bind_some]
      exact h1
    · rw [h3]; simp; omega
    · rw [h4]; simp
    · rw [h5]; simp
    · intro j
      rw [h6 j]
      simp only [storeActive_m_dmxBufferIndex, active_storeActive, active_with_index,
        Function.update_apply, List.length_cons]
      by_cases hj : j = s.m_dmxBufferIndex + 1
      · subst hj
        simp
      · by_cases hin : s.m_dmxBufferIndex + 1 < j ∧ j ≤ s.m_dmxBufferIndex + 1 + rest.length
        · have hin2 : s.m_dmxBufferIndex < j ∧ j ≤ s.m_dmxBufferIndex + (rest.length + 1) := by
            omega
          rw [if_pos hin, if_pos hin2]
          have hsub : j - s.m_dmxBufferIndex - 1 = (j - (s.m_dmxBufferIndex + 1) - 1) + 1 := by
            omega
          rw [hsub, List.getD_cons_succ]
        · have hin2 : ¬ (s.m_dmxBufferIndex < j ∧ j ≤ s.m_dmxBufferIndex + (rest.length + 1)) := by
            omega
          rw [if_neg hin, if_neg hin2, if_neg hj]

theorem readBytes_overrun (d : List Nat) : ∀ (s : TeensyDmx), s.m_state = State.DMX_RECV →
    DMX_BUFFER_SIZE ≤ s.m_dmxBufferIndex + d.length → d ≠ [] → readBytes s d = none := by
  induction d with
  | nil => intro s _ _ h; exact absurd rfl h
  | cons b rest ih =>
    intro s hst hlen _
    simp only [List.length_cons] at hlen
    by_cases hidx : s.m_dmxBufferIndex + 1 < DMX_BUFFER_SIZE
    · have hrest : rest ≠ [] := by
        intro h
        rw [h] at hlen
        simp at hlen
        omega
      simp only [readBytes, readByte_recv s b hst hidx, Option.bind_some]
      apply ih
      · simpa using hst
      · simp; omega
      · exact hrest
    · simp [readBytes, readByte_overrun s b hst (by omega)]

theorem readBytes_startCode (s : TeensyDmx) (d : List Nat) (hst : s.m_state = State.BREAK) :
    readBytes s (0 :: d) = readBytes { s with m_state := State.DMX_RECV } d := by
  simp [readBytes, readByte, hst]

theorem sampleFrame_getD (i : Nat) (h : i < 512) : sampleFrame.getD i 0 = (i + 1) % 256 := by
  unfold sampleFrame
  rw [List.getD_eq_getElem?_getD, List.getElem?_map, List.getElem?_range h]
  rfl

theorem readBytes_dmx_frame (s : TeensyDmx) (d : List Nat) (hst : s.m_state = State.BREAK)
    (hidx : s.m_dmxBufferIndex = 0) (hlen : d.length < DMX_BUFFER_SIZE) :
    ∃ s1, readBytes s (0 :: d) = some s1 ∧ s1.m_state = State.DMX_RECV ∧
      s1.m_dmxBufferIndex = d.length ∧
      s1.m_activeBuffer = s.m_activeBuffer ∧ s1.m_inactiveBuffer = s.m_inactiveBuffer ∧
      ∀ j, active s1 j =
        if 0 < j ∧ j ≤ d.length then d.getD (j - 1) 0 % 256 else active s j := by
  rw [readBytes_startCode s d hst]
  obtain ⟨s1, h1, h2, h3, h4, h5, h6⟩ :=
    readBytes_recv d { s with m_state := State.DMX_RECV } rfl (by simpa [hidx] using hlen)
  refine ⟨s1, h1, h2, ?_, h4, h5, ?_⟩
  · simpa [hidx] using h3
  · intro j
    have h := h6 j
    simp only [hidx, Nat.zero_add, Nat.sub_zero] at h
    exact h

theorem readBytes_dmx_overrun (s : TeensyDmx) (d : List Nat) (hst : s.m_state = State.BREAK)
    (hidx : s.m_dmxBufferIndex = 0) (hlen : DMX_BUFFER_SIZE ≤ d.length) :
    readBytes s (0 :: d) = none := by
  rw [readBytes_startCode s d hst]
  apply readBytes_overrun
  · rfl
  · simpa [hidx] using hlen
  · intro h
    rw [h] at hlen
    simp [DMX_BUFFER_SIZE] at hlen

theorem rdmSetDeviceLabel_full (K : Headers) (now : Nat) (s : TeensyDmx) (timingStart : Nat)
    (isForMe : Bool) (hLen : active s RDMDATA.DataLength = K.sizeof_m_deviceLabel) :
    rdmSetDeviceLabel K now s timingStart isForMe = none := by
  unfold rdmSetDeviceLabel
  have h1 : ¬ active s RDMDATA.DataLength > K.sizeof_m_deviceLabel := by omega
  have h2 : ∀ x : Buffer, active { s with m_deviceLabel := x } = active s := fun _ => rfl
  have h3 : ¬ active s RDMDATA.DataLength < K.sizeof_m_deviceLabel := by omega
  simp only [h1, if_false, h2, h3]

@[simp] theorem deviceState_respondMessage (K : Headers) (now : Nat) (s : TeensyDmx) (t : Nat)
    (h : Bool) (r : Nat) : deviceState (respondMessage K now s t h r) = deviceState s := by
  simp [deviceState]

theorem bytes_cons (b : Buffer) (ofs n : Nat) :
    bytes b ofs (n + 1) = b ofs :: bytes b (ofs + 1) n := by
  unfold bytes
  rw [List.range_succ_eq_map]
  simp only [List.map_cons, List.map_map, Nat.add_zero, List.cons.injEq, true_and]
  apply List.map_congr_left
  intro i _
  simp only [Function.comp_apply, Nat.succ_eq_add_one]
  congr 1
  omega

theorem take_bytes (b : Buffer) (ofs n m : Nat) (h : m ≤ n) :
    (bytes b ofs n).take m = bytes b ofs m := by
  unfold bytes
  rw [← List.map_take, List.take_range, Nat.min_eq_left h]

@[simp] theorem uartWritten_map_uartWrite (l : List Nat) :
    uartWritten (l.map Event.uartWrite) = l := by
  induction l with
  | nil => rfl
  | cons x xs ih => simp [uartWritten, ih]

theorem nextTx_break (s : TeensyDmx) (hst : s.m_state = State.BREAK) :
    nextTx s = some
      { s with
        m_state := State.DMX_TX
        trace := s.trace ++ [Event.uartBegin DMXSPEED DMXFORMAT, Event.uartWrite 0] } := by
  unfold nextTx
  rw [if_pos hst]
  rfl

theorem nextTx_data (s : TeensyDmx) (hst : s.m_state = State.DMX_TX)
    (hidx : s.m_dmxBufferIndex < DMX_BUFFER_SIZE) :
    nextTx s = some
      { s with
        m_dmxBufferIndex := s.m_dmxBufferIndex + 1
        trace := s.trace ++ [Event.uartWrite (active s s.m_dmxBufferIndex)] } := by
  unfold nextTx
  have h1 : ¬ s.m_state = State.BREAK := by rw [hst]; decide
  have h2 : ¬ s.m_dmxBufferIndex = DMX_BUFFER_SIZE := by omega
  rw [if_neg h1, if_pos hst, if_neg h2, if_pos hidx]
  rfl

theorem nextTx_end (s : TeensyDmx) (hst : s.m_state = State.DMX_TX)
    (hidx : s.m_dmxBufferIndex = DMX_BUFFER_SIZE) :
    nextTx s = some
      { s with
        m_state := State.BREAK
        m_dmxBufferIndex := 0
        trace := s.trace ++ [Event.uartBegin BREAKSPEED BREAKFORMAT, Event.uartWrite 0] } := by
  unfold nextTx
  have h1 : ¬ s.m_state = State.BREAK := by rw [hst]; decide
  rw [if_neg h1, if_pos hst, if_pos hidx]
  rfl

theorem nextTxTimes_add (a b : Nat) : ∀ s : TeensyDmx,
    nextTxTimes (a + b) s = (nextTxTimes a s).bind (nextTxTimes b) := by
  induction a with
  | zero => intro s; simp [nextTxTimes]
  | succ a ih =>
    intro s
    rw [Nat.add_right_comm]
    simp only [nextTxTimes]
    cases nextTx s with
    | none => rfl
    | some s1 => simp [ih]

theorem nextTxTimes_data (n : Nat) : ∀ s : TeensyDmx, s.m_state = State.DMX_TX →
    s.m_dmxBufferIndex + n ≤ DMX_BUFFER_SIZE →
    nextTxTimes n s = some
      { s with
        m_dmxBufferIndex := s.m_dmxBufferIndex + n
        trace := s.trace ++ (bytes (active s) s.m_dmxBufferIndex n).map Event.uartWrite } := by
  induction n with
  | zero =>
    intro s _ _
    cases s
    simp [nextTxTimes, bytes]
  | succ n ih =>
    intro s hst hidx
    simp only [nextTxTimes, nextTx_data s hst (by omega), Option.some_bind]
    rw [ih]
    · simp only [Option.some.injEq, TeensyDmx.mk.injEq, true_and, and_true]
      refine ⟨by omega, ?_⟩
      rw [bytes_cons]
      simp [active_mk]
    · exact hst
    · simp only
      omega

theorem nextTxTimes_one (s : TeensyDmx) : nextTxTimes 1 s = nextTx s := by
  simp only [nextTxTimes]
  cases nextTx s <;> rfl

theorem nextTxTimes_burst (s : TeensyDmx) (hst : s.m_state = State.BREAK)
    (hidx : s.m_dmxBufferIndex = 0) (j : Nat) (hj : j ≤ DMX_BUFFER_SIZE) :
    nextTxTimes (1 + j) s = some
      { s with
        m_state := State.DMX_TX
        m_dmxBufferIndex := j
        trace := s.trace ++ [Event.uartBegin DMXSPEED DMXFORMAT, Event.uartWrite 0] ++
          (bytes (active s) 0 j).map Event.uartWrite } := by
  rw [nextTxTimes_add, nextTxTimes_one, nextTx_break s hst, Option.some_bind,
    nextTxTimes_data]
  · simp [hidx, active_mk]
  · rfl
  · simp only [hidx]
    omega

theorem nextTxTimes_cycle (s : TeensyDmx) (hst : s.m_state = State.BREAK)
    (hidx : s.m_dmxBufferIndex = 0) :
    nextTxTimes 514 s = some
      { s with
        trace := s.trace ++ ([Event.uartBegin DMXSPEED DMXFORMAT, Event.uartWrite 0] ++
          (bytes (active s) 0 512).map Event.uartWrite ++
          [Event.uartBegin BREAKSPEED BREAKFORMAT, Event.uartWrite 0]) } := by
  have h : (514 : Nat) = (1 + 512) + 1 := rfl
  rw [h, nextTxTimes_add, nextTxTimes_burst s hst hidx 512 (by decide), Option.some_bind,
    nextTxTimes_one, nextTx_end _ rfl rfl]
  cases s
  simp only at hst hidx
  simp [hst, hidx]

theorem uartWritten_cycle (tr : List Event) (l : List Nat) (a a2 : Nat)
    (f f2 : SerialFormat) (x y : Nat) :
    uartWritten (tr ++ ([Event.uartBegin a f, Event.uartWrite x] ++ l.map Event.uartWrite ++
      [Event.uartBegin a2 f2, Event.uartWrite y])) = uartWritten tr ++ (x :: l ++ [y]) := by
  simp [uartWritten]

theorem uartWritten_burst (tr : List Event) (l : List Nat) (a : Nat) (f : SerialFormat)
    (x : Nat) :
    uartWritten (tr ++ [Event.uartBegin a f, Event.uartWrite x] ++ l.map Event.uartWrite) =
      uartWritten tr ++ (x :: l) := by
  simp [uartWritten]

theorem setChannels_overrun (s : TeensyDmx) (startAddress : Nat) (values : Nat → Nat)
    (length : Nat) (hStart : 0 < startAddress)
    (hSum : startAddress + length < DMX_BUFFER_SIZE) :
    setChannels s startAddress values length = none := by
  unfold setChannels memsetActive memcpyActive
  have h1 : ¬ startAddress + length > DMX_BUFFER_SIZE := by omega
  have h2 : 0 + startAddress ≤ DMX_BUFFER_SIZE := by omega
  have h3 : startAddress + length ≤ DMX_BUFFER_SIZE := by omega
  have h4 : startAddress + length ≠ DMX_BUFFER_SIZE := by omega
  have h5 : (DMX_BUFFER_SIZE + 2 ^ 32 - length) % 2 ^ 32 = DMX_BUFFER_SIZE - length := by
    unfold DMX_BUFFER_SIZE at *
    omega
  have h6 : ¬ startAddress + length + (DMX_BUFFER_SIZE - length) ≤ DMX_BUFFER_SIZE := by
    unfold DMX_BUFFER_SIZE at *
    omega
  simp only [h1, if_false, hStart, gt_iff_lt, if_true, h2, Option.some_bind, h3, h4, ne_eq,
    not_false_eq_true, h5, h6]

theorem store16_eq (s : TeensyDmx) (i v : Nat) :
    store16 s i v = setActive s (Function.update (Function.update (active s) i (v % 256 % 256))
      (i + 1) (v / 256 % 256 % 256)) := by
  simp [store16, storeActive_eq]

theorem store32_eq (s : TeensyDmx) (i v : Nat) :
    store32 s i v = setActive s (active (store32 s i v)) := by
  simp [store32, store16_eq]

@[simp] theorem putInt_m_activeBuffer (s : TeensyDmx) (i v : Nat) :
    (putInt s i v).m_activeBuffer = s.m_activeBuffer := by
  rw [putInt_eq]; simp

@[simp] theorem putInt_m_inactiveBuffer (s : TeensyDmx) (i v : Nat) :
    (putInt s i v).m_inactiveBuffer = s.m_inactiveBuffer := by
  rw [putInt_eq]; simp

@[simp] theorem putInt_m_dmxBufferIndex (s : TeensyDmx) (i v : Nat) :
    (putInt s i v).m_dmxBufferIndex = s.m_dmxBufferIndex := by
  rw [putInt_eq]; simp

@[simp] theorem putInt_m_frameCount (s : TeensyDmx) (i v : Nat) :
    (putInt s i v).m_frameCount = s.m_frameCount := by
  rw [putInt_eq]; simp

@[simp] theorem putInt_m_newFrame (s : TeensyDmx) (i v : Nat) :
    (putInt s i v).m_newFrame = s.m_newFrame := by
  rw [putInt_eq]; simp

@[simp] theorem putInt_m_rdmChange (s : TeensyDmx) (i v : Nat) :
    (putInt s i v).m_rdmChange = s.m_rdmChange := by
  rw [putInt_eq]; simp

@[simp] theorem putInt_m_mode (s : TeensyDmx) (i v : Nat) :
    (putInt s i v).m_mode = s.m_mode := by
  rw [putInt_eq]; simp

@[simp] theorem putInt_m_state (s : TeensyDmx) (i v : Nat) :
    (putInt s i v).m_state = s.m_state := by
  rw [putInt_eq]; simp

@[simp] theorem putInt_m_rdmMute (s : TeensyDmx) (i v : Nat) :
    (putInt s i v).m_rdmMute = s.m_rdmMute := by
  rw [putInt_eq]; simp

@[simp] theorem putInt_m_identifyMode (s : TeensyDmx) (i v : Nat) :
    (putInt s i v).m_identifyMode = s.m_identifyMode := by
  rw [putInt_eq]; simp

@[simp] theorem putInt_m_rdm (s : TeensyDmx) (i v : Nat) :
    (putInt s i v).m_rdm = s.m_rdm := by
  rw [putInt_eq]; simp

@[simp] theorem putInt_m_deviceLabel (s : TeensyDmx) (i v : Nat) :
    (putInt s i v).m_deviceLabel = s.m_deviceLabel := by
  rw [putInt_eq]; simp

@[simp] theorem putInt_trace (s : TeensyDmx) (i v : Nat) :
    (putInt s i v).trace = s.trace := by
  rw [putInt_eq]; simp

@[simp] theorem store16_m_activeBuffer (s : TeensyDmx) (i v : Nat) :
    (store16 s i v).m_activeBuffer = s.m_activeBuffer := by
  rw [store16_eq]; simp

@[simp] theorem store16_m_inactiveBuffer (s : TeensyDmx) (i v : Nat) :
    (store16 s i v).m_inactiveBuffer = s.m_inactiveBuffer := by
  rw [store16_eq]; simp

@[simp] theorem store16_m_dmxBufferIndex (s : TeensyDmx) (i v : Nat) :
    (store16 s i v).m_dmxBufferIndex = s.m_dmxBufferIndex := by
  rw [store16_eq]; simp

@[simp] theorem store16_m_frameCount (s : TeensyDmx) (i v : Nat) :
    (store16 s i v).m_frameCount = s.m_frameCount := by
  rw [store16_eq]; simp

@[simp] theorem store16_m_newFrame (s : TeensyDmx) (i v : Nat) :
    (store16 s i v).m_newFrame = s.m_newFrame := by
  rw [store16_eq]; simp

@[simp] theorem store16_m_rdmChange (s : TeensyDmx) (i v : Nat) :
    (store16 s i v).m_rdmChange = s.m_rdmChange := by
  rw [store16_eq]; simp

@[simp] theorem store16_m_mode (s : TeensyDmx) (i v : Nat) :
    (store16 s i v).m_mode = s.m_mode := by
  rw [store16_eq]; simp

@[simp] theorem store16_m_state (s : TeensyDmx) (i v : Nat) :
    (store16 s i v).m_state = s.m_state := by
  rw [store16_eq]; simp

@[simp] theorem store16_m_rdmMute (s : TeensyDmx) (i v : Nat) :
    (store16 s i v).m_rdmMute = s.m_rdmMute := by
  rw [store16_eq]; simp

@[simp] theorem store16_m_identifyMode (s : TeensyDmx) (i v : Nat) :
    (store16 s i v).m_identifyMode = s.m_identifyMode := by
  rw [store16_eq]; simp

@[simp] theorem store16_m_rdm (s : TeensyDmx) (i v : Nat) :
    (store16 s i v).m_rdm = s.m_rdm := by
  rw [store16_eq]; simp

@[simp] theorem store16_m_deviceLabel (s : TeensyDmx) (i v : Nat) :
    (store16 s i v).m_deviceLabel = s.m_deviceLabel := by
  rw [store16_eq]; simp

@[simp] theorem store16_trace (s : TeensyDmx) (i v : Nat) :
    (store16 s i v).trace = s.trace := by
  rw [store16_eq]; simp

@[simp] theorem store32_m_activeBuffer (s : TeensyDmx) (i v : Nat) :
    (store32 s i v).m_activeBuffer = s.m_activeBuffer := by
  rw [store32_eq]; simp

@[simp] theorem store32_m_inactiveBuffer (s : TeensyDmx) (i v : Nat) :
    (store32 s i v).m_inactiveBuffer = s.m_inactiveBuffer := by
  rw [store32_eq]; simp

@[simp] theorem store32_m_dmxBufferIndex (s : TeensyDmx) (i v : Nat) :
    (store32 s i v).m_dmxBufferIndex = s.m_dmxBufferIndex := by
  rw [store32_eq]; simp

@[simp] theorem store32_m_frameCount (s : TeensyDmx) (i v : Nat) :
    (store32 s i v).m_frameCount = s.m_frameCount := by
  rw [store32_eq]; simp

@[simp] theorem store32_m_newFrame (s : TeensyDmx) (i v : Nat) :
    (store32 s i v).m_newFrame = s.m_newFrame := by
  rw [store32_eq]; simp

@[simp] theorem store32_m_rdmChange (s : TeensyDmx) (i v : Nat) :
    (store32 s i v).m_rdmChange = s.m_rdmChange := by
  rw [store32_eq]; simp

@[simp] theorem store32_m_mode (s : TeensyDmx) (i v : Nat) :
    (store32 s i v).m_mode = s.m_mode := by
  rw [store32_eq]; simp

@[simp] theorem store32_m_state (s : TeensyDmx) (i v : Nat) :
    (store32 s i v).m_state = s.m_state := by
  rw [store32_eq]; simp

@[simp] theorem store32_m_rdmMute (s : TeensyDmx) (i v : Nat) :
    (store32 s i v).m_rdmMute = s.m_rdmMute := by
  rw [store32_eq]; simp

@[simp] theorem store32_m_identifyMode (s : TeensyDmx) (i v : Nat) :
    (store32 s i v).m_identifyMode = s.m_identifyMode := by
  rw [store32_eq]; simp

@[simp] theorem store32_m_rdm (s : TeensyDmx) (i v : Nat) :
    (store32 s i v).m_rdm = s.m_rdm := by
  rw [store32_eq]; simp

@[simp] theorem store32_m_deviceLabel (s : TeensyDmx) (i v : Nat) :
    (store32 s i v).m_deviceLabel = s.m_deviceLabel := by
  rw [store32_eq]; simp

@[simp] theorem store32_trace (s : TeensyDmx) (i v : Nat) :
    (store32 s i v).trace = s.trace := by
  rw [store32_eq]; simp

theorem sameFrame_refl (s : TeensyDmx) : sameFrame s s := ⟨rfl, rfl, rfl, rfl, rfl⟩

theorem answered_respond (K : Headers) (now t : Nat) (s s2 : TeensyDmx) (h : Bool) (r : Nat)
    (hs : sameFrame s s2) : answered K now t s (respondMessage K now s2 t h r) :=
  ⟨s2, h, r, hs, rfl⟩

theorem rdmSetIdentify_answered (K : Headers) (now : Nat) (s : TeensyDmx) (t : Nat) (f : Bool) :
    answered K now t s (rdmSetIdentify K now s t f) := by
  unfold rdmSetIdentify
  split_ifs <;> (apply answered_respond; simp [sameFrame])

theorem rdmSetStartAddress_answered (K : Headers) (now : Nat) (s : TeensyDmx) (t : Nat)
    (f : Bool) : answered K now t s (rdmSetStartAddress K now s t f) := by
  unfold rdmSetStartAddress
  dsimp only
  split_ifs
  · apply answered_respond; simp [sameFrame]
  · apply answered_respond; simp [sameFrame]
  · split <;> (apply answered_respond; simp [sameFrame])

theorem rdmSetParameters_answered (K : Headers) (now : Nat) (s : TeensyDmx) (t : Nat)
    (f : Bool) : answered K now t s (rdmSetParameters K now s t f) := by
  unfold rdmSetParameters
  apply answered_respond; simp [sameFrame]

theorem rdmGetIdentify_answered (K : Headers) (now : Nat) (s : TeensyDmx) (t : Nat) (f : Bool) :
    answered K now t s (rdmGetIdentify K now s t f) := by
  unfold rdmGetIdentify
  split_ifs <;> (apply answered_respond; simp [sameFrame])

theorem rdmGetDeviceInfo_answered (K : Headers) (now : Nat) (s : TeensyDmx) (t : Nat)
    (f : Bool) : answered K now t s (rdmGetDeviceInfo K now s t f) := by
  unfold rdmGetDeviceInfo
  split_ifs
  · apply answered_respond; simp [sameFrame]
  · apply answered_respond; simp [sameFrame]
  · apply answered_respond
    cases h : s.m_rdm <;> simp [sameFrame, h]

theorem respondLabel_answered (K : Headers) (now : Nat) (s : TeensyDmx) (t : Nat)
    (label : List Nat) : answered K now t s (respondLabel K now s t label) := by
  unfold respondLabel
  apply answered_respond; simp [sameFrame]

theorem rdmGetManufacturerLabel_answered (K : Headers) (now : Nat) (s : TeensyDmx) (t : Nat)
    (f : Bool) : answered K now t s (rdmGetManufacturerLabel K now s t f) := by
  unfold rdmGetManufacturerLabel
  split_ifs
  · apply answered_respond; simp [sameFrame]
  · apply answered_respond; simp [sameFrame]
  · split
    · apply answered_respond; simp [sameFrame]
    · exact respondLabel_answered ..

theorem rdmGetModelDescription_answered (K : Headers) (now : Nat) (s : TeensyDmx) (t : Nat)
    (f : Bool) : answered K now t s (rdmGetModelDescription K now s t f) := by
  unfold rdmGetModelDescription
  split_ifs
  · apply answered_respond; simp [sameFrame]
  · apply answered_respond; simp [sameFrame]
  · split
    · apply answered_respond; simp [sameFrame]
    · exact respondLabel_answered ..

theorem rdmGetSoftwareVersion_answered (K : Headers) (now : Nat) (s : TeensyDmx) (t : Nat)
    (f : Bool) : answered K now t s (rdmGetSoftwareVersion K now s t f) := by
  unfold rdmGetSoftwareVersion
  split_ifs
  · apply answered_respond; simp [sameFrame]
  · apply answered_respond; simp [sameFrame]
  · split
    · apply answered_respond; simp [sameFrame]
    · exact respondLabel_answered ..

theorem rdmGetStartAddress_answered (K : Headers) (now : Nat) (s : TeensyDmx) (t : Nat)
    (f : Bool) : answered K now t s (rdmGetStartAddress K now s t f) := by
  unfold rdmGetStartAddress
  split_ifs
  · apply answered_respond; simp [sameFrame]
  · apply answered_respond; simp [sameFrame]
  · apply answered_respond
    cases h : s.m_rdm <;> simp [sameFrame, h]

theorem sameFrame_trans (a b c : TeensyDmx) (h1 : sameFrame a b) (h2 : sameFrame b c) :
    sameFrame a c := by
  obtain ⟨a1, a2, a3, a4, a5⟩ := h1
  obtain ⟨b1, b2, b3, b4, b5⟩ := h2
  exact ⟨b1.trans a1, b2.trans a2, b3.trans a3, b4.trans a4, b5.trans a5⟩

theorem answered_sameRoles (K : Headers) (now t : Nat) (s r : TeensyDmx)
    (h : answered K now t s r) : sameRoles s r := by
  obtain ⟨s2, b, reason, ⟨_, h2, h3, h4, h5⟩, rfl⟩ := h
  exact ⟨by simp [h2], by simp [h3], by simp [h4], by simp [h5]⟩

theorem rdmSetDeviceLabel_answered (K : Headers) (now : Nat) (s : TeensyDmx) (t : Nat)
    (f : Bool) (hne : active s RDMDATA.DataLength ≠ K.sizeof_m_deviceLabel) :
    ∃ r, rdmSetDeviceLabel K now s t f = some r ∧ answered K now t s r := by
  unfold rdmSetDeviceLabel
  have h2 : ∀ x : Buffer, active { s with m_deviceLabel := x } = active s := fun _ => rfl
  by_cases h : active s RDMDATA.DataLength > K.sizeof_m_deviceLabel
  · rw [if_pos h]
    exact ⟨_, rfl, answered_respond _ _ _ _ _ _ _ (sameFrame_refl s)⟩
  · have hlt : active s RDMDATA.DataLength < K.sizeof_m_deviceLabel := by omega
    simp only [h, if_false, h2, hlt, if_true]
    refine ⟨_, rfl, ?_⟩
    apply answered_respond
    simp [sameFrame]

theorem rdmGetDeviceLabel_answered (K : Headers) (now : Nat) (s : TeensyDmx) (t : Nat)
    (f : Bool) (hNul : (strlen s.m_deviceLabel K.sizeof_m_deviceLabel).isSome = true) :
    ∃ r, rdmGetDeviceLabel K now s t f = some r ∧ answered K now t s r := by
  unfold rdmGetDeviceLabel
  obtain ⟨n, hn⟩ := Option.isSome_iff_exists.mp hNul
  split_ifs
  · exact ⟨_, rfl, answered_respond _ _ _ _ _ _ _ (sameFrame_refl s)⟩
  · exact ⟨_, rfl, answered_respond _ _ _ _ _ _ _ (sameFrame_refl s)⟩
  · simp only [hn]
    refine ⟨_, rfl, ?_⟩
    apply answered_respond
    simp [sameFrame]

theorem putAdditionalCommands_sameFrame (cfg : RDMINIT) : ∀ (l : List Nat) (s : TeensyDmx),
    (∀ n ∈ l, n < cfg.additionalCommands.length ∧ n ≤ 240) →
    ∃ s1, putAdditionalCommands cfg s l = some s1 ∧ sameFrame s s1 ∧ s1.m_rdm = s.m_rdm := by
  intro l
  induction l with
  | nil => intro s _; exact ⟨s, rfl, sameFrame_refl s, rfl⟩
  | cons n ns ih =>
    intro s h
    obtain ⟨h1, h2⟩ := h n (List.mem_cons_self _ _)
    obtain ⟨c, hc⟩ : ∃ c, cfg.additionalCommands.get? n = some c :=
      ⟨_, List.get?_eq_get h1⟩
    have hb : RDMDATA.Data + (6 + n + n) + 1 < DMX_BUFFER_SIZE := by
      simp only [RDMDATA.Data, DMX_BUFFER_SIZE]
      omega
    obtain ⟨s1, e1, f1, g1⟩ := ih (putInt s (RDMDATA.Data + (6 + n + n)) c)
      (fun m hm => h m (List.mem_cons_of_mem _ hm))
    refine ⟨s1, ?_, ?_, ?_⟩
    · simp only [putAdditionalCommands, hc, hb, if_true]
      exact e1
    · exact sameFrame_trans _ _ _ (by simp [sameFrame]) f1
    · rw [g1]; simp

theorem rdmGetParameters_answered (K : Headers) (now : Nat) (s : TeensyDmx) (t : Nat)
    (f : Bool)
    (hCfg : ∀ cfg, s.m_rdm = some cfg →
      cfg.additionalCommandsLength ≤ cfg.additionalCommands.length ∧
      cfg.additionalCommandsLength ≤ 241) :
    ∃ r, rdmGetParameters K now s t f = some r ∧ answered K now t s r := by
  unfold rdmGetParameters
  split_ifs
  · exact ⟨_, rfl, answered_respond _ _ _ _ _ _ _ (sameFrame_refl s)⟩
  · exact ⟨_, rfl, answered_respond _ _ _ _ _ _ _ (sameFrame_refl s)⟩
  · cases h : s.m_rdm with
    | none =>
      simp only [Option.map_some']
      refine ⟨_, rfl, ?_⟩
      apply answered_respond
      simp [sameFrame]
    | some cfg =>
      obtain ⟨hc1, hc2⟩ := hCfg cfg h
      obtain ⟨s1, e1, f1, _⟩ := putAdditionalCommands_sameFrame cfg
        (List.range cfg.additionalCommandsLength)
        (storeActive s RDMDATA.DataLength (2 * (3 + cfg.additionalCommandsLength)))
        (fun n hn => by
          have := List.mem_range.mp hn
          omega)
      simp only [e1, Option.map_some']
      refine ⟨_, rfl, ?_⟩
      apply answered_respond
      refine sameFrame_trans _ _ _ (sameFrame_trans s _ _ (by simp [sameFrame]) f1) ?_
      simp [sameFrame]

theorem rdmUniqueBranch_sameRoles (s : TeensyDmx) (t : Nat) (f : Bool) :
    sameRoles s (rdmUniqueBranch s t f) := by
  unfold rdmUniqueBranch
  split_ifs
  · exact ⟨rfl, rfl, rfl, rfl⟩
  · exact ⟨rfl, rfl, rfl, rfl⟩
  · exact ⟨rfl, rfl, rfl, rfl⟩
  · rw [fillDiscovery_eq]
    simp [sameRoles, startReceive, stopReceive, emit]
  · exact ⟨rfl, rfl, rfl, rfl⟩

theorem rdmMute_sameRoles (K : Headers) (now : Nat) (s : TeensyDmx) (t : Nat) (f : Bool) :
    sameRoles s (rdmMute K now s t f) := by
  unfold rdmMute
  split_ifs
  · simp [sameRoles]
  · exact ⟨rfl, rfl, rfl, rfl⟩

theorem rdmUnmute_sameRoles (K : Headers) (now : Nat) (s : TeensyDmx) (t : Nat) (f : Bool) :
    sameRoles s (rdmUnmute K now s t f) := by
  unfold rdmUnmute
  split_ifs
  · simp [sameRoles]
  · exact ⟨rfl, rfl, rfl, rfl⟩

theorem dispatch_cases (P : TeensyDmx → Prop) (K : Headers) (now t : Nat) (f : Bool) (p : Nat)
    (s : TeensyDmx) : ∀ table : List RDMHandler,
    (∀ h ∈ table, h.isFor (active s RDMDATA.CmdClass) p →
      ∃ r, h.function K now s t f = some r ∧ P r) →
    (∃ r, dispatch K now t f p s table = some (r, true) ∧ P r) ∨
      dispatch K now t f p s table = some (s, false) := by
  intro table
  induction table with
  | nil => intro _; exact Or.inr rfl
  | cons h hs ih =>
    intro hall
    by_cases hm : active s RDMDATA.CmdClass = h.commandClass ∧ p = h.parameter
    · obtain ⟨r, hr, hP⟩ := hall h (List.mem_cons_self _ _) hm
      left
      exact ⟨r, by simp [dispatch, hm, hr], hP⟩
    · have e : dispatch K now t f p s (h :: hs) = dispatch K now t f p s hs := by
        simp only [dispatch, hm, if_false]
      rw [e]
      exact ih (fun h2 hmem => hall h2 (List.mem_cons_of_mem _ hmem))

theorem dispatch_none (K : Headers) (now t : Nat) (f : Bool) (p : Nat) (s : TeensyDmx) :
    ∀ table : List RDMHandler,
    (∀ h ∈ table, ¬ h.isFor (active s RDMDATA.CmdClass) p) →
    dispatch K now t f p s table = some (s, false) := by
  intro table
  induction table with
  | nil => intro _; rfl
  | cons h hs ih =>
    intro hall
    have hm : ¬ (active s RDMDATA.CmdClass = h.commandClass ∧ p = h.parameter) :=
      hall h (List.mem_cons_self _ _)
    simp only [dispatch, hm, if_false]
    exact ih (fun h2 hmem => hall h2 (List.mem_cons_of_mem _ hmem))

theorem processRDM_addressed (K : Headers) (t now : Nat) (s : TeensyDmx)
    (hAddr : isAddressed s) :
    processRDM K t now s =
      (dispatch K now t (decide (memcmp (bytes (active s) RDMDATA.DestID 6) _devID = 0))
        (requestParameter (active s)) s (m_rdmHandlers K)).map fun r =>
          if r.2 = false then respondMessage K now r.1 t r.2 K.E120_NR_UNKNOWN_PID else r.1 := by
  have e1 := memcmp_eq_zero_iff (bytes (active s) RDMDATA.DestID 6) _devID (by simp [_devID])
  have e2 := memcmp_eq_zero_iff (bytes (active s) RDMDATA.DestID 6) _devIDAll
    (by simp [_devIDAll])
  have e3 := memcmp_eq_zero_iff (bytes (active s) RDMDATA.DestID 6) _devIDGroup
    (by simp [_devIDGroup])
  have hc : ¬ ((!decide (memcmp (bytes (active s) RDMDATA.DestID 6) _devID = 0)) = true ∧
      memcmp (bytes (active s) RDMDATA.DestID 6) _devIDAll ≠ 0 ∧
      memcmp (bytes (active s) RDMDATA.DestID 6) _devIDGroup ≠ 0) := by
    rintro ⟨h1, h2, h3⟩
    rw [ne_eq, e2] at h2
    rw [ne_eq, e3] at h3
    simp only [Bool.not_eq_true', decide_eq_false_iff_not, e1] at h1
    rcases hAddr with h | h | h
    · exact h1 h
    · exact h2 h
    · exact h3 h
  unfold processRDM
  simp only [hc, if_false]
  rfl

theorem handlers_outcome (K : Headers) (now : Nat) (s : TeensyDmx) (t : Nat) (f : Bool)
    (hB : dispatchInBounds K s) :
    ∀ h ∈ m_rdmHandlers K, h.isFor (active s RDMDATA.CmdClass) (requestParameter (active s)) →
      ∃ r, h.function K now s t f = some r ∧
        (answered K now t s r ∨ (isDiscoveryRequest K s ∧ sameRoles s r)) := by
  obtain ⟨hNul, hSet, hCfg⟩ := hB
  have hCfg2 : ∀ cfg, s.m_rdm = some cfg →
      cfg.additionalCommandsLength ≤ cfg.additionalCommands.length ∧
      cfg.additionalCommandsLength ≤ 241 := by
    intro cfg hc
    rw [hc] at hCfg
    exact hCfg
  intro h hmem hfor
  simp only [m_rdmHandlers, List.mem_cons, List.mem_singleton, List.mem_nil_iff, or_false]
    at hmem
  rcases hmem with rfl | rfl | rfl | rfl | rfl | rfl | rfl | rfl | rfl | rfl | rfl | rfl | rfl |
    rfl | rfl
  · exact ⟨_, rfl, Or.inr ⟨⟨hfor.1, Or.inl hfor.2⟩, rdmUniqueBranch_sameRoles ..⟩⟩
  · exact ⟨_, rfl, Or.inr ⟨⟨hfor.1, Or.inr (Or.inl hfor.2)⟩, rdmUnmute_sameRoles ..⟩⟩
  · exact ⟨_, rfl, Or.inr ⟨⟨hfor.1, Or.inr (Or.inr hfor.2)⟩, rdmMute_sameRoles ..⟩⟩
  · exact ⟨_, rfl, Or.inl (rdmSetIdentify_answered ..)⟩
  · have hne : active s RDMDATA.DataLength ≠ K.sizeof_m_deviceLabel :=
      fun he => hSet ⟨hfor.1, hfor.2, he⟩
    obtain ⟨r, hr, ha⟩ := rdmSetDeviceLabel_answered K now s t f hne
    exact ⟨r, hr, Or.inl ha⟩
  · exact ⟨_, rfl, Or.inl (rdmSetStartAddress_answered ..)⟩
  · exact ⟨_, rfl, Or.inl (rdmSetParameters_answered ..)⟩
  · exact ⟨_, rfl, Or.inl (rdmGetIdentify_answered ..)⟩
  · exact ⟨_, rfl, Or.inl (rdmGetDeviceInfo_answered ..)⟩
  · exact ⟨_, rfl, Or.inl (rdmGetManufacturerLabel_answered ..)⟩
  · exact ⟨_, rfl, Or.inl (rdmGetModelDescription_answered ..)⟩
  · obtain ⟨r, hr, ha⟩ := rdmGetDeviceLabel_answered K now s t f hNul
    exact ⟨r, hr, Or.inl ha⟩
  · exact ⟨_, rfl, Or.inl (rdmGetSoftwareVersion_answered ..)⟩
  · exact ⟨_, rfl, Or.inl (rdmGetStartAddress_answered ..)⟩
  · obtain ⟨r, hr, ha⟩ := rdmGetParameters_answered K now s t f hCfg2
    exact ⟨r, hr, Or.inl ha⟩

theorem processRDM_outcome (K : Headers) (t now : Nat) (s : TeensyDmx)
    (hAddr : isAddressed s) (hB : dispatchInBounds K s) :
    ∃ r, processRDM K t now s = some r ∧
      (answered K now t s r ∨ (isDiscoveryRequest K s ∧ sameRoles s r)) := by
  rw [processRDM_addressed K t now s hAddr]
  rcases dispatch_cases
      (fun r => answered K now t s r ∨ (isDiscoveryRequest K s ∧ sameRoles s r)) K now t
      (decide (memcmp (bytes (active s) RDMDATA.DestID 6) _devID = 0))
      (requestParameter (active s)) s (m_rdmHandlers K)
      (handlers_outcome K now s t _ hB) with ⟨r, hr, hP⟩ | hnone
  · exact ⟨r, by simp [hr], hP⟩
  · refine ⟨respondMessage K now s t false K.E120_NR_UNKNOWN_PID, by simp [hnone], Or.inl ?_⟩
    exact answered_respond _ _ _ _ _ _ _ (sameFrame_refl s)

theorem answered_responseSent (K : Headers) (now t : Nat) (s r : TeensyDmx)
    (h : answered K now t s r) :
    responseSent s.trace r ∧
      (active r RDMDATA.ResponseType = K.E120_RESPONSE_TYPE_ACK % 256 ∨
        (active r RDMDATA.ResponseType = K.E120_RESPONSE_TYPE_NACK_REASON % 256 ∧
          active r RDMDATA.DataLength = 2)) := by
  obtain ⟨s2, b, reason, ⟨htr, _⟩, rfl⟩ := h
  rw [← htr]
  refine ⟨respondMessage_responseSent K now s2 t b reason, ?_⟩
  cases b
  · obtain ⟨_, h2, h3, _⟩ := respondMessage_nackSent K now s2 t reason
    exact Or.inr ⟨h2, h3⟩
  · obtain ⟨_, h2, _⟩ := respondMessage_ackSent K now s2 t reason
    exact Or.inl h2

theorem swap_bytes (x y : Nat) (hx : x < 256) (hy : y < 256) :
    (((x + 256 * y) <<< 8) ||| (((x + 256 * y) >>> 8) &&& 0xff)) % 65536 = x * 256 + y := by
  have h1 : (x + 256 * y) >>> 8 = (x + 256 * y) / 256 := Nat.shiftRight_eq_div_pow _ 8
  have h2 : ∀ z : Nat, z &&& 0xff = z % 256 := fun z => Nat.and_pow_two_sub_one_eq_mod z 8
  have h3 : (x + 256 * y) / 256 % 256 = y := by omega
  have h4 := Nat.mul_add_lt_is_or (show y < 2 ^ 8 from hy) (x + 256 * y)
  have h5 : (x + 256 * y) <<< 8 = 2 ^ 8 * (x + 256 * y) := by
    rw [Nat.shiftLeft_eq, Nat.mul_comm]
  rw [h1, h2, h3, h5, ← h4]
  norm_num
  omega

theorem requestParameter_eq (b : Buffer) (hHi : b (RDMDATA.Parameter + 0) < 256)
    (hLo : b (RDMDATA.Parameter + 1) < 256) :
    requestParameter b = bigEndian (bytes b RDMDATA.Parameter 2) := by
  rw [bigEndian_pair]
  unfold requestParameter load16
  exact swap_bytes _ _ hHi hLo

theorem processRDM_ignored (K : Headers) (t now : Nat) (s : TeensyDmx)
    (hAddr : ¬ isAddressed s) : processRDM K t now s = some s := by
  have e1 := memcmp_eq_zero_iff (bytes (active s) RDMDATA.DestID 6) _devID (by simp [_devID])
  have e2 := memcmp_eq_zero_iff (bytes (active s) RDMDATA.DestID 6) _devIDAll
    (by simp [_devIDAll])
  have e3 := memcmp_eq_zero_iff (bytes (active s) RDMDATA.DestID 6) _devIDGroup
    (by simp [_devIDGroup])
  unfold isAddressed at hAddr
  have h1 : bytes (active s) RDMDATA.DestID 6 ≠ _devID := fun h => hAddr (Or.inl h)
  have h2 : bytes (active s) RDMDATA.DestID 6 ≠ _devIDAll := fun h => hAddr (Or.inr (Or.inl h))
  have h3 : bytes (active s) RDMDATA.DestID 6 ≠ _devIDGroup :=
    fun h => hAddr (Or.inr (Or.inr h))
  unfold processRDM
  simp [e1, e2, e3, h1, h2, h3]

/-- The eight GET handlers answer a request without data for a sub-device other than 0 with
NACK "sub-device out of range", and leave the device state unchanged. -/
theorem get_handlers_reject_subDev (K : Headers) (now : Nat) (s : TeensyDmx)
    (timingStart : Nat) (isForMe : Bool) (hLen : active s RDMDATA.DataLength = 0)
    (hSub : load16 (active s) RDMDATA.SubDev ≠ 0) :
    rdmGetIdentify K now s timingStart isForMe =
      respondMessage K now s timingStart false K.E120_NR_SUB_DEVICE_OUT_OF_RANGE ∧
    rdmGetDeviceInfo K now s timingStart isForMe =
      respondMessage K now s timingStart false K.E120_NR_SUB_DEVICE_OUT_OF_RANGE ∧
    rdmGetManufacturerLabel K now s timingStart isForMe =
      respondMessage K now s timingStart false K.E120_NR_SUB_DEVICE_OUT_OF_RANGE ∧
    rdmGetModelDescription K now s timingStart isForMe =
      respondMessage K now s timingStart false K.E120_NR_SUB_DEVICE_OUT_OF_RANGE ∧
    rdmGetDeviceLabel K now s timingStart isForMe =
      some (respondMessage K now s timingStart false K.E120_NR_SUB_DEVICE_OUT_OF_RANGE) ∧
    rdmGetSoftwareVersion K now s timingStart isForMe =
      respondMessage K now s timingStart false K.E120_NR_SUB_DEVICE_OUT_OF_RANGE ∧
    rdmGetStartAddress K now s timingStart isForMe =
      respondMessage K now s timingStart false K.E120_NR_SUB_DEVICE_OUT_OF_RANGE ∧
    rdmGetParameters K now s timingStart isForMe =
      some (respondMessage K now s timingStart false K.E120_NR_SUB_DEVICE_OUT_OF_RANGE) ∧
    nackSent K s.trace
      (respondMessage K now s timingStart false K.E120_NR_SUB_DEVICE_OUT_OF_RANGE)
      K.E120_NR_SUB_DEVICE_OUT_OF_RANGE ∧
    deviceState (respondMessage K now s timingStart false K.E120_NR_SUB_DEVICE_OUT_OF_RANGE) =
      deviceState s := by
  have hLen2 : ¬ active s RDMDATA.DataLength > 0 := by omega
  refine ⟨?_, ?_, ?_, ?_, ?_, ?_, ?_, ?_, respondMessage_nackSent K now s timingStart _,
    deviceState_respondMessage ..⟩
  · unfold rdmGetIdentify; rw [if_neg hLen2, if_pos hSub]
  · unfold rdmGetDeviceInfo; rw [if_neg hLen2, if_pos hSub]
  · unfold rdmGetManufacturerLabel; rw [if_neg hLen2, if_pos hSub]
  · unfold rdmGetModelDescription; rw [if_neg hLen2, if_pos hSub]
  · unfold rdmGetDeviceLabel; rw [if_neg hLen2, if_pos hSub]
  · unfold rdmGetSoftwareVersion; rw [if_neg hLen2, if_pos hSub]
  · unfold rdmGetStartAddress; rw [if_neg hLen2, if_pos hSub]
  · unfold rdmGetParameters; rw [if_neg hLen2, if_pos hSub]

theorem rdmMute_answered (K : Headers) (now : Nat) (s : TeensyDmx) (t : Nat) (f : Bool)
    (hf : f = true) (hLen : active s RDMDATA.DataLength = 0) :
    answered K now t s (rdmMute K now s t f) := by
  unfold rdmMute
  rw [if_pos ⟨hf, hLen⟩]
  apply answered_respond
  simp [sameFrame]

theorem rdmUnmute_answered (K : Headers) (now : Nat) (s : TeensyDmx) (t : Nat) (f : Bool)
    (hf : f = true) (hLen : active s RDMDATA.DataLength = 0) :
    answered K now t s (rdmUnmute K now s t f) := by
  unfold rdmUnmute
  rw [if_pos ⟨hf, hLen⟩]
  apply answered_respond
  simp [sameFrame]

theorem rdmMute_silent (K : Headers) (now : Nat) (s : TeensyDmx) (t : Nat) (f : Bool)
    (hLen : active s RDMDATA.DataLength ≠ 0) : rdmMute K now s t f = s := by
  unfold rdmMute
  rw [if_neg (fun h => hLen h.2)]

theorem rdmUnmute_silent (K : Headers) (now : Nat) (s : TeensyDmx) (t : Nat) (f : Bool)
    (hLen : active s RDMDATA.DataLength ≠ 0) : rdmUnmute K now s t f = s := by
  unfold rdmUnmute
  rw [if_neg (fun h => hLen h.2)]

theorem dispatch_mute (K : Headers) (now t : Nat) (f : Bool) (s : TeensyDmx)
    (hMute : isMuteRequest K s) (hNB : ¬ isUniqueBranchRequest K s) :
    dispatch K now t f (requestParameter (active s)) s (m_rdmHandlers K) =
        some (rdmUnmute K now s t f, true) ∨
      dispatch K now t f (requestParameter (active s)) s (m_rdmHandlers K) =
        some (rdmMute K now s t f, true) := by
  obtain ⟨hc, hp⟩ := hMute
  have h0 : ¬ (active s RDMDATA.CmdClass = K.E120_DISCOVERY_COMMAND ∧
      requestParameter (active s) = K.E120_DISC_UNIQUE_BRANCH) := hNB
  unfold m_rdmHandlers
  by_cases hu : requestParameter (active s) = K.E120_DISC_UN_MUTE
  · left
    have h1 : active s RDMDATA.CmdClass = K.E120_DISCOVERY_COMMAND ∧
        requestParameter (active s) = K.E120_DISC_UN_MUTE := ⟨hc, hu⟩
    simp only [dispatch, if_neg h0, if_pos h1, Option.map_some']
  · right
    have h1 : ¬ (active s RDMDATA.CmdClass = K.E120_DISCOVERY_COMMAND ∧
        requestParameter (active s) = K.E120_DISC_UN_MUTE) := fun h => hu h.2
    have h2 : active s RDMDATA.CmdClass = K.E120_DISCOVERY_COMMAND ∧
        requestParameter (active s) = K.E120_DISC_MUTE :=
      ⟨hc, hp.resolve_left hu⟩
    simp only [dispatch, if_neg h0, if_neg h1, if_pos h2, Option.map_some']

theorem dispatch_nodup (K : Headers) (now t : Nat) (f : Bool) (p : Nat) (s : TeensyDmx) :
    ∀ table : List RDMHandler,
    (table.map fun h => (h.commandClass, h.parameter)).Nodup →
    ∀ h ∈ table, h.isFor (active s RDMDATA.CmdClass) p →
      dispatch K now t f p s table = (h.function K now s t f).map fun s1 => (s1, true) := by
  intro table
  induction table with
  | nil => intro _ h hmem; exact absurd hmem (List.not_mem_nil h)
  | cons h0 hs ih =>
    intro hnd h hmem hfor
    rw [List.map_cons, List.nodup_cons] at hnd
    rcases List.mem_cons.mp hmem with rfl | hmem2
    · have hm : active s RDMDATA.CmdClass = h.commandClass ∧ p = h.parameter := hfor
      simp only [dispatch, if_pos hm]
    · have hm : ¬ (active s RDMDATA.CmdClass = h0.commandClass ∧ p = h0.parameter) := by
        intro hm0
        apply hnd.1
        have hkey : (h0.commandClass, h0.parameter) = (h.commandClass, h.parameter) := by
          rw [← hm0.1, ← hm0.2, hfor.1, hfor.2]
        rw [hkey]
        exact List.mem_map_of_mem (fun h => (h.commandClass, h.parameter)) hmem2
      simp only [dispatch, if_neg hm]
      exact ih hnd.2 h hmem2 hfor

theorem processRDM_handled (K : Headers) (t now : Nat) (s r : TeensyDmx)
    (hAddr : isAddressed s)
    (hd : dispatch K now t (decide (memcmp (bytes (active s) RDMDATA.DestID 6) _devID = 0))
      (requestParameter (active s)) s (m_rdmHandlers K) = some (r, true)) :
    processRDM K t now s = some r := by
  rw [processRDM_addressed K t now s hAddr, hd]
  rfl

theorem dispatch_entry (K : Headers) (now t : Nat) (f : Bool) (s r : TeensyDmx)
    (hKeys : (tableKeys K).Nodup) (h : RDMHandler) (hmem : h ∈ m_rdmHandlers K)
    (hfor : h.isFor (active s RDMDATA.CmdClass) (requestParameter (active s)))
    (hr : h.function K now s t f = some r) :
    dispatch K now t f (requestParameter (active s)) s (m_rdmHandlers K) = some (r, true) := by
  rw [dispatch_nodup K now t f _ s (m_rdmHandlers K) hKeys h hmem hfor, hr]
  rfl

theorem processRDM_wrongLength (K : Headers) (t now : Nat) (s : TeensyDmx)
    (hAddr : isAddressed s) (hKeys : (tableKeys K).Nodup) (hWrong : wrongPayloadLength K s) :
    processRDM K t now s = some (respondMessage K now s t false K.E120_NR_FORMAT_ERROR) := by
  apply processRDM_handled K t now s _ hAddr
  rcases hWrong with ⟨hc, ⟨hp, hl⟩ | ⟨hp, hl⟩ | ⟨hp, hl⟩⟩ |
    ⟨hc, hp | hp | hp | hp | hp | hp | hp | hp, hl⟩
  · apply dispatch_entry K now t _ s _ hKeys
      ⟨K.E120_SET_COMMAND, K.E120_IDENTIFY_DEVICE,
        fun K n s t f => some (rdmSetIdentify K n s t f)⟩ (by simp [m_rdmHandlers]) ⟨hc, hp⟩
    show some (rdmSetIdentify _ _ _ _ _) = _
    unfold rdmSetIdentify
    rw [if_pos hl]
  · apply dispatch_entry K now t _ s _ hKeys
      ⟨K.E120_SET_COMMAND, K.E120_DEVICE_LABEL, rdmSetDeviceLabel⟩
      (by simp [m_rdmHandlers]) ⟨hc, hp⟩
    dsimp only
    unfold rdmSetDeviceLabel
    rw [if_pos hl]
  · apply dispatch_entry K now t _ s _ hKeys
      ⟨K.E120_SET_COMMAND, K.E120_DMX_START_ADDRESS,
        fun K n s t f => some (rdmSetStartAddress K n s t f)⟩ (by simp [m_rdmHandlers]) ⟨hc, hp⟩
    show some (rdmSetStartAddress _ _ _ _ _) = _
    unfold rdmSetStartAddress
    rw [if_pos hl]
  · apply dispatch_entry K now t _ s _ hKeys
      ⟨K.E120_GET_COMMAND, K.E120_IDENTIFY_DEVICE,
        fun K n s t f => some (rdmGetIdentify K n s t f)⟩ (by simp [m_rdmHandlers]) ⟨hc, hp⟩
    show some (rdmGetIdentify _ _ _ _ _) = _
    unfold rdmGetIdentify
    rw [if_pos hl]
  · apply dispatch_entry K now t _ s _ hKeys
      ⟨K.E120_GET_COMMAND, K.E120_DEVICE_INFO,
        fun K n s t f => some (rdmGetDeviceInfo K n s t f)⟩ (by simp [m_rdmHandlers]) ⟨hc, hp⟩
    show some (rdmGetDeviceInfo _ _ _ _ _) = _
    unfold rdmGetDeviceInfo
    rw [if_pos hl]
  · apply dispatch_entry K now t _ s _ hKeys
      ⟨K.E120_GET_COMMAND, K.E120_MANUFACTURER_LABEL,
        fun K n s t f => some (rdmGetManufacturerLabel K n s t f)⟩ (by simp [m_rdmHandlers])
      ⟨hc, hp⟩
    show some (rdmGetManufacturerLabel _ _ _ _ _) = _
    unfold rdmGetManufacturerLabel
    rw [if_pos hl]
  · apply dispatch_entry K now t _ s _ hKeys
      ⟨K.E120_GET_COMMAND, K.E120_DEVICE_MODEL_DESCRIPTION,
        fun K n s t f => some (rdmGetModelDescription K n s t f)⟩ (by simp [m_rdmHandlers])
      ⟨hc, hp⟩
    show some (rdmGetModelDescription _ _ _ _ _) = _
    unfold rdmGetModelDescription
    rw [if_pos hl]
  · apply dispatch_entry K now t _ s _ hKeys
      ⟨K.E120_GET_COMMAND, K.E120_DEVICE_LABEL, rdmGetDeviceLabel⟩
      (by simp [m_rdmHandlers]) ⟨hc, hp⟩
    dsimp only
    unfold rdmGetDeviceLabel
    rw [if_pos hl]
  · apply dispatch_entry K now t _ s _ hKeys
      ⟨K.E120_GET_COMMAND, K.E120_SOFTWARE_VERSION_LABEL,
        fun K n s t f => some (rdmGetSoftwareVersion K n s t f)⟩ (by simp [m_rdmHandlers])
      ⟨hc, hp⟩
    show some (rdmGetSoftwareVersion _ _ _ _ _) = _
    unfold rdmGetSoftwareVersion
    rw [if_pos hl]
  · apply dispatch_entry K now t _ s _ hKeys
      ⟨K.E120_GET_COMMAND, K.E120_DMX_START_ADDRESS,
        fun K n s t f => some (rdmGetStartAddress K n s t f)⟩ (by simp [m_rdmHandlers]) ⟨hc, hp⟩
    show some (rdmGetStartAddress _ _ _ _ _) = _
    unfold rdmGetStartAddress
    rw [if_pos hl]
  · apply dispatch_entry K now t _ s _ hKeys
      ⟨K.E120_GET_COMMAND, K.E120_SUPPORTED_PARAMETERS, rdmGetParameters⟩
      (by simp [m_rdmHandlers]) ⟨hc, hp⟩
    dsimp only
    unfold rdmGetParameters
    rw [if_pos hl]

/-! ## The claims -/

/-- C1 (the code at the failing input). From state BREAK with index 0 and zeroed buffers, the
start code 0x00 and the first 511 of the data bytes 1, 2, 3, ... leave data byte d[i] at index
i + 1 of the active buffer and index 0 untouched (so the buffer does not hold d[i] at index i);
the 512th data byte is then stored at index 512, outside of the 512-byte buffer, so the run
over the whole frame, and the frame completion after it, have no defined result. -/
theorem reception_stores_one_too_high :
    (∃ s1, readBytes (listening none) (0 :: sampleFrame.take 511) = some s1 ∧
      s1.m_state = State.DMX_RECV ∧ s1.m_dmxBufferIndex = 511 ∧
      active s1 0 = 0 ∧ sampleFrame.getD 0 0 = 1 ∧
      (∀ i, i < 511 → active s1 (i + 1) = sampleFrame.getD i 0) ∧
      readByte s1 (sampleFrame.getD 511 0) = none) ∧
    sampleFrame.length = 512 ∧
    readBytes (listening none) (0 :: sampleFrame) = none ∧
    completeFrame e120 (0 :: sampleFrame) 0 0 (listening none) = none := by
  have hlen : sampleFrame.length = 512 := by simp [sampleFrame]
  have hfull : readBytes (listening none) (0 :: sampleFrame) = none :=
    readBytes_dmx_overrun _ _ rfl rfl (by rw [hlen]; decide)
  refine ⟨?_, hlen, hfull, ?_⟩
  · have htake : (sampleFrame.take 511).length = 511 := by simp [hlen]
    obtain ⟨s1, h1, h2, h3, _, _, h6⟩ := readBytes_dmx_frame (listening none)
      (sampleFrame.take 511) rfl rfl (by rw [htake]; decide)
    rw [htake] at h3
    refine ⟨s1, h1, h2, h3, ?_, ?_, ?_, ?_⟩
    · rw [h6 0]
      rfl
    · rw [sampleFrame_getD 0 (by decide)]
    · intro i hi
      rw [h6 (i + 1), htake, if_pos (by omega), Nat.add_sub_cancel,
        List.getD_eq_getElem?_getD, List.getElem?_take_of_lt hi, ← List.getD_eq_getElem?_getD,
        sampleFrame_getD i (by omega)]
      exact Nat.mod_mod _ _
    · apply readByte_overrun _ _ h2
      rw [h3]; decide
  · unfold completeFrame
    rw [hfull]
    rfl

/-- C2. Addressing filter: when the destination ID of the message in the active buffer is
neither the device's own ID, nor the all-devices ID, nor the manufacturer-group ID,
`processRDM` returns the driver exactly as it was: nothing is transmitted, and the buffer,
the mute and identify flags, the device label, the start address and the RDM-changed flag
are unchanged. -/
theorem processRDM_not_addressed (K : Headers) (timingStart now : Nat) (s : TeensyDmx)
    (hOwn : bytes (active s) RDMDATA.DestID 6 ≠ _devID)
    (hAll : bytes (active s) RDMDATA.DestID 6 ≠ _devIDAll)
    (hGroup : bytes (active s) RDMDATA.DestID 6 ≠ _devIDGroup) :
    processRDM K timingStart now s = some s := by
  have e1 := memcmp_eq_zero_iff (bytes (active s) RDMDATA.DestID 6) _devID (by simp [_devID])
  have e2 := memcmp_eq_zero_iff (bytes (active s) RDMDATA.DestID 6) _devIDAll
    (by simp [_devIDAll])
  have e3 := memcmp_eq_zero_iff (bytes (active s) RDMDATA.DestID 6) _devIDGroup
    (by simp [_devIDGroup])
  unfold processRDM
  simp [e1, e2, e3, hOwn, hAll, hGroup]

/-- C2 (instance): the zeroed buffer of a fresh driver carries the destination ID
00 00 00 00 00 00. -/
theorem processRDM_not_addressed_witness :
    bytes (active (init none)) RDMDATA.DestID 6 ≠ _devID ∧
    processRDM e120 0 0 (init none) = some (init none) :=
  ⟨by decide, processRDM_not_addressed e120 0 0 (init none) (by decide) (by decide) (by decide)⟩

/-- C3. `rdmSetStartAddress` with a 2-byte payload of big-endian value v: if v = 0 or v > 512
the response is NACK "data out of range" and the stored start address is unchanged; if
1 <= v <= 512 and a configuration is attached, the response is ACK with empty payload, the
stored start address becomes v and the RDM-changed flag is set; if 1 <= v <= 512 and no
configuration is attached, the response is NACK "hardware fault". -/
theorem rdmSetStartAddress_range (K : Headers) (now : Nat) (s : TeensyDmx) (timingStart : Nat)
    (isForMe : Bool) (hLen : active s RDMDATA.DataLength = 2)
    (hHi : active s (RDMDATA.Data + 0) < 256) (hLo : active s (RDMDATA.Data + 1) < 256) :
    (bigEndian (bytes (active s) RDMDATA.Data 2) = 0 ∨
        512 < bigEndian (bytes (active s) RDMDATA.Data 2) →
      nackSent K s.trace (rdmSetStartAddress K now s timingStart isForMe)
        K.E120_NR_DATA_OUT_OF_RANGE ∧
      (rdmSetStartAddress K now s timingStart isForMe).m_rdm = s.m_rdm) ∧
    (1 ≤ bigEndian (bytes (active s) RDMDATA.Data 2) ∧
        bigEndian (bytes (active s) RDMDATA.Data 2) ≤ 512 →
      (∀ cfg, s.m_rdm = some cfg →
        ackSent K s.trace (rdmSetStartAddress K now s timingStart isForMe) [] ∧
        (rdmSetStartAddress K now s timingStart isForMe).m_rdm =
          some { cfg with startAddress := bigEndian (bytes (active s) RDMDATA.Data 2) } ∧
        (rdmSetStartAddress K now s timingStart isForMe).m_rdmChange = true) ∧
      (s.m_rdm = none →
        nackSent K s.trace (rdmSetStartAddress K now s timingStart isForMe)
          K.E120_NR_HARDWARE_FAULT ∧
        (rdmSetStartAddress K now s timingStart isForMe).m_rdm = none)) := by
  have hv := shiftLeft_or_bytes _ _ hHi hLo
  rw [bigEndian_pair]
  refine ⟨?_, ?_⟩
  · intro hr
    have hcond : active s (RDMDATA.Data + 0) * 256 + active s (RDMDATA.Data + 1) ≤ 0 ∨
        active s (RDMDATA.Data + 0) * 256 + active s (RDMDATA.Data + 1) > DMX_BUFFER_SIZE := by
      unfold DMX_BUFFER_SIZE; omega
    unfold rdmSetStartAddress
    simp only [hLen, ne_eq, not_true_eq_false, if_false, hv, hcond, if_true]
    exact ⟨respondMessage_nackSent K now s timingStart _, respondMessage_m_rdm ..⟩
  · intro hr
    have hcond : ¬ (active s (RDMDATA.Data + 0) * 256 + active s (RDMDATA.Data + 1) ≤ 0 ∨
        active s (RDMDATA.Data + 0) * 256 + active s (RDMDATA.Data + 1) > DMX_BUFFER_SIZE) := by
      unfold DMX_BUFFER_SIZE; omega
    refine ⟨?_, ?_⟩
    · intro cfg hcfg
      unfold rdmSetStartAddress
      simp only [hLen, ne_eq, not_true_eq_false, if_false, hv, hcond, hcfg]
      refine ⟨?_, ?_, ?_⟩
      · apply ackSent_respond
        · simp
        · simp [bytes]
      · simp
      · simp
    · intro hnone
      unfold rdmSetStartAddress
      simp only [hLen, ne_eq, not_true_eq_false, if_false, hv, hcond, hnone]
      exact ⟨respondMessage_nackSent K now s timingStart _, by simp [hnone]⟩


/-- C3 (instance): a SET start address 512 (02 00) addressed to a driver with a
configuration. -/
theorem rdmSetStartAddress_range_witness :
    active (holding (some sampleConfig)
      (rdmMessage _devID sampleController 0 0 0x30 0x00F0 [0x02, 0x00])) RDMDATA.DataLength = 2 ∧
    (rdmSetStartAddress e120 0 (holding (some sampleConfig)
      (rdmMessage _devID sampleController 0 0 0x30 0x00F0 [0x02, 0x00])) 0 true).m_rdmChange =
        true :=
  ⟨by decide,
    (((rdmSetStartAddress_range e120 0 (holding (some sampleConfig)
      (rdmMessage _devID sampleController 0 0 0x30 0x00F0 [0x02, 0x00])) 0 true
      (by decide) (by decide) (by decide)).2 (by decide)).1 sampleConfig (by rfl)).2.2⟩

/-- C4. `rdmSetDeviceLabel` rejection is atomic: when DataLength exceeds
`sizeof(m_deviceLabel)`, the handler returns, the response is NACK "format error", and the
stored device label, the identify flag, the mute flag and the RDM-changed flag are as before
the request. -/
theorem rdmSetDeviceLabel_reject (K : Headers) (now : Nat) (s : TeensyDmx) (timingStart : Nat)
    (isForMe : Bool) (hLen : active s RDMDATA.DataLength > K.sizeof_m_deviceLabel) :
    ∃ s1, rdmSetDeviceLabel K now s timingStart isForMe = some s1 ∧
      nackSent K s.trace s1 K.E120_NR_FORMAT_ERROR ∧
      s1.m_deviceLabel = s.m_deviceLabel ∧
      s1.m_identifyMode = s.m_identifyMode ∧
      s1.m_rdmMute = s.m_rdmMute ∧
      s1.m_rdmChange = s.m_rdmChange := by
  refine ⟨respondMessage K now s timingStart false K.E120_NR_FORMAT_ERROR, ?_, ?_, ?_, ?_, ?_, ?_⟩
  · unfold rdmSetDeviceLabel
    rw [if_pos hLen]
  · exact respondMessage_nackSent K now s timingStart _
  · simp
  · simp
  · simp
  · simp

/-- C4 (instance): a SET device label with DataLength 33 against a label of 32 bytes. -/
theorem rdmSetDeviceLabel_reject_witness :
    active (holding none (rdmMessage _devID sampleController 0 0 0x30 0x0082
      (List.replicate 33 0x41))) RDMDATA.DataLength > e120.sizeof_m_deviceLabel ∧
    ∃ s1, rdmSetDeviceLabel e120 0 (holding none (rdmMessage _devID sampleController 0 0 0x30
        0x0082 (List.replicate 33 0x41))) 0 true = some s1 ∧
      nackSent e120 (holding none (rdmMessage _devID sampleController 0 0 0x30 0x0082
        (List.replicate 33 0x41))).trace s1 e120.E120_NR_FORMAT_ERROR ∧
      s1.m_deviceLabel = (holding none (rdmMessage _devID sampleController 0 0 0x30 0x0082
        (List.replicate 33 0x41))).m_deviceLabel ∧
      s1.m_identifyMode = (holding none (rdmMessage _devID sampleController 0 0 0x30 0x0082
        (List.replicate 33 0x41))).m_identifyMode ∧
      s1.m_rdmMute = (holding none (rdmMessage _devID sampleController 0 0 0x30 0x0082
        (List.replicate 33 0x41))).m_rdmMute ∧
      s1.m_rdmChange = (holding none (rdmMessage _devID sampleController 0 0 0x30 0x0082
        (List.replicate 33 0x41))).m_rdmChange :=
  ⟨by decide, rdmSetDeviceLabel_reject e120 0 _ 0 true (by decide)⟩

/-- C5 (counterexample). The payload 41 00 42 is accepted by `rdmSetDeviceLabel`, and the
following `rdmGetDeviceLabel` answers with DataLength 1, not 3.  A payload of 32 bytes, the
capacity of the label in this instance, has its terminating NUL stored at index 32, outside
of the label, and the handler has no defined result. -/
theorem deviceLabel_nul_truncates :
    ((rdmSetDeviceLabel e120 0 (holding none
        (rdmMessage _devID sampleController 0 0 0x30 0x0082 [0x41, 0x00, 0x42])) 0 true).bind
      fun s1 => (rdmGetDeviceLabel e120 0
        (setActive s1 (ofBytes (rdmMessage _devID sampleController 1 0 0x20 0x0082 []))) 0
          true).map
        fun s3 => active s3 RDMDATA.DataLength) = some 1 ∧
    rdmSetDeviceLabel e120 0 (holding none
      (rdmMessage _devID sampleController 0 0 0x30 0x0082 (List.replicate 32 0x41))) 0 true =
        none := by
  constructor
  · decide
  · exact rdmSetDeviceLabel_full e120 0 _ 0 true (by decide)

/-- C5 (amended). Device label round trip: for every payload of length n below
`sizeof(m_deviceLabel)` that contains no zero byte, `rdmSetDeviceLabel` accepts it with an
ACK, and every later `rdmGetDeviceLabel` (DataLength 0, sub-device 0) on the label so stored
answers ACK with DataLength n and Data equal to the payload, byte for byte. -/
theorem deviceLabel_roundtrip (K : Headers) (now : Nat) (s : TeensyDmx) (timingStart : Nat)
    (isForMe : Bool) (hByte : active s RDMDATA.DataLength < 256)
    (hLen : active s RDMDATA.DataLength < K.sizeof_m_deviceLabel)
    (hNoNul : ∀ i, i < active s RDMDATA.DataLength → active s (RDMDATA.Data + i) ≠ 0) :
    ∃ s1, rdmSetDeviceLabel K now s timingStart isForMe = some s1 ∧
      ackSent K s.trace s1 [] ∧
      ∀ (now2 : Nat) (s2 : TeensyDmx) (timingStart2 : Nat) (isForMe2 : Bool),
        s2.m_deviceLabel = s1.m_deviceLabel →
        active s2 RDMDATA.DataLength = 0 →
        load16 (active s2) RDMDATA.SubDev = 0 →
        ∃ s3, rdmGetDeviceLabel K now2 s2 timingStart2 isForMe2 = some s3 ∧
          ackSent K s2.trace s3 (bytes (active s) RDMDATA.Data (active s RDMDATA.DataLength)) := by
  obtain ⟨s1, hs1, hack, hlab, _⟩ := rdmSetDeviceLabel_accept K now s timingStart isForMe hLen
  refine ⟨s1, hs1, hack, ?_⟩
  · intro now2 s2 t2 f2 hLabel hLen2 hSub
    rw [hlab] at hLabel
    have hstr : strlen s2.m_deviceLabel K.sizeof_m_deviceLabel =
        some (active s RDMDATA.DataLength) := by
      apply strlen_eq _ _ _ hLen
      · rw [hLabel]; simp
      · intro i hi
        rw [hLabel]
        have hne : i ≠ active s RDMDATA.DataLength := by omega
        simpa [memcpy, Function.update_apply, hne, hi] using hNoNul i hi
    unfold rdmGetDeviceLabel
    have h1 : ¬ active s2 RDMDATA.DataLength > 0 := by omega
    simp only [h1, if_false, hSub, ne_eq, not_true_eq_false, hstr]
    refine ⟨_, rfl, ?_⟩
    apply ackSent_respond
    · simp
    · have hmod : active s RDMDATA.DataLength % 256 = active s RDMDATA.DataLength :=
        Nat.mod_eq_of_lt hByte
      simp only [active_setActive, active_storeActive, setActive_m_deviceLabel,
        storeActive_m_deviceLabel, Function.update_same, hmod]
      rw [memcpy_apply_lt _ _ _ _ _ (by decide), Function.update_same]
      apply bytes_congr
      intro i hi
      rw [memcpy_apply_add _ _ _ _ _ hi, hLabel]
      have hne : i ≠ active s RDMDATA.DataLength := by omega
      simp [memcpy, Function.update_apply, hne, hi]


/-- C5 (instance): the payload 41 42 against a label of 32 bytes. -/
theorem deviceLabel_roundtrip_witness :
    active (holding none (rdmMessage _devID sampleController 0 0 0x30 0x0082 [0x41, 0x42]))
      RDMDATA.DataLength < e120.sizeof_m_deviceLabel ∧
    ∃ s1, rdmSetDeviceLabel e120 0 (holding none
        (rdmMessage _devID sampleController 0 0 0x30 0x0082 [0x41, 0x42])) 0 true = some s1 ∧
      ackSent e120 (holding none
        (rdmMessage _devID sampleController 0 0 0x30 0x0082 [0x41, 0x42])).trace s1 [] :=
  ⟨by decide,
    (deviceLabel_roundtrip e120 0 (holding none
      (rdmMessage _devID sampleController 0 0 0x30 0x0082 [0x41, 0x42])) 0 true
      (by decide) (by decide) (by decide)).imp fun _ h => ⟨h.1, h.2.1⟩⟩

/-- C6. Discovery unique branch: for a request with Length 36 and DataLength 12 that carries
the bounds L and U (6 bytes each, read as 48-bit big-endian numbers), received while not
muted: if L <= own ID <= U, `rdmUniqueBranch` writes the break byte followed by exactly 24
bytes, the first seven 0xFE and the eighth 0xAA; if the own ID is outside of the range it
sends nothing and returns the driver unchanged.  When muted, or when Length is not 36 or
DataLength is not 12, it sends nothing and returns the driver unchanged. -/
theorem rdmUniqueBranch_reply (s : TeensyDmx) (timingStart : Nat) (isForMe : Bool)
    (hBytes : ∀ i, i < 12 → active s (RDMDATA.Data + i) < 256) :
    (s.m_rdmMute = false ∧ active s RDMDATA.Length = 36 ∧ active s RDMDATA.DataLength = 12 →
      (bigEndian (bytes (active s) RDMDATA.Data 6) ≤ bigEndian _devID ∧
          bigEndian _devID ≤ bigEndian (bytes (active s) (RDMDATA.Data + 6) 6) →
        ∃ reply, uartWritten (rdmUniqueBranch s timingStart isForMe).trace =
            uartWritten s.trace ++ 0 :: reply ∧
          reply.length = 24 ∧
          reply.take 8 = [0xFE, 0xFE, 0xFE, 0xFE, 0xFE, 0xFE, 0xFE, 0xAA]) ∧
      (¬ (bigEndian (bytes (active s) RDMDATA.Data 6) ≤ bigEndian _devID ∧
          bigEndian _devID ≤ bigEndian (bytes (active s) (RDMDATA.Data + 6) 6)) →
        rdmUniqueBranch s timingStart isForMe = s)) ∧
    (s.m_rdmMute = true ∨ active s RDMDATA.Length ≠ 36 ∨ active s RDMDATA.DataLength ≠ 12 →
      rdmUniqueBranch s timingStart isForMe = s) := by
  have hOwn : ∀ x ∈ _devID, x < 256 := by decide
  have hL : ∀ x ∈ bytes (active s) RDMDATA.Data 6, x < 256 :=
    mem_bytes_lt _ _ _ _ (fun i hi => hBytes i (by omega))
  have hU : ∀ x ∈ bytes (active s) (RDMDATA.Data + 6) 6, x < 256 :=
    mem_bytes_lt _ _ _ _ (fun i hi => by
      have h := hBytes (6 + i) (by omega)
      rwa [← Nat.add_assoc] at h)
  have eL := memcmp_le_iff (bytes (active s) RDMDATA.Data 6) _devID (by simp [_devID]) hL hOwn
  have eU := memcmp_le_iff _devID (bytes (active s) (RDMDATA.Data + 6) 6) (by simp [_devID])
    hOwn hU
  refine ⟨fun hReq => ⟨fun hIn => ?_, fun hOut => ?_⟩, fun hBad => ?_⟩
  · refine ⟨bytes (active (fillDiscovery s)) 0 DISCOVERYMSG.sizeof, ?_, ?_, ?_⟩
    · rw [rdmUniqueBranch_inRange s timingStart isForMe hReq.1 hReq.2.1 hReq.2.2
        (eL.mpr hIn.1) (eU.mpr hIn.2)]
      simp [uartWritten]
      rfl
    · simp [DISCOVERYMSG.sizeof]
    · rw [bytes_fillDiscovery]
      rfl
  · apply rdmUniqueBranch_outOfRange
    rw [eL, eU]
    exact hOut
  · unfold rdmUniqueBranch
    rcases hBad with h | h | h
    · simp [h]
    · simp [h]
    · simp [h]

/-- C6 (instance): a unique-branch request over the full range
00 00 00 00 00 00 .. ff ff ff ff ff ff. -/
theorem rdmUniqueBranch_reply_witness :
    (∀ i, i < 12 → active (holding none (rdmMessage _devIDAll sampleController 0 0 0x10 0x0001
      [0, 0, 0, 0, 0, 0, 0xFF, 0xFF, 0xFF, 0xFF, 0xFF, 0xFF])) (RDMDATA.Data + i) < 256) ∧
    ∃ reply, uartWritten (rdmUniqueBranch (holding none (rdmMessage _devIDAll sampleController
          0 0 0x10 0x0001 [0, 0, 0, 0, 0, 0, 0xFF, 0xFF, 0xFF, 0xFF, 0xFF, 0xFF])) 0 false).trace =
        uartWritten (holding none (rdmMessage _devIDAll sampleController 0 0 0x10 0x0001
          [0, 0, 0, 0, 0, 0, 0xFF, 0xFF, 0xFF, 0xFF, 0xFF, 0xFF])).trace ++ 0 :: reply ∧
      reply.length = 24 ∧
      reply.take 8 = [0xFE, 0xFE, 0xFE, 0xFE, 0xFE, 0xFE, 0xFE, 0xAA] :=
  ⟨by decide,
    ((rdmUniqueBranch_reply (holding none (rdmMessage _devIDAll sampleController 0 0 0x10 0x0001
      [0, 0, 0, 0, 0, 0, 0xFF, 0xFF, 0xFF, 0xFF, 0xFF, 0xFF])) 0 false (by decide)).1
      (by decide)).1 (by decide)⟩

/-- C7. Response checksum: in every response built by `respondMessage`, the UART receives the
break byte, the start code 0xCC, the message body (the bytes of the active buffer at offsets
0 .. Length-1, Length being the response's own length field) and then the high byte and the
low byte of (0xCC + sum of the body bytes) mod 65536. -/
theorem respondMessage_checksum (K : Headers) (now : Nat) (s : TeensyDmx) (t : Nat) (h : Bool)
    (r : Nat) :
    uartWritten (respondMessage K now s t h r).trace =
      uartWritten s.trace ++ [0, 0xCC] ++
        bytes (active (respondMessage K now s t h r)) 0
          (active (respondMessage K now s t h r) RDMDATA.Length) ++
        [(0xCC + (bytes (active (respondMessage K now s t h r)) 0
            (active (respondMessage K now s t h r) RDMDATA.Length)).sum) % 65536 / 256,
         (0xCC + (bytes (active (respondMessage K now s t h r)) 0
            (active (respondMessage K now s t h r) RDMDATA.Length)).sum) % 65536 % 256] := by
  have h := respondMessage_responseSent K now s t h r
  unfold responseSent wireFrame additiveChecksum at h
  simpa [E120_SC_RDM] using h

/-- C9 (counterexample). For an ACK of a message with DataLength 232 and command class 0xFF,
the response has Length 0, not 232 + 24, and command class 0, not 0xFF + 1. -/
theorem respondMessage_byte_fields_wrap :
    active (respondMessage e120 0 (holding none (List.replicate 19 0 ++ [255, 0, 0, 232])) 0
        true 0) RDMDATA.Length ≠
      active (respondMessage e120 0 (holding none (List.replicate 19 0 ++ [255, 0, 0, 232])) 0
        true 0) RDMDATA.DataLength + 24 ∧
    active (respondMessage e120 0 (holding none (List.replicate 19 0 ++ [255, 0, 0, 232])) 0
        true 0) RDMDATA.CmdClass ≠
      active (holding none (List.replicate 19 0 ++ [255, 0, 0, 232])) RDMDATA.CmdClass + 1 := by
  rw [active_respondMessage]
  simp [active_respondFill, holding, ofBytes, RDMDATA.ResponseType, RDMDATA.DataLength,
    RDMDATA.Data, RDMDATA.CmdClass, RDMDATA.SourceID, RDMDATA.DestID, RDMDATA.Length]

/-- C9 (amended). Response header: the response `respondMessage` leaves in the buffer and
transmits has Length = (DataLength + 24) mod 256, which is DataLength + 24 when DataLength is
at most 231; destination ID equal to the request's source ID; source ID equal to the device's
own ID; command class = (request's command class + 1) mod 256, which is the class plus one
below 0xFF; transaction number, sub-device and parameter ID unchanged. -/
theorem respondMessage_header (K : Headers) (now : Nat) (s : TeensyDmx) (t : Nat) (h : Bool)
    (r : Nat) :
    responseSent s.trace (respondMessage K now s t h r) ∧
    active (respondMessage K now s t h r) RDMDATA.Length =
      (active (respondMessage K now s t h r) RDMDATA.DataLength + 24) % 256 ∧
    (if active (respondMessage K now s t h r) RDMDATA.DataLength ≤ 231 then
      active (respondMessage K now s t h r) RDMDATA.Length =
        active (respondMessage K now s t h r) RDMDATA.DataLength + 24
     else active (respondMessage K now s t h r) RDMDATA.Length <
        active (respondMessage K now s t h r) RDMDATA.DataLength + 24) ∧
    bytes (active (respondMessage K now s t h r)) RDMDATA.DestID 6 =
      bytes (active s) RDMDATA.SourceID 6 ∧
    bytes (active (respondMessage K now s t h r)) RDMDATA.SourceID 6 = _devID ∧
    active (respondMessage K now s t h r) RDMDATA.CmdClass =
      (active s RDMDATA.CmdClass + 1) % 256 ∧
    (if active s RDMDATA.CmdClass < 255 then
      active (respondMessage K now s t h r) RDMDATA.CmdClass = active s RDMDATA.CmdClass + 1
     else active (respondMessage K now s t h r) RDMDATA.CmdClass < active s RDMDATA.CmdClass + 1) ∧
    active (respondMessage K now s t h r) RDMDATA._TransNo = active s RDMDATA._TransNo ∧
    bytes (active (respondMessage K now s t h r)) RDMDATA.SubDev 2 =
      bytes (active s) RDMDATA.SubDev 2 ∧
    bytes (active (respondMessage K now s t h r)) RDMDATA.Parameter 2 =
      bytes (active s) RDMDATA.Parameter 2 := by
  have hL : active (respondMessage K now s t h r) RDMDATA.Length =
      (active (respondMessage K now s t h r) RDMDATA.DataLength + 24) % 256 := by
    rw [active_respondMessage, active_respondFill, active_respondFill]
    cases h <;>
      simp [RDMDATA.ResponseType, RDMDATA.DataLength, RDMDATA.Data, RDMDATA.CmdClass,
        RDMDATA.SourceID, RDMDATA.DestID, RDMDATA.Length]
  have hC : active (respondMessage K now s t h r) RDMDATA.CmdClass =
      (active s RDMDATA.CmdClass + 1) % 256 := by
    rw [active_respondMessage, active_respondFill]
    simp
  refine ⟨respondMessage_responseSent K now s t h r, hL, ?_, ?_, ?_, hC, ?_, ?_, ?_, ?_⟩
  · rw [hL]
    split_ifs <;> omega
  · apply bytes_congr
    intro i hi
    rw [active_respondMessage, active_respondFill]
    simp only [RDMDATA.ResponseType, RDMDATA.DataLength, RDMDATA.Data, RDMDATA.CmdClass,
      RDMDATA.SourceID, RDMDATA.DestID, RDMDATA.Length]
    rw [if_neg (by omega), if_neg (by omega), if_pos (by omega)]
    congr 1
    omega
  · rw [active_respondMessage]
    have h6 : ∀ i, i < 6 → active (respondFill K s h r) (RDMDATA.SourceID + i) =
        _devID.getD i 0 := by
      intro i hi
      rw [active_respondFill]
      simp only [RDMDATA.ResponseType, RDMDATA.DataLength, RDMDATA.Data, RDMDATA.CmdClass,
        RDMDATA.SourceID, RDMDATA.DestID, RDMDATA.Length]
      rw [if_neg (by omega), if_pos (by omega)]
      congr 1
      omega
    rw [bytes_congr _ (ofBytes _devID) _ 0 6 (fun i hi => by rw [h6 i hi]; simp [ofBytes])]
    decide
  · rw [hC]
    split_ifs <;> omega
  · rw [active_respondMessage]
    exact active_respondFill_kept K s h r _ (by simp)
  · apply bytes_congr
    intro i hi
    rw [active_respondMessage]
    apply active_respondFill_kept
    simp only [RDMDATA.SubStartCode, RDMDATA._TransNo, RDMDATA._unknown, RDMDATA.SubDev,
      RDMDATA.Parameter]
    omega
  · apply bytes_congr
    intro i hi
    rw [active_respondMessage]
    apply active_respondFill_kept
    simp only [RDMDATA.SubStartCode, RDMDATA._TransNo, RDMDATA._unknown, RDMDATA.SubDev,
      RDMDATA.Parameter]
    omega

/-- C10. NACK encoding: for every 16-bit reason code r, `respondMessage` called with
isHandled = false leaves (and transmits) a response with response type NACK_REASON,
DataLength 2, Data[0] = r >> 8, Data[1] = r & 0xFF and Length 26, whatever the request held;
called with isHandled = true it sets response type ACK and leaves DataLength and every byte
of Data as they were on entry. -/
theorem respondMessage_nack_encoding (K : Headers) (now : Nat) (s : TeensyDmx) (t : Nat)
    (r : Nat) (hr : r < 65536) :
    (responseSent s.trace (respondMessage K now s t false r) ∧
      active (respondMessage K now s t false r) RDMDATA.ResponseType =
        K.E120_RESPONSE_TYPE_NACK_REASON % 256 ∧
      active (respondMessage K now s t false r) RDMDATA.DataLength = 2 ∧
      active (respondMessage K now s t false r) (RDMDATA.Data + 0) = r >>> 8 ∧
      active (respondMessage K now s t false r) (RDMDATA.Data + 1) = r &&& 0xFF ∧
      active (respondMessage K now s t false r) RDMDATA.Length = 26) ∧
    (responseSent s.trace (respondMessage K now s t true r) ∧
      active (respondMessage K now s t true r) RDMDATA.ResponseType =
        K.E120_RESPONSE_TYPE_ACK % 256 ∧
      active (respondMessage K now s t true r) RDMDATA.DataLength = active s RDMDATA.DataLength ∧
      ∀ i, active (respondMessage K now s t true r) (RDMDATA.Data + i) =
        active s (RDMDATA.Data + i)) := by
  have h1 : r >>> 8 = r % 65536 / 256 := by
    rw [Nat.shiftRight_eq_div_pow, Nat.mod_eq_of_lt hr]
  have h2 : r &&& 0xFF = r % 256 := Nat.and_pow_two_sub_one_eq_mod r 8
  obtain ⟨n1, n2, n3, n4, n5⟩ := respondMessage_nackSent K now s t r
  obtain ⟨a1, a2, a3, _⟩ := respondMessage_ackSent K now s t r
  refine ⟨⟨n1, n2, n3, ?_, ?_, ?_⟩, a1, a2, ?_, ?_⟩
  · rw [h1]; exact n4
  · rw [h2]; exact n5
  · rw [active_respondMessage, active_respondFill]
    simp [RDMDATA.ResponseType, RDMDATA.DataLength, RDMDATA.Data, RDMDATA.CmdClass,
      RDMDATA.SourceID, RDMDATA.DestID, RDMDATA.Length]
  · simpa [bytes] using a3
  · intro i
    rw [active_respondMessage]
    apply active_respondFill_ack_data
    simp only [RDMDATA.DataLength, RDMDATA.Data]
    omega

/-- C10 (instance): reason code 0x0006 on the zeroed buffer of a fresh driver. -/
theorem respondMessage_nack_encoding_witness :
    (6 : Nat) < 65536 ∧
    active (respondMessage e120 0 (init none) 0 false 6) (RDMDATA.Data + 1) = 6 &&& 0xFF ∧
    active (respondMessage e120 0 (init none) 0 true 6) RDMDATA.DataLength =
      active (init none) RDMDATA.DataLength :=
  ⟨by decide,
    (respondMessage_nack_encoding e120 0 (init none) 0 6 (by decide)).1.2.2.2.2.1,
    (respondMessage_nack_encoding e120 0 (init none) 0 6 (by decide)).2.2.2.1⟩

/-- C11. Unknown parameter: for every RDM message that passes the addressing check and whose
(command class, big-endian parameter ID) pair matches none of the 15 entries of the handler
table, the loop of `processRDM` invokes no handler (it ends with the driver untouched and
`handled` false), and `processRDM` transmits exactly one response, a NACK whose reason code is
`E120_NR_UNKNOWN_PID`; the device state is unchanged. -/
theorem processRDM_unknown_parameter (K : Headers) (timingStart now : Nat) (s : TeensyDmx)
    (hAddr : isAddressed s)
    (hHi : active s (RDMDATA.Parameter + 0) < 256) (hLo : active s (RDMDATA.Parameter + 1) < 256)
    (hNone : ∀ h ∈ m_rdmHandlers K, ¬ h.isFor (active s RDMDATA.CmdClass)
      (bigEndian (bytes (active s) RDMDATA.Parameter 2))) :
    (m_rdmHandlers K).length = 15 ∧
    dispatch K now timingStart (decide (memcmp (bytes (active s) RDMDATA.DestID 6) _devID = 0))
      (requestParameter (active s)) s (m_rdmHandlers K) = some (s, false) ∧
    ∃ s1, processRDM K timingStart now s = some s1 ∧
      nackSent K s.trace s1 K.E120_NR_UNKNOWN_PID ∧
      deviceState s1 = deviceState s := by
  have hp := requestParameter_eq (active s) hHi hLo
  have hd := dispatch_none K now timingStart
    (decide (memcmp (bytes (active s) RDMDATA.DestID 6) _devID = 0))
    (requestParameter (active s)) s (m_rdmHandlers K) (by rw [hp]; exact hNone)
  refine ⟨rfl, hd, respondMessage K now s timingStart false K.E120_NR_UNKNOWN_PID, ?_,
    respondMessage_nackSent K now s timingStart _, deviceState_respondMessage ..⟩
  rw [processRDM_addressed K timingStart now s hAddr, hd]
  rfl

/-- C11 (instance): a GET of the parameter 0x0400, which the table does not hold, addressed
to the device. -/
theorem processRDM_unknown_parameter_witness :
    isAddressed (holding none (rdmMessage _devID sampleController 0 0 0x20 0x0400 [])) ∧
    ∃ s1, processRDM e120 0 0
        (holding none (rdmMessage _devID sampleController 0 0 0x20 0x0400 [])) = some s1 ∧
      nackSent e120 (holding none (rdmMessage _devID sampleController 0 0 0x20 0x0400 [])).trace
        s1 e120.E120_NR_UNKNOWN_PID ∧
      deviceState s1 =
        deviceState (holding none (rdmMessage _devID sampleController 0 0 0x20 0x0400 [])) :=
  ⟨by decide,
    (processRDM_unknown_parameter e120 0 0
      (holding none (rdmMessage _devID sampleController 0 0 0x20 0x0400 []))
      (by decide) (by decide) (by decide) (by decide)).2.2⟩

/-- C12 (counterexample). A discovery mute request addressed to the device's own ID that
carries one byte of data is left unanswered: `processRDM` returns with the trace unchanged. -/
theorem processRDM_mute_unanswered :
    bytes (active (holding none (rdmMessage _devID sampleController 0 0 0x10 0x0002 [0x00])))
      RDMDATA.DestID 6 = _devID ∧
    (processRDM e120 0 0
      (holding none (rdmMessage _devID sampleController 0 0 0x10 0x0002 [0x00]))).map
        (fun r => r.trace) =
      some (holding none (rdmMessage _devID sampleController 0 0 0x10 0x0002 [0x00])).trace := by
  decide

/-- C12 (amended). No silent drop: for every RDM message whose destination ID is the device's
own ID, that is not a discovery unique-branch request and whose handling stays in bounds,
`processRDM` returns and has transmitted exactly one response, an ACK or a NACK with a 2-byte
reason code, unless the message is a discovery mute or un-mute request with DataLength other
than 0: that one is left unanswered, `processRDM` returns the driver unchanged.  In
particular (the keys of the handler table being pairwise distinct) a GET or SET message with
a wrong payload length for its handler is answered with NACK "format error". -/
theorem processRDM_answers (K : Headers) (timingStart now : Nat) (s : TeensyDmx)
    (hOwn : bytes (active s) RDMDATA.DestID 6 = _devID)
    (hNotBranch : ¬ isUniqueBranchRequest K s) (hB : dispatchInBounds K s) :
    (if isMuteRequest K s ∧ active s RDMDATA.DataLength ≠ 0 then
      processRDM K timingStart now s = some s
    else
      ∃ r, processRDM K timingStart now s = some r ∧ responseSent s.trace r ∧
        (active r RDMDATA.ResponseType = K.E120_RESPONSE_TYPE_ACK % 256 ∨
          (active r RDMDATA.ResponseType = K.E120_RESPONSE_TYPE_NACK_REASON % 256 ∧
            active r RDMDATA.DataLength = 2))) ∧
    ((tableKeys K).Nodup → wrongPayloadLength K s →
      ∃ r, processRDM K timingStart now s = some r ∧
        nackSent K s.trace r K.E120_NR_FORMAT_ERROR) := by
  have hAddr : isAddressed s := Or.inl hOwn
  have hf : decide (memcmp (bytes (active s) RDMDATA.DestID 6) _devID = 0) = true :=
    decide_eq_true ((memcmp_eq_zero_iff _ _ (by simp [_devID])).mpr hOwn)
  refine ⟨?_, fun hKeys hWrong => ⟨_, processRDM_wrongLength K timingStart now s hAddr hKeys
    hWrong, respondMessage_nackSent K now s timingStart _⟩⟩
  by_cases hm : isMuteRequest K s
  · by_cases hl : active s RDMDATA.DataLength = 0
    · rw [if_neg (fun h => h.2 hl)]
      rcases dispatch_mute K now timingStart
        (decide (memcmp (bytes (active s) RDMDATA.DestID 6) _devID = 0)) s hm hNotBranch
        with hd | hd
      · exact ⟨_, processRDM_handled K timingStart now s _ hAddr hd,
          answered_responseSent K now timingStart s _
            (rdmUnmute_answered K now s timingStart _ hf hl)⟩
      · exact ⟨_, processRDM_handled K timingStart now s _ hAddr hd,
          answered_responseSent K now timingStart s _
            (rdmMute_answered K now s timingStart _ hf hl)⟩
    · rw [if_pos ⟨hm, hl⟩]
      rcases dispatch_mute K now timingStart
        (decide (memcmp (bytes (active s) RDMDATA.DestID 6) _devID = 0)) s hm hNotBranch
        with hd | hd
      · rw [rdmUnmute_silent K now s timingStart _ hl] at hd
        exact processRDM_handled K timingStart now s _ hAddr hd
      · rw [rdmMute_silent K now s timingStart _ hl] at hd
        exact processRDM_handled K timingStart now s _ hAddr hd
  · rw [if_neg (fun h => hm h.1)]
    have hNotDisc : ¬ isDiscoveryRequest K s := by
      rintro ⟨hc, hp | hp | hp⟩
      · exact hNotBranch ⟨hc, hp⟩
      · exact hm ⟨hc, Or.inl hp⟩
      · exact hm ⟨hc, Or.inr hp⟩
    obtain ⟨r, hr, hP⟩ := processRDM_outcome K timingStart now s hAddr hB
    rcases hP with ha | ⟨hd, _⟩
    · exact ⟨r, hr, answered_responseSent K now timingStart s r ha⟩
    · exact absurd hd hNotDisc

/-- C12 (instance): a GET identify request that carries one byte of data is answered with
NACK "format error", and a discovery mute request without data is answered, both addressed
to the device's own ID. -/
theorem processRDM_answers_witness :
    (bytes (active (holding none (rdmMessage _devID sampleController 0 0 0x20 0x1000 [0x01])))
        RDMDATA.DestID 6 = _devID ∧
      ¬ isUniqueBranchRequest e120
        (holding none (rdmMessage _devID sampleController 0 0 0x20 0x1000 [0x01])) ∧
      dispatchInBounds e120
        (holding none (rdmMessage _devID sampleController 0 0 0x20 0x1000 [0x01])) ∧
      (tableKeys e120).Nodup ∧
      wrongPayloadLength e120
        (holding none (rdmMessage _devID sampleController 0 0 0x20 0x1000 [0x01])) ∧
      ∃ r, processRDM e120 0 0
          (holding none (rdmMessage _devID sampleController 0 0 0x20 0x1000 [0x01])) = some r ∧
        nackSent e120
          (holding none (rdmMessage _devID sampleController 0 0 0x20 0x1000 [0x01])).trace r
          e120.E120_NR_FORMAT_ERROR) ∧
    (isMuteRequest e120 (holding none (rdmMessage _devID sampleController 0 0 0x10 0x0002 [])) ∧
      active (holding none (rdmMessage _devID sampleController 0 0 0x10 0x0002 []))
        RDMDATA.DataLength = 0 ∧
      ∃ r, processRDM e120 0 0
          (holding none (rdmMessage _devID sampleController 0 0 0x10 0x0002 [])) = some r ∧
        responseSent (holding none (rdmMessage _devID sampleController 0 0 0x10 0x0002 [])).trace
          r) := by
  refine ⟨⟨by decide, by decide, by decide, by decide, by decide,
    (processRDM_answers e120 0 0
      (holding none (rdmMessage _devID sampleController 0 0 0x20 0x1000 [0x01]))
      (by decide) (by decide) (by decide)).2 (by decide) (by decide)⟩,
    by decide, by decide, ?_⟩
  have h := (processRDM_answers e120 0 0
    (holding none (rdmMessage _devID sampleController 0 0 0x10 0x0002 []))
    (by decide) (by decide) (by decide)).1
  rw [if_neg (by decide)] at h
  obtain ⟨r, h1, h2, _⟩ := h
  exact ⟨r, h1, h2⟩

/-- C13 (counterexample). With a 32-bit frame counter at its largest value, the break that ends
a DMX frame leaves the counter at 0: it is not increased by one. -/
theorem completeFrame_counter_wraps :
    ({ listening none with m_state := State.DMX_RECV, m_frameCount := 4294967295 } :
      TeensyDmx).m_frameCount + 1 = 4294967296 ∧
    (completeFrame e120 [] 0 0
      { listening none with m_state := State.DMX_RECV, m_frameCount := 4294967295 }).map
        (fun r => r.m_frameCount) = some 0 := by
  decide

/-- C13 (amended). Break finalisation: for every prior state whose two buffer roles name
different buffers (no bytes pending in the UART, and the handling of a received RDM message
staying in bounds), `completeFrame` returns with state = BREAK and index = 0, also when an RDM
message was dispatched and answered; if the prior state is DMX_RECV or DMX_COMPLETE it
exchanges the active/inactive buffer roles, increases the frame counter by one modulo the
range of the counter (by exactly one below its largest value) and sets the new-frame flag;
otherwise the buffer roles, the frame counter and the new-frame flag are unchanged. -/
theorem completeFrame_finalises (K : Headers) (timingStart now : Nat) (s : TeensyDmx)
    (hPtr : s.m_activeBuffer ≠ s.m_inactiveBuffer)
    (hB : s.m_state = State.RDM_RECV → dispatchInBounds K s) :
    ∃ r, completeFrame K [] timingStart now s = some r ∧
      r.m_state = State.BREAK ∧ r.m_dmxBufferIndex = 0 ∧
      (s.m_state = State.RDM_RECV → isAddressed s → ¬ isDiscoveryRequest K s →
        responseSent s.trace r) ∧
      (if s.m_state = State.DMX_RECV ∨ s.m_state = State.DMX_COMPLETE then
        r.m_activeBuffer = s.m_inactiveBuffer ∧ r.m_inactiveBuffer = s.m_activeBuffer ∧
        r.m_frameCount = (s.m_frameCount + 1) % K.frameCountModulus ∧
        (s.m_frameCount + 1 < K.frameCountModulus → r.m_frameCount = s.m_frameCount + 1) ∧
        r.m_newFrame = true
      else sameRoles s r) := by
  unfold completeFrame
  simp only [readBytes, Option.some_bind]
  by_cases hD : s.m_state = State.DMX_RECV ∨ s.m_state = State.DMX_COMPLETE
  · have hR : s.m_state ≠ State.RDM_RECV := by
      rcases hD with h | h <;> rw [h] <;> decide
    simp only [if_pos hD]
    cases ha : s.m_activeBuffer <;> cases hi : s.m_inactiveBuffer <;>
      simp [ha, hi] at hPtr ⊢ <;>
      exact ⟨fun h => absurd h hR, fun h => Nat.mod_eq_of_lt h⟩
  · simp only [if_neg hD]
    by_cases hR : s.m_state = State.RDM_RECV
    · rw [if_pos hR]
      have hB2 : dispatchInBounds K { s with m_state := State.IDLE } := hB hR
      by_cases hA : isAddressed s
      · have hA2 : isAddressed { s with m_state := State.IDLE } := hA
        obtain ⟨r, hr, hP⟩ := processRDM_outcome K timingStart now _ hA2 hB2
        rw [hr]
        refine ⟨_, rfl, rfl, rfl, ?_, ?_⟩
        · intro _ _ hN
          rcases hP with h | ⟨h, _⟩
          · exact (answered_responseSent K now timingStart _ r h).1
          · exact absurd h hN
        · rcases hP with h | ⟨_, h⟩
          · exact answered_sameRoles K now timingStart _ r h
          · exact h
      · have hA2 : ¬ isAddressed { s with m_state := State.IDLE } := hA
        rw [processRDM_ignored K timingStart now _ hA2]
        exact ⟨_, rfl, rfl, rfl, fun _ h => absurd h hA, rfl, rfl, rfl, rfl⟩
    · rw [if_neg hR]
      exact ⟨_, rfl, rfl, rfl, fun h => absurd h hR, rfl, rfl, rfl, rfl⟩

/-- C13 (instance): the break that ends a DMX frame, from the state DMX_RECV. -/
theorem completeFrame_finalises_witness :
    ({ listening none with m_state := State.DMX_RECV } : TeensyDmx).m_activeBuffer ≠
      ({ listening none with m_state := State.DMX_RECV } : TeensyDmx).m_inactiveBuffer ∧
    ∃ r, completeFrame e120 [] 0 0 { listening none with m_state := State.DMX_RECV } = some r ∧
      r.m_state = State.BREAK ∧ r.m_dmxBufferIndex = 0 ∧ r.m_frameCount = 1 ∧
      r.m_newFrame = true := by
  refine ⟨by decide, ?_⟩
  obtain ⟨r, h1, h2, h3, _, h5⟩ :=
    completeFrame_finalises e120 0 0 { listening none with m_state := State.DMX_RECV }
      (by decide) (fun h => absurd h (by decide))
  rw [if_pos (Or.inl rfl)] at h5
  exact ⟨r, h1, h2, h3, h5.2.2.1, h5.2.2.2.2⟩

/-- C14. Start-code classification: in state BREAK, `readBytes` on one received byte b moves
to DMX_RECV if b = 0x00, to RDM_RECV if b = 0xCC and to IDLE for every other b; the byte is
not stored: both buffers, the buffer roles and the buffer index are unchanged. -/
theorem readBytes_classifies_startCode (s : TeensyDmx) (b : Nat)
    (hst : s.m_state = State.BREAK) :
    ∃ s1, readBytes s [b] = some s1 ∧
      s1.m_state = (if b = 0x00 then State.DMX_RECV
        else if b = 0xCC then State.RDM_RECV else State.IDLE) ∧
      s1.m_dmxBuffer1 = s.m_dmxBuffer1 ∧ s1.m_dmxBuffer2 = s.m_dmxBuffer2 ∧
      s1.m_activeBuffer = s.m_activeBuffer ∧ s1.m_inactiveBuffer = s.m_inactiveBuffer ∧
      s1.m_dmxBufferIndex = s.m_dmxBufferIndex := by
  by_cases h0 : b = 0
  · exact ⟨{ s with m_state := State.DMX_RECV }, by simp [readBytes, readByte, hst, h0],
      by simp [h0], rfl, rfl, rfl, rfl, rfl⟩
  · by_cases h1 : b = 0xCC
    · exact ⟨{ s with m_state := State.RDM_RECV },
        by simp [readBytes, readByte, hst, h1, E120_SC_RDM], by simp [h1], rfl, rfl, rfl, rfl, rfl⟩
    · exact ⟨{ s with m_state := State.IDLE },
        by simp [readBytes, readByte, hst, h0, h1, E120_SC_RDM], by simp [h0, h1],
        rfl, rfl, rfl, rfl, rfl⟩

/-- C14 (instance): the byte 0xCC received by a driver waiting for a start code. -/
theorem readBytes_classifies_startCode_witness :
    (listening none).m_state = State.BREAK ∧
    ∃ s1, readBytes (listening none) [0xCC] = some s1 ∧
      s1.m_state = (if (0xCC : Nat) = 0x00 then State.DMX_RECV
        else if (0xCC : Nat) = 0xCC then State.RDM_RECV else State.IDLE) ∧
      s1.m_dmxBuffer1 = (listening none).m_dmxBuffer1 ∧
      s1.m_dmxBuffer2 = (listening none).m_dmxBuffer2 ∧
      s1.m_activeBuffer = (listening none).m_activeBuffer ∧
      s1.m_inactiveBuffer = (listening none).m_inactiveBuffer ∧
      s1.m_dmxBufferIndex = (listening none).m_dmxBufferIndex :=
  ⟨rfl, readBytes_classifies_startCode (listening none) 0xCC rfl⟩

/-- C15 (the code at the failing input). `setChannels(1, values, 1)` zeroes index 0, copies
values[0] to index 1, and then zero-fills 512 - 1 = 511 bytes from index 1 + 1 = 2, that is
up to index 512, one past the end of the 512-byte active buffer: the call has no defined
result. -/
theorem setChannels_suffix_overruns :
    (∃ s1 s2, memsetActive (startTransmit (init none)) 0 1 = some s1 ∧
      memcpyActive s1 1 (fun _ => 7) 1 = some s2 ∧
      active s2 0 = 0 ∧ active s2 1 = 7 ∧
      memsetActive s2 (1 + 1) (512 - 1) = none) ∧
    setChannels (startTransmit (init none)) 1 (fun _ => 7) 1 = none := by
  refine ⟨⟨_, _, rfl, rfl, ?_, ?_, rfl⟩, setChannels_overrun _ _ _ _ (by decide) (by decide)⟩
  · simp [memcpy]
  · simp [memcpy]

/-- C16. One-shot flags: `newFrame()` returns the new-frame flag as it was when called and
leaves the driver with the flag clear and nothing else changed, so a second call right after
returns false; the same holds for `rdmChanged()` and the RDM-changed flag. -/
theorem oneShot_flags (s : TeensyDmx) :
    ((newFrame s).1 = s.m_newFrame ∧
      (newFrame s).2 = { s with m_newFrame := false } ∧
      (newFrame (newFrame s).2).1 = false) ∧
    ((rdmChanged s).1 = s.m_rdmChange ∧
      (rdmChanged s).2 = { s with m_rdmChange := false } ∧
      (rdmChanged (rdmChanged s).2).1 = false) := by
  refine ⟨?_, ?_⟩
  · unfold newFrame
    cases h : s.m_newFrame
    · refine ⟨by simp, ?_, by simp [h]⟩
      cases s
      simp at h
      simp [h]
    · simp
  · unfold rdmChanged
    cases h : s.m_rdmChange
    · refine ⟨by simp, ?_, by simp [h]⟩
      cases s
      simp at h
      simp [h]
    · simp

/-- C17. Mute and un-mute: if isForMe holds and DataLength = 0, `rdmMute` (resp. `rdmUnmute`)
leaves the mute flag true (resp. false) and the response is an ACK with DataLength 2 and
Data = 00 00; otherwise both return the driver unchanged: the mute flag keeps its value and
nothing is transmitted. -/
theorem rdmMute_rdmUnmute (K : Headers) (now : Nat) (s : TeensyDmx) (timingStart : Nat)
    (isForMe : Bool) :
    if isForMe = true ∧ active s RDMDATA.DataLength = 0 then
      (rdmMute K now s timingStart isForMe).m_rdmMute = true ∧
      ackSent K s.trace (rdmMute K now s timingStart isForMe) [0, 0] ∧
      (rdmUnmute K now s timingStart isForMe).m_rdmMute = false ∧
      ackSent K s.trace (rdmUnmute K now s timingStart isForMe) [0, 0]
    else
      rdmMute K now s timingStart isForMe = s ∧ rdmUnmute K now s timingStart isForMe = s := by
  by_cases h : isForMe = true ∧ active s RDMDATA.DataLength = 0
  · rw [if_pos h]
    unfold rdmMute rdmUnmute
    simp only [h, and_self, if_true]
    refine ⟨by simp, ?_, by simp, ?_⟩
    · apply ackSent_respond
      · simp
      · simp [bytes, RDMDATA.Data, RDMDATA.DataLength, List.range_succ, Function.update_apply]
    · apply ackSent_respond
      · simp
      · simp [bytes, RDMDATA.Data, RDMDATA.DataLength, List.range_succ, Function.update_apply]
  · rw [if_neg h]
    unfold rdmMute rdmUnmute
    simp only [h, if_false, and_self]

/-- C18. `rdmSetIdentify`: if DataLength is not 1 the response is NACK "format error"; if
DataLength = 1 and Data[0] is neither 0 nor 1 the response is NACK "data out of range"; in
both cases the identify flag and the RDM-changed flag are unchanged; if DataLength = 1 and
Data[0] is 0 or 1 the response is ACK with empty payload, `isIdentify()` afterwards equals
(Data[0] = 1), and the RDM-changed flag is set. -/
theorem rdmSetIdentify_cases (K : Headers) (now : Nat) (s : TeensyDmx) (timingStart : Nat)
    (isForMe : Bool) :
    if active s RDMDATA.DataLength ≠ 1 then
      nackSent K s.trace (rdmSetIdentify K now s timingStart isForMe) K.E120_NR_FORMAT_ERROR ∧
      (rdmSetIdentify K now s timingStart isForMe).m_identifyMode = s.m_identifyMode ∧
      (rdmSetIdentify K now s timingStart isForMe).m_rdmChange = s.m_rdmChange
    else if active s (RDMDATA.Data + 0) ≠ 0 ∧ active s (RDMDATA.Data + 0) ≠ 1 then
      nackSent K s.trace (rdmSetIdentify K now s timingStart isForMe)
        K.E120_NR_DATA_OUT_OF_RANGE ∧
      (rdmSetIdentify K now s timingStart isForMe).m_identifyMode = s.m_identifyMode ∧
      (rdmSetIdentify K now s timingStart isForMe).m_rdmChange = s.m_rdmChange
    else
      ackSent K s.trace (rdmSetIdentify K now s timingStart isForMe) [] ∧
      isIdentify (rdmSetIdentify K now s timingStart isForMe) =
        decide (active s (RDMDATA.Data + 0) = 1) ∧
      (rdmSetIdentify K now s timingStart isForMe).m_rdmChange = true := by
  by_cases h1 : active s RDMDATA.DataLength ≠ 1
  · have e : rdmSetIdentify K now s timingStart isForMe =
        respondMessage K now s timingStart false K.E120_NR_FORMAT_ERROR := by
      unfold rdmSetIdentify
      rw [if_pos h1]
    rw [if_pos h1, e]
    exact ⟨respondMessage_nackSent K now s timingStart _, by simp, by simp⟩
  · rw [if_neg h1]
    by_cases h2 : active s (RDMDATA.Data + 0) ≠ 0 ∧ active s (RDMDATA.Data + 0) ≠ 1
    · have e : rdmSetIdentify K now s timingStart isForMe =
          respondMessage K now s timingStart false K.E120_NR_DATA_OUT_OF_RANGE := by
        unfold rdmSetIdentify
        rw [if_neg h1, if_pos h2]
      rw [if_pos h2, e]
      exact ⟨respondMessage_nackSent K now s timingStart _, by simp, by simp⟩
    · rw [if_neg h2]
      unfold rdmSetIdentify
      rw [if_neg h1, if_neg h2]
      refine ⟨?_, ?_, by simp⟩
      · apply ackSent_respond
        · simp
        · simp [bytes, RDMDATA.DataLength]
      · have h3 : active s (RDMDATA.Data + 0) = 0 ∨ active s (RDMDATA.Data + 0) = 1 := by
          by_contra hc
          exact h2 ⟨fun h => hc (Or.inl h), fun h => hc (Or.inr h)⟩
        rw [Nat.add_zero] at h3
        rcases h3 with h | h <;> simp [isIdentify, h]

/-- C19. Transmit cycle: from state BREAK with index 0, every one of 514 consecutive `nextTx`
calls writes exactly one byte (after k calls the UART has received the first k bytes of: the
start code 0, active[0], ..., active[511], the break byte 0); over the 514 calls the UART is
set to data timing (250000 baud, 8N2) before the start code and to break timing (100000 baud,
8E1) before the break byte; afterwards the driver is as at the start, in state BREAK with
index 0, except for the trace.  Every call returns, so the buffer is never read at an index
of 512 or more. -/
theorem nextTx_cycle (s : TeensyDmx) (hst : s.m_state = State.BREAK)
    (hidx : s.m_dmxBufferIndex = 0) :
    (∀ k, k ≤ 514 → ∃ sk, nextTxTimes k s = some sk ∧
      uartWritten sk.trace =
        uartWritten s.trace ++ (0 :: bytes (active s) 0 512 ++ [0]).take k) ∧
    nextTxTimes 514 s = some
      { s with
        trace := s.trace ++ ([Event.uartBegin 250000 SerialFormat.SERIAL_8N2, Event.uartWrite 0] ++
          (bytes (active s) 0 512).map Event.uartWrite ++
          [Event.uartBegin 100000 SerialFormat.SERIAL_8E1, Event.uartWrite 0]) } ∧
    (∃ s1, nextTxTimes 514 s = some s1 ∧ s1.m_state = State.BREAK ∧ s1.m_dmxBufferIndex = 0 ∧
      active s1 = active s) := by
  have hcycle := nextTxTimes_cycle s hst hidx
  refine ⟨?_, hcycle, ?_⟩
  · intro k hk
    rcases Nat.eq_zero_or_pos k with h0 | hpos
    · subst h0
      exact ⟨s, rfl, by simp⟩
    · by_cases h514 : k = 514
      · subst h514
        refine ⟨_, hcycle, ?_⟩
        have hl : (0 :: bytes (active s) 0 512 ++ [0]).length ≤ 514 := by
          simp only [List.length_append, List.length_cons, bytes_length, List.length_nil]
          omega
        rw [List.take_of_length_le hl]
        exact uartWritten_cycle _ _ _ _ _ _ _ _
      · obtain ⟨j, rfl⟩ : ∃ j, k = 1 + j := ⟨k - 1, by omega⟩
        have hj : j ≤ 512 := by omega
        refine ⟨_, nextTxTimes_burst s hst hidx j hj, ?_⟩
        have ht : (0 :: bytes (active s) 0 512 ++ [0]).take (1 + j) =
            0 :: bytes (active s) 0 j := by
          rw [Nat.add_comm 1 j, List.cons_append, List.take_succ_cons,
            List.take_append_of_le_length (by simpa using hj), take_bytes _ _ _ _ hj]
        rw [ht]
        simp only [uartWritten_append, uartWritten_map_uartWrite, uartWritten,
          List.append_assoc, List.cons_append, List.nil_append, List.append_nil]
  · exact ⟨_, hcycle, hst, hidx, rfl⟩

/-- C19 (instance): a driver after `startTransmit`. -/
theorem nextTx_cycle_witness :
    (startTransmit (init none)).m_state = State.BREAK ∧
    (startTransmit (init none)).m_dmxBufferIndex = 0 ∧
    ∃ s1, nextTxTimes 514 (startTransmit (init none)) = some s1 ∧ s1.m_state = State.BREAK ∧
      s1.m_dmxBufferIndex = 0 ∧ active s1 = active (startTransmit (init none)) :=
  ⟨rfl, rfl, (nextTx_cycle (startTransmit (init none)) rfl rfl).2.2⟩

/-- C20. Uniform GET payload validation: for every request with DataLength > 0, each of the
eight GET handlers (identify, device info, manufacturer label, model description, device
label, software version label, start address, supported parameters) does exactly what
`respondMessage(timingStart, false, E120_NR_FORMAT_ERROR)` does on the request, whatever the
sub-device index: the response is NACK "format error" (its data is the reason code, no
parameter data), and the device state is unchanged. -/
theorem get_handlers_reject_payload (K : Headers) (now : Nat) (s : TeensyDmx)
    (timingStart : Nat) (isForMe : Bool) (hLen : active s RDMDATA.DataLength > 0) :
    rdmGetIdentify K now s timingStart isForMe =
      respondMessage K now s timingStart false K.E120_NR_FORMAT_ERROR ∧
    rdmGetDeviceInfo K now s timingStart isForMe =
      respondMessage K now s timingStart false K.E120_NR_FORMAT_ERROR ∧
    rdmGetManufacturerLabel K now s timingStart isForMe =
      respondMessage K now s timingStart false K.E120_NR_FORMAT_ERROR ∧
    rdmGetModelDescription K now s timingStart isForMe =
      respondMessage K now s timingStart false K.E120_NR_FORMAT_ERROR ∧
    rdmGetDeviceLabel K now s timingStart isForMe =
      some (respondMessage K now s timingStart false K.E120_NR_FORMAT_ERROR) ∧
    rdmGetSoftwareVersion K now s timingStart isForMe =
      respondMessage K now s timingStart false K.E120_NR_FORMAT_ERROR ∧
    rdmGetStartAddress K now s timingStart isForMe =
      respondMessage K now s timingStart false K.E120_NR_FORMAT_ERROR ∧
    rdmGetParameters K now s timingStart isForMe =
      some (respondMessage K now s timingStart false K.E120_NR_FORMAT_ERROR) ∧
    nackSent K s.trace (respondMessage K now s timingStart false K.E120_NR_FORMAT_ERROR)
      K.E120_NR_FORMAT_ERROR ∧
    deviceState (respondMessage K now s timingStart false K.E120_NR_FORMAT_ERROR) =
      deviceState s := by
  refine ⟨?_, ?_, ?_, ?_, ?_, ?_, ?_, ?_, respondMessage_nackSent K now s timingStart _,
    deviceState_respondMessage ..⟩
  · unfold rdmGetIdentify; rw [if_pos hLen]
  · unfold rdmGetDeviceInfo; rw [if_pos hLen]
  · unfold rdmGetManufacturerLabel; rw [if_pos hLen]
  · unfold rdmGetModelDescription; rw [if_pos hLen]
  · unfold rdmGetDeviceLabel; rw [if_pos hLen]
  · unfold rdmGetSoftwareVersion; rw [if_pos hLen]
  · unfold rdmGetStartAddress; rw [if_pos hLen]
  · unfold rdmGetParameters; rw [if_pos hLen]

/-- C20 (instance): a GET identify request that carries one byte of data, sub-device 5. -/
theorem get_handlers_reject_payload_witness :
    active (holding none (rdmMessage _devID sampleController 0 5 0x20 0x1000 [0x01]))
      RDMDATA.DataLength > 0 ∧
    rdmGetIdentify e120 0 (holding none (rdmMessage _devID sampleController 0 5 0x20 0x1000
        [0x01])) 0 true =
      respondMessage e120 0 (holding none (rdmMessage _devID sampleController 0 5 0x20 0x1000
        [0x01])) 0 false e120.E120_NR_FORMAT_ERROR :=
  ⟨by decide,
    (get_handlers_reject_payload e120 0 (holding none (rdmMessage _devID sampleController 0 5
      0x20 0x1000 [0x01])) 0 true (by decide)).1⟩

/-- C21 (failing input). SET requests addressed to sub-device 5 of the device are carried
out: SET identify with data 01 switches the identify flag on, SET device label with data
"AB" replaces the label, SET start address with data 00 07 sets the start address to 7; each
is answered with an ACK without parameter data and none with a NACK, while a GET identify
request for sub-device 5 is answered with NACK "sub-device out of range". -/
theorem set_handlers_ignore_subDev :
    load16 (active (holding none (rdmMessage _devID sampleController 0 5 0x30 0x1000 [0x01])))
      RDMDATA.SubDev ≠ 0 ∧
    (holding none (rdmMessage _devID sampleController 0 5 0x30 0x1000 [0x01])).m_identifyMode =
      false ∧
    (processRDM e120 0 0
      (holding none (rdmMessage _devID sampleController 0 5 0x30 0x1000 [0x01]))).map
        (fun r => (r.m_identifyMode,
          decide (ackSent e120
            (holding none (rdmMessage _devID sampleController 0 5 0x30 0x1000 [0x01])).trace
            r []))) = some (true, true) ∧
    load16 (active (holding none (rdmMessage _devID sampleController 0 5 0x30 0x0082
      [0x41, 0x42]))) RDMDATA.SubDev ≠ 0 ∧
    (processRDM e120 0 0
      (holding none (rdmMessage _devID sampleController 0 5 0x30 0x0082 [0x41, 0x42]))).map
        (fun r => (bytes r.m_deviceLabel 0 3,
          decide (ackSent e120
            (holding none (rdmMessage _devID sampleController 0 5 0x30 0x0082
              [0x41, 0x42])).trace
            r []))) = some ([0x41, 0x42, 0x00], true) ∧
    load16 (active (holding (some sampleConfig) (rdmMessage _devID sampleController 0 5 0x30
      0x00F0 [0x00, 0x07]))) RDMDATA.SubDev ≠ 0 ∧
    (processRDM e120 0 0
      (holding (some sampleConfig) (rdmMessage _devID sampleController 0 5 0x30 0x00F0
        [0x00, 0x07]))).map
        (fun r => (r.m_rdm.map (fun c => c.startAddress),
          decide (ackSent e120
            (holding (some sampleConfig) (rdmMessage _devID sampleController 0 5 0x30 0x00F0
              [0x00, 0x07])).trace
            r []))) = some (some 7, true) ∧
    (processRDM e120 0 0
      (holding none (rdmMessage _devID sampleController 0 5 0x20 0x1000 []))).map
        (fun r => decide (nackSent e120
          (holding none (rdmMessage _devID sampleController 0 5 0x20 0x1000 [])).trace
          r e120.E120_NR_SUB_DEVICE_OUT_OF_RANGE)) = some true := by
  decide

/-- C22 (the code at the failing input). `setChannels(500, values, 4)` zeroes the indices
0..499, copies four values to the indices 500..503, and then zero-fills 512 - 4 = 508 bytes
from index 500 + 4 = 504, that is the indices 504..1011, far past the end of the 512-byte
active buffer: the call has no defined result.  With a start address beyond the buffer,
`setChannels(600, values, 1)`, already the zero prefix of 600 bytes leaves the buffer. -/
theorem setChannels_writes_past_buffer :
    (∃ s1 s2, memsetActive (startTransmit (init none)) 0 500 = some s1 ∧
      memcpyActive s1 500 (fun i => i + 1) 4 = some s2 ∧
      memsetActive s2 (500 + 4) (512 - 4) = none) ∧
    DMX_BUFFER_SIZE < (500 + 4) + (512 - 4) ∧
    setChannels (startTransmit (init none)) 500 (fun i => i + 1) 4 = none ∧
    memsetActive (startTransmit (init none)) 0 600 = none ∧
    setChannels (startTransmit (init none)) 600 (fun i => i + 1) 1 = none := by
  refine ⟨⟨_, _, rfl, rfl, rfl⟩, by decide,
    setChannels_overrun _ _ _ _ (by decide) (by decide), rfl, rfl⟩

/-- C23 (the code at the failing input). After a break, the start code 0x00 and 511 data
bytes 0xFF bring the index to 511 in state DMX_RECV; for the 512th data byte `readBytes`
increments the index to 512 = DMX_BUFFER_SIZE and stores the byte there, outside of the
indices 0..511 of the active buffer: the step, the run over the whole frame and the frame
completion after it have no defined result. -/
theorem readBytes_stores_at_capacity :
    (∃ s1, readBytes (listening none) (0 :: List.replicate 511 0xFF) = some s1 ∧
      s1.m_state = State.DMX_RECV ∧ s1.m_dmxBufferIndex = 511 ∧
      s1.m_dmxBufferIndex + 1 = DMX_BUFFER_SIZE ∧
      readByte s1 0xFF = none) ∧
    readBytes (listening none) (0 :: List.replicate 512 0xFF) = none ∧
    completeFrame e120 (0 :: List.replicate 512 0xFF) 0 0 (listening none) = none := by
  have hfull : readBytes (listening none) (0 :: List.replicate 512 0xFF) = none :=
    readBytes_dmx_overrun _ _ rfl rfl (by rw [List.length_replicate]; decide)
  refine ⟨?_, hfull, ?_⟩
  · obtain ⟨s1, h1, h2, h3, _⟩ := readBytes_dmx_frame (listening none)
      (List.replicate 511 0xFF) rfl rfl (by rw [List.length_replicate]; decide)
    rw [List.length_replicate] at h3
    refine ⟨s1, h1, h2, h3, by rw [h3]; rfl, ?_⟩
    apply readByte_overrun _ _ h2
    rw [h3]; decide
  · unfold completeFrame
    rw [hfull]
    rfl

/-- C24 (the code at the failing input). With a label storage of 32 bytes, a SET device label
request with a payload of 32 bytes 0x5A passes the guard (DataLength is not greater than the
capacity), so the terminating NUL is stored at index DataLength = 32, which is not below the
capacity: the handler, and `processRDM` on the request, have no defined result. -/
theorem rdmSetDeviceLabel_nul_at_capacity :
    active (holding none (rdmMessage _devID sampleController 0 0 0x30 0x0082
      (List.replicate 32 0x5A))) RDMDATA.DataLength = 32 ∧
    e120.sizeof_m_deviceLabel = 32 ∧
    ¬ (active (holding none (rdmMessage _devID sampleController 0 0 0x30 0x0082
      (List.replicate 32 0x5A))) RDMDATA.DataLength > e120.sizeof_m_deviceLabel) ∧
    rdmSetDeviceLabel e120 0 (holding none (rdmMessage _devID sampleController 0 0 0x30 0x0082
      (List.replicate 32 0x5A))) 0 true = none ∧
    (processRDM e120 0 0 (holding none (rdmMessage _devID sampleController 0 0 0x30 0x0082
      (List.replicate 32 0x5A)))).isSome = false := by
  refine ⟨by decide, rfl, by decide, rdmSetDeviceLabel_full e120 0 _ 0 true (by decide),
    by decide⟩

/-- C25. Discovery reply is decodable: `rdmUniqueBranch` either returns the driver unchanged
or writes the break byte followed by the 24 bytes of the reply it built; in that reply, for
every i in 0..5 the bitwise AND of maskedDevID[2i] and maskedDevID[2i+1] is the device ID
byte i, and the 16-bit checksum recovered as
((checksum[0] AND checksum[1]) << 8) | (checksum[2] AND checksum[3]) is the sum of the twelve
maskedDevID bytes sent, which is 6 * 0xFF plus the sum of the six ID bytes. -/
theorem discovery_reply_decodable (s : TeensyDmx) (timingStart : Nat) (isForMe : Bool) :
    (rdmUniqueBranch s timingStart isForMe = s ∨
      uartWritten (rdmUniqueBranch s timingStart isForMe).trace =
        uartWritten s.trace ++ 0 :: bytes (active (fillDiscovery s)) 0 DISCOVERYMSG.sizeof) ∧
    (List.range 6).map (fun i =>
      active (fillDiscovery s) (DISCOVERYMSG.maskedDevID + 2 * i) &&&
        active (fillDiscovery s) (DISCOVERYMSG.maskedDevID + (2 * i + 1))) = _devID ∧
    ((active (fillDiscovery s) (DISCOVERYMSG.checksum + 0) &&&
        active (fillDiscovery s) (DISCOVERYMSG.checksum + 1)) <<< 8) |||
      (active (fillDiscovery s) (DISCOVERYMSG.checksum + 2) &&&
        active (fillDiscovery s) (DISCOVERYMSG.checksum + 3)) =
      (bytes (active (fillDiscovery s)) DISCOVERYMSG.maskedDevID 12).sum ∧
    (bytes (active (fillDiscovery s)) DISCOVERYMSG.maskedDevID 12).sum =
      6 * 0xFF + _devID.sum := by
  refine ⟨?_, ?_, ?_, ?_⟩
  · by_cases hMute : s.m_rdmMute = false
    · by_cases hLen : active s RDMDATA.Length = 36
      · by_cases hData : active s RDMDATA.DataLength = 12
        · by_cases hIn : memcmp (bytes (active s) RDMDATA.Data 6) _devID ≤ 0 ∧
              memcmp _devID (bytes (active s) (RDMDATA.Data + 6) 6) ≤ 0
          · right
            rw [rdmUniqueBranch_inRange s timingStart isForMe hMute hLen hData hIn.1 hIn.2]
            simp [uartWritten]
            rfl
          · exact Or.inl (rdmUniqueBranch_outOfRange s timingStart isForMe hIn)
        · left
          unfold rdmUniqueBranch
          simp [hData]
      · left
        unfold rdmUniqueBranch
        simp [hLen]
    · left
      unfold rdmUniqueBranch
      simp [hMute]
  · have r6 : List.range 6 = [0, 1, 2, 3, 4, 5] := by decide
    rw [active_fillDiscovery, r6]
    simp [Function.update_apply, DISCOVERYMSG.maskedDevID, _devID]
    decide
  · have r12 : List.range 12 = [0, 1, 2, 3, 4, 5, 6, 7, 8, 9, 10, 11] := by decide
    rw [active_fillDiscovery, bytes, r12]
    simp [Function.update_apply, DISCOVERYMSG.maskedDevID, DISCOVERYMSG.checksum]
    decide
  · have r12 : List.range 12 = [0, 1, 2, 3, 4, 5, 6, 7, 8, 9, 10, 11] := by decide
    rw [active_fillDiscovery, bytes, r12]
    simp [Function.update_apply, DISCOVERYMSG.maskedDevID, _devID]

end TeensyDmx
